import Mathlib

/-!
Generated statechart dispatchers.

A shallow embedding of the three generated machines `firstExample`, `submachineTest0` and
`submachineTest1` (`src/Examples`).  Each machine owns three static arrays
(`currentChild_a`, `isIn_a`, `timeEntered_a`); they are modelled as total functions on
`Fin OR_STATE_COUNT`, respectively `Fin STATE_COUNT`, collected in a `Store`.

* `TIME_T` is `unsigned int`; its values are naturals and the cast `(TIME_T)(x)` is the
  reduction modulo `2^32`.
* User callables (`ready_query`, `start`, `stop`, `act1`) are external functions.  They are
  parameters of the dispatcher, and every invocation is appended to a call log together with
  the status argument and a snapshot of the arrays at the moment of the call.
* `assertUnreachable()` is fatal: a dispatcher or exit routine reaching it yields `none`.
* For the array bounds the three files are read a second time (`Checked`), with the arrays as
  lists, plain natural numbers as subscripts, and a log of every subscripted access.
-/

set_option linter.unusedVariables false

/-! ## Definitions shared by the three generated files -/

/-- The type `TIME_T` (`unsigned int`), carried as a natural number. -/
abbrev TIME_T := Nat

/-- The cast `(TIME_T)(x)`: reduction of an integer to an unsigned 32-bit value. -/
def toTIME_T (x : Int) : Nat := (x % 4294967296).toNat

/-- The macro `IS_AFTER(d, t0, t1)`, i.e. `((TIME_T)(d) <= (TIME_T)((t1)-(t0)))`. -/
def IS_AFTER (d : Nat) (t0 t1 : TIME_T) : Bool :=
  decide (toTIME_T (d : Int) ≤ toTIME_T ((t1 : Int) - (t0 : Int)))

/-- The macro `TO_DURATION(x)`, which appends the suffix `u` to the literal. -/
def TO_DURATION (x : Nat) : Nat := x

/-- The type `LOCAL_INDEX_T` (`int`). -/
abbrev LOCAL_INDEX_T := Int

/-- The type `status_t` (`int`). -/
abbrev status_t := Int

/-- The constant `OK_STATUS`. -/
def OK_STATUS : status_t := 0

/-- Array assignment `a[i] = v`. -/
def setAt {n : Nat} {α : Type} (a : Fin n → α) (i : Fin n) (v : α) : Fin n → α :=
  fun j => if j = i then v else a j

/-! ## firstExample -/

namespace firstExample

/-- The enumeration `eventClass_t` of `firstExample_types.h`. -/
inductive eventClass_t where
  | GO
  | KILL
  | TICK
  deriving DecidableEq, Repr

/-- The struct `event_t`: the tag and the members of the anonymous union (`go.a`, `go.b`,
`kill.d`).  The dispatcher reads only the tag. -/
structure event_t where
  tag : eventClass_t
  go_a : Int
  go_b : Int
  kill_d : Int

/-- The macro `eventClassOf`. -/
def eventClassOf (event_p : event_t) : eventClass_t := event_p.tag

abbrev STATE_COUNT : Nat := 3
abbrev OR_STATE_COUNT : Nat := 1

def G_INDEX_root : Fin STATE_COUNT := ⟨0, by decide⟩
def G_INDEX_IDLE : Fin STATE_COUNT := ⟨1, by decide⟩
def L_INDEX_IDLE : LOCAL_INDEX_T := 0
def G_INDEX_RUNNING : Fin STATE_COUNT := ⟨2, by decide⟩
def L_INDEX_RUNNING : LOCAL_INDEX_T := 1
def L_INDEX_C : LOCAL_INDEX_T := 2

/-- The index `G_INDEX_root` used into `currentChild_a`, whose size is `OR_STATE_COUNT`. -/
def OR_INDEX_root : Fin OR_STATE_COUNT := ⟨G_INDEX_root.val, by decide⟩

/-- The three static arrays of the machine. -/
structure Store where
  currentChild_a : Fin OR_STATE_COUNT → LOCAL_INDEX_T
  isIn_a : Fin STATE_COUNT → Bool
  timeEntered_a : Fin STATE_COUNT → TIME_T

/-- Static storage is zero-initialised: nothing active, all indices and times zero. -/
def zeroStore : Store :=
  { currentChild_a := fun _ => 0, isIn_a := fun _ => false, timeEntered_a := fun _ => 0 }

/-- The user callables declared in `firstExample_actionsAndGuards.h`. -/
structure callables_t where
  ready_query : event_t → status_t → Bool
  start : event_t → status_t → status_t
  stop : event_t → status_t → status_t

/-- Names of the user callables. -/
inductive callee_t where
  | ready_query
  | start
  | stop
  deriving DecidableEq, Repr

/-- One invocation of a user callable: which one, the status passed, and the arrays at the
moment of the call. -/
structure call_t where
  callee : callee_t
  status : status_t
  store : Store

/-- The state of a dispatch in progress: the local array `handled_a`, the static arrays and
the calls made so far. -/
structure frame_t where
  handled_a : Fin STATE_COUNT → Bool
  store : Store
  calls : List call_t

/-- Appends an invocation of a user callable to the call log. -/
def frame_t.record (f : frame_t) (callee : callee_t) (status : status_t) : frame_t :=
  { f with calls := f.calls ++ [{ callee := callee, status := status, store := f.store }] }

/-- What a completed dispatch leaves behind: the returned flag, the arrays and the calls
made. -/
structure outcome_t where
  handled : Bool
  store : Store
  calls : List call_t

def enter_IDLE (childIndex : LOCAL_INDEX_T) (now : TIME_T) (s : Store) : Store :=
  let s := { s with isIn_a := setAt s.isIn_a G_INDEX_IDLE true }
  let s := { s with timeEntered_a := setAt s.timeEntered_a G_INDEX_IDLE now }
  { s with currentChild_a := setAt s.currentChild_a OR_INDEX_root L_INDEX_IDLE }

def exit_IDLE (childIndex : LOCAL_INDEX_T) (s : Store) : Store :=
  { s with isIn_a := setAt s.isIn_a G_INDEX_IDLE false }

def enter_RUNNING (childIndex : LOCAL_INDEX_T) (now : TIME_T) (s : Store) : Store :=
  let s := { s with isIn_a := setAt s.isIn_a G_INDEX_RUNNING true }
  let s := { s with timeEntered_a := setAt s.timeEntered_a G_INDEX_RUNNING now }
  { s with currentChild_a := setAt s.currentChild_a OR_INDEX_root L_INDEX_RUNNING }

def exit_RUNNING (childIndex : LOCAL_INDEX_T) (s : Store) : Store :=
  { s with isIn_a := setAt s.isIn_a G_INDEX_RUNNING false }

def enter_root (childIndex : LOCAL_INDEX_T) (now : TIME_T) (s : Store) : Store :=
  let s := { s with isIn_a := setAt s.isIn_a G_INDEX_root true }
  let s := { s with timeEntered_a := setAt s.timeEntered_a G_INDEX_root now }
  if childIndex = -1 then enter_IDLE (-1) now s else s

def initStateMachine_firstExample (now : TIME_T) (s : Store) : Store :=
  enter_root (-1) now s

/-- The block `Code for basic state 'IDLE'` of `dispatchEvent_firstExample`. -/
def basic_IDLE (cb : callables_t) (event_p : event_t) (now : TIME_T) (f : frame_t) : frame_t :=
  match eventClassOf event_p with
  | .GO =>
    let status : status_t := OK_STATUS
    let f := { f with handled_a := setAt f.handled_a G_INDEX_IDLE true }
    /- Transition from IDLE to C. -/
    let f := { f with store := exit_IDLE (-1) f.store }
    let f := f.record .ready_query status
    if cb.ready_query event_p status then
      /- Transition from C to RUNNING. -/
      let f := f.record .start status
      let status := cb.start event_p status
      { f with store := enter_RUNNING (-1) now f.store }
    else
      /- Transition from C to IDLE. -/
      { f with store := enter_IDLE (-1) now f.store }
  | _ => f

/-- The block `Code for basic state 'RUNNING'` of `dispatchEvent_firstExample`. -/
def basic_RUNNING (cb : callables_t) (event_p : event_t) (now : TIME_T) (f : frame_t) :
    frame_t :=
  match eventClassOf event_p with
  | .KILL =>
    let status : status_t := OK_STATUS
    let f := { f with handled_a := setAt f.handled_a G_INDEX_RUNNING true }
    /- Transition from RUNNING to IDLE. -/
    let f := { f with store := exit_RUNNING (-1) f.store }
    let f := f.record .stop status
    let status := cb.stop event_p status
    { f with store := enter_IDLE (-1) now f.store }
  | .TICK =>
    /- Code for after( 60000.0 ms ) -/
    if (! f.handled_a G_INDEX_RUNNING)
        && IS_AFTER (TO_DURATION 60000) (f.store.timeEntered_a G_INDEX_RUNNING) now then
      let status : status_t := OK_STATUS
      let f := { f with handled_a := setAt f.handled_a G_INDEX_RUNNING true }
      /- Transition from RUNNING to IDLE. -/
      let f := { f with store := exit_RUNNING (-1) f.store }
      let f := f.record .stop status
      let status := cb.stop event_p status
      { f with store := enter_IDLE (-1) now f.store }
    else f
  | _ => f

/-- The block `Code for OR state 'root'`; `none` when `assertUnreachable()` is reached. -/
def or_root (cb : callables_t) (event_p : event_t) (now : TIME_T) (f : frame_t) :
    Option frame_t :=
  if f.store.currentChild_a OR_INDEX_root = L_INDEX_IDLE then
    let f := basic_IDLE cb event_p now f
    some { f with handled_a := setAt f.handled_a G_INDEX_root (f.handled_a G_INDEX_IDLE) }
  else if f.store.currentChild_a OR_INDEX_root = L_INDEX_RUNNING then
    let f := basic_RUNNING cb event_p now f
    some { f with handled_a := setAt f.handled_a G_INDEX_root (f.handled_a G_INDEX_RUNNING) }
  else none

def dispatchEvent_firstExample (cb : callables_t) (event_p : event_t) (now : TIME_T)
    (s : Store) : Option outcome_t :=
  let f : frame_t := { handled_a := fun _ => false, store := s, calls := [] }
  match or_root cb event_p now f with
  | some f => some { handled := f.handled_a G_INDEX_root, store := f.store, calls := f.calls }
  | none => none

/-- One call of the dispatcher by the host: the callables as they behave during that call,
the event and the time. -/
structure step_t where
  cb : callables_t
  event : event_t
  now : TIME_T

/-- A sequence of dispatches, each starting from the arrays the previous one left; the result
lists the outcome of every dispatch, or is `none` if one of them was fatal. -/
def dispatchAll : List step_t → Store → Option (List outcome_t)
  | [], _ => some []
  | st :: rest, s =>
    match dispatchEvent_firstExample st.cb st.event st.now s with
    | none => none
    | some o =>
      match dispatchAll rest o.store with
      | none => none
      | some os => some (o :: os)

/-- The number of invocations of a callable in a call log. -/
def countCalls (c : callee_t) (calls : List call_t) : Nat :=
  (calls.filter fun k => decide (k.callee = c)).length

/-- The active set is exactly `{root, IDLE}` and `currentChild_a[root]` designates `IDLE`. -/
def leafIDLE (s : Store) : Prop :=
  s.isIn_a G_INDEX_root = true ∧ s.isIn_a G_INDEX_IDLE = true ∧
    s.isIn_a G_INDEX_RUNNING = false ∧ s.currentChild_a OR_INDEX_root = L_INDEX_IDLE

/-- The active set is exactly `{root, RUNNING}` and `currentChild_a[root]` designates
`RUNNING`. -/
def leafRUNNING (s : Store) : Prop :=
  s.isIn_a G_INDEX_root = true ∧ s.isIn_a G_INDEX_IDLE = false ∧
    s.isIn_a G_INDEX_RUNNING = true ∧ s.currentChild_a OR_INDEX_root = L_INDEX_RUNNING

/-- The active path is consistent: the root is active, exactly one of `IDLE` and `RUNNING` is
active, and `currentChild_a[root]` is the local index of that state. -/
def wellFormed (s : Store) : Prop := leafIDLE s ∨ leafRUNNING s

/-- The total number of invocations of a callable over a list of dispatch outcomes. -/
def totalCalls (c : callee_t) (outs : List outcome_t) : Nat :=
  (outs.map fun o => countCalls c o.calls).sum

/-- Sample callables: a guard that always holds and actions that return their status. -/
def readyCallables : callables_t :=
  { ready_query := fun _ _ => true, start := fun _ st => st, stop := fun _ st => st }

/-- A sample event of class `c` with zero payload. -/
def eventOf (c : eventClass_t) : event_t := { tag := c, go_a := 0, go_b := 0, kill_d := 0 }

/-- A sample store with active leaf `IDLE`: the machine right after initialisation at time 0. -/
def idleStore : Store := initStateMachine_firstExample 0 zeroStore

/-- A sample store with active leaf `RUNNING`, entered at time `t0`. -/
def runningStore (t0 : TIME_T) : Store := enter_RUNNING (-1) t0 (exit_IDLE (-1) idleStore)

/-- A `TICK` dispatch `e` time units after `t0` on the 32-bit counter, paired with `e`. -/
def tickAfter (t0 : TIME_T) (e : Nat) : step_t × Nat :=
  ({ cb := readyCallables, event := eventOf .TICK, now := (t0 + e) % 4294967296 }, e)

/-- A sample run of `TICK` dispatches that starts just below the wraparound of the counter. -/
def sampleTicks : List (step_t × Nat) :=
  [tickAfter 0xFFFFFF00 0, tickAfter 0xFFFFFF00 59999, tickAfter 0xFFFFFF00 60000,
    tickAfter 0xFFFFFF00 70000]

/-- Sample callables whose guard never holds; the actions return their status. -/
def unreadyCallables : callables_t :=
  { ready_query := fun _ _ => false, start := fun _ st => st, stop := fun _ st => st }

/-- The basic state designated by the `currentChild_a` chain from the root, following the
`switch` of the dispatcher; `none` where the dispatcher reaches `assertUnreachable()`. -/
def activeLeaf (s : Store) : Option (Fin STATE_COUNT) :=
  if s.currentChild_a OR_INDEX_root = L_INDEX_IDLE then some G_INDEX_IDLE
  else if s.currentChild_a OR_INDEX_root = L_INDEX_RUNNING then some G_INDEX_RUNNING
  else none

end firstExample

/-! ## submachineTest0 -/

namespace submachineTest0

/-- Modelled from the spec: the event type of `submachineTest0_preamble.h` is not among the
sources.  An event carries a class discriminant; the classes are the ones the dispatcher names
in its `case` labels, and `other` stands for any further class of the preamble, which every
`switch` of the dispatcher sends to `default`. -/
inductive eventClass_t where
  | P
  | Q
  | R
  | TICK
  | other (tag : Nat)
  deriving DecidableEq, Repr

/-- Modelled from the spec: the struct `event_t` of the missing preamble, reduced to the
discriminant the dispatcher reads. -/
structure event_t where
  tag : eventClass_t

/-- Modelled from the spec: the accessor `eventClassOf` of the missing preamble. -/
def eventClassOf (event_p : event_t) : eventClass_t := event_p.tag

abbrev STATE_COUNT : Nat := 6
abbrev OR_STATE_COUNT : Nat := 2

def G_INDEX_Sub0 : Fin STATE_COUNT := ⟨0, by decide⟩
def L_INDEX_Sub0 : LOCAL_INDEX_T := 2
def G_INDEX_root : Fin STATE_COUNT := ⟨1, by decide⟩
def G_INDEX_A__Sub0 : Fin STATE_COUNT := ⟨2, by decide⟩
def L_INDEX_A__Sub0 : LOCAL_INDEX_T := 0
def G_INDEX_B__Sub0 : Fin STATE_COUNT := ⟨3, by decide⟩
def L_INDEX_B__Sub0 : LOCAL_INDEX_T := 1
def G_INDEX_A : Fin STATE_COUNT := ⟨4, by decide⟩
def L_INDEX_A : LOCAL_INDEX_T := 0
def G_INDEX_B : Fin STATE_COUNT := ⟨5, by decide⟩
def L_INDEX_B : LOCAL_INDEX_T := 1

/-- The index `G_INDEX_Sub0` used into `currentChild_a`, whose size is `OR_STATE_COUNT`. -/
def OR_INDEX_Sub0 : Fin OR_STATE_COUNT := ⟨G_INDEX_Sub0.val, by decide⟩

/-- The index `G_INDEX_root` used into `currentChild_a`, whose size is `OR_STATE_COUNT`. -/
def OR_INDEX_root : Fin OR_STATE_COUNT := ⟨G_INDEX_root.val, by decide⟩

/-- The three static arrays of the machine. -/
structure Store where
  currentChild_a : Fin OR_STATE_COUNT → LOCAL_INDEX_T
  isIn_a : Fin STATE_COUNT → Bool
  timeEntered_a : Fin STATE_COUNT → TIME_T

/-- Static storage is zero-initialised: nothing active, all indices and times zero. -/
def zeroStore : Store :=
  { currentChild_a := fun _ => 0, isIn_a := fun _ => false, timeEntered_a := fun _ => 0 }

/-- The state of a dispatch in progress: the local array `handled_a` and the static arrays. -/
structure frame_t where
  handled_a : Fin STATE_COUNT → Bool
  store : Store

/-- What a completed dispatch leaves behind: the returned flag and the arrays. -/
structure outcome_t where
  handled : Bool
  store : Store

def enter_A__Sub0 (childIndex : LOCAL_INDEX_T) (now : TIME_T) (s : Store) : Store :=
  let s := { s with isIn_a := setAt s.isIn_a G_INDEX_A__Sub0 true }
  let s := { s with timeEntered_a := setAt s.timeEntered_a G_INDEX_A__Sub0 now }
  { s with currentChild_a := setAt s.currentChild_a OR_INDEX_Sub0 L_INDEX_A__Sub0 }

def exit_A__Sub0 (childIndex : LOCAL_INDEX_T) (s : Store) : Store :=
  { s with isIn_a := setAt s.isIn_a G_INDEX_A__Sub0 false }

def enter_B__Sub0 (childIndex : LOCAL_INDEX_T) (now : TIME_T) (s : Store) : Store :=
  let s := { s with isIn_a := setAt s.isIn_a G_INDEX_B__Sub0 true }
  let s := { s with timeEntered_a := setAt s.timeEntered_a G_INDEX_B__Sub0 now }
  { s with currentChild_a := setAt s.currentChild_a OR_INDEX_Sub0 L_INDEX_B__Sub0 }

def exit_B__Sub0 (childIndex : LOCAL_INDEX_T) (s : Store) : Store :=
  { s with isIn_a := setAt s.isIn_a G_INDEX_B__Sub0 false }

def enter_A (childIndex : LOCAL_INDEX_T) (now : TIME_T) (s : Store) : Store :=
  let s := { s with isIn_a := setAt s.isIn_a G_INDEX_A true }
  let s := { s with timeEntered_a := setAt s.timeEntered_a G_INDEX_A now }
  { s with currentChild_a := setAt s.currentChild_a OR_INDEX_root L_INDEX_A }

def exit_A (childIndex : LOCAL_INDEX_T) (s : Store) : Store :=
  { s with isIn_a := setAt s.isIn_a G_INDEX_A false }

def enter_B (childIndex : LOCAL_INDEX_T) (now : TIME_T) (s : Store) : Store :=
  let s := { s with isIn_a := setAt s.isIn_a G_INDEX_B true }
  let s := { s with timeEntered_a := setAt s.timeEntered_a G_INDEX_B now }
  { s with currentChild_a := setAt s.currentChild_a OR_INDEX_root L_INDEX_B }

def exit_B (childIndex : LOCAL_INDEX_T) (s : Store) : Store :=
  { s with isIn_a := setAt s.isIn_a G_INDEX_B false }

def enter_Sub0 (childIndex : LOCAL_INDEX_T) (now : TIME_T) (s : Store) : Store :=
  let s := { s with isIn_a := setAt s.isIn_a G_INDEX_Sub0 true }
  let s := { s with timeEntered_a := setAt s.timeEntered_a G_INDEX_Sub0 now }
  let s := { s with currentChild_a := setAt s.currentChild_a OR_INDEX_root L_INDEX_Sub0 }
  if childIndex = -1 then enter_A__Sub0 (-1) now s else s

/-- The routine `exit_Sub0`; `none` when `assertUnreachable()` is reached. -/
def exit_Sub0 (childIndex : LOCAL_INDEX_T) (s : Store) : Option Store :=
  let r : Option Store :=
    if childIndex = -1 then
      let current : LOCAL_INDEX_T := s.currentChild_a OR_INDEX_Sub0
      if current = L_INDEX_A__Sub0 then some (exit_A__Sub0 (-1) s)
      else if current = L_INDEX_B__Sub0 then some (exit_B__Sub0 (-1) s)
      else none
    else some s
  match r with
  | some s => some { s with isIn_a := setAt s.isIn_a G_INDEX_Sub0 false }
  | none => none

def enter_root (childIndex : LOCAL_INDEX_T) (now : TIME_T) (s : Store) : Store :=
  let s := { s with isIn_a := setAt s.isIn_a G_INDEX_root true }
  let s := { s with timeEntered_a := setAt s.timeEntered_a G_INDEX_root now }
  if childIndex = -1 then enter_A (-1) now s else s

def initStateMachine_submachineTest0 (now : TIME_T) (s : Store) : Store :=
  enter_root (-1) now s

/-- The block `Code for basic state 'B'` of `dispatchEvent_submachineTest0`. -/
def basic_B (event_p : event_t) (now : TIME_T) (f : frame_t) : frame_t :=
  match eventClassOf event_p with
  | .Q =>
    let status : status_t := OK_STATUS
    let f := { f with handled_a := setAt f.handled_a G_INDEX_B true }
    /- Transition from B to Sub0. -/
    let f := { f with store := exit_B (-1) f.store }
    { f with store := enter_Sub0 (-1) now f.store }
  | _ => f

/-- The block `Code for basic state 'A__Sub0'`. -/
def basic_A__Sub0 (event_p : event_t) (now : TIME_T) (f : frame_t) : frame_t :=
  match eventClassOf event_p with
  | .TICK =>
    /- Code for after( 0.0 ms ) -/
    if ! f.handled_a G_INDEX_A__Sub0 then
      let status : status_t := OK_STATUS
      let f := { f with handled_a := setAt f.handled_a G_INDEX_A__Sub0 true }
      /- Transition from A__Sub0 to B__Sub0. -/
      let f := { f with store := exit_A__Sub0 (-1) f.store }
      { f with store := enter_B__Sub0 (-1) now f.store }
    else f
  | _ => f

/-- The block `Code for basic state 'B__Sub0'`: the state has no outgoing transitions. -/
def basic_B__Sub0 (event_p : event_t) (now : TIME_T) (f : frame_t) : frame_t := f

/-- The block `Code for basic state 'A'`. -/
def basic_A (event_p : event_t) (now : TIME_T) (f : frame_t) : frame_t :=
  match eventClassOf event_p with
  | .P =>
    let status : status_t := OK_STATUS
    let f := { f with handled_a := setAt f.handled_a G_INDEX_A true }
    /- Transition from A to B. -/
    let f := { f with store := exit_A (-1) f.store }
    { f with store := enter_B (-1) now f.store }
  | _ => f

/-- The `switch` over `currentChild_a[G_INDEX_Sub0]` inside the block of `Sub0`. -/
def or_Sub0_child (event_p : event_t) (now : TIME_T) (f : frame_t) : Option frame_t :=
  if f.store.currentChild_a OR_INDEX_Sub0 = L_INDEX_A__Sub0 then
    let f := basic_A__Sub0 event_p now f
    some { f with handled_a := setAt f.handled_a G_INDEX_Sub0 (f.handled_a G_INDEX_A__Sub0) }
  else if f.store.currentChild_a OR_INDEX_Sub0 = L_INDEX_B__Sub0 then
    let f := basic_B__Sub0 event_p now f
    some { f with handled_a := setAt f.handled_a G_INDEX_Sub0 (f.handled_a G_INDEX_B__Sub0) }
  else none

/-- The block `Event handling code for state Sub0`, run when no child handled the event. -/
def own_Sub0 (event_p : event_t) (now : TIME_T) (f : frame_t) : Option frame_t :=
  match eventClassOf event_p with
  | .R =>
    let status : status_t := OK_STATUS
    let f := { f with handled_a := setAt f.handled_a G_INDEX_Sub0 true }
    /- Transition from Sub0 to A. -/
    match exit_Sub0 (-1) f.store with
    | some s => some { f with store := enter_A (-1) now s }
    | none => none
  | _ => some f

/-- The block `Code for OR state 'Sub0'`; `none` when `assertUnreachable()` is reached. -/
def or_Sub0 (event_p : event_t) (now : TIME_T) (f : frame_t) : Option frame_t :=
  match or_Sub0_child event_p now f with
  | some f => if ! f.handled_a G_INDEX_Sub0 then own_Sub0 event_p now f else some f
  | none => none

/-- The block `Code for OR state 'root'`; `none` when `assertUnreachable()` is reached. -/
def or_root (event_p : event_t) (now : TIME_T) (f : frame_t) : Option frame_t :=
  if f.store.currentChild_a OR_INDEX_root = L_INDEX_B then
    let f := basic_B event_p now f
    some { f with handled_a := setAt f.handled_a G_INDEX_root (f.handled_a G_INDEX_B) }
  else if f.store.currentChild_a OR_INDEX_root = L_INDEX_Sub0 then
    match or_Sub0 event_p now f with
    | some f =>
      some { f with handled_a := setAt f.handled_a G_INDEX_root (f.handled_a G_INDEX_Sub0) }
    | none => none
  else if f.store.currentChild_a OR_INDEX_root = L_INDEX_A then
    let f := basic_A event_p now f
    some { f with handled_a := setAt f.handled_a G_INDEX_root (f.handled_a G_INDEX_A) }
  else none

def dispatchEvent_submachineTest0 (event_p : event_t) (now : TIME_T) (s : Store) :
    Option outcome_t :=
  let f : frame_t := { handled_a := fun _ => false, store := s }
  match or_root event_p now f with
  | some f => some { handled := f.handled_a G_INDEX_root, store := f.store }
  | none => none

/-- One call of the dispatcher by the host: the event and the time. -/
structure step_t where
  event : event_t
  now : TIME_T

/-- A sequence of dispatches, each starting from the arrays the previous one left; the result
lists the outcome of every dispatch, or is `none` if one of them was fatal. -/
def dispatchAll : List step_t → Store → Option (List outcome_t)
  | [], _ => some []
  | st :: rest, s =>
    match dispatchEvent_submachineTest0 st.event st.now s with
    | none => none
    | some o =>
      match dispatchAll rest o.store with
      | none => none
      | some os => some (o :: os)

/-- The list of the flags `isIn_a`, in the order of the global indices
`Sub0, root, A__Sub0, B__Sub0, A, B`. -/
def activeFlags (s : Store) : List Bool :=
  [s.isIn_a G_INDEX_Sub0, s.isIn_a G_INDEX_root, s.isIn_a G_INDEX_A__Sub0,
    s.isIn_a G_INDEX_B__Sub0, s.isIn_a G_INDEX_A, s.isIn_a G_INDEX_B]

/-- The active set is exactly `{root, A}` and `currentChild_a[root]` designates `A`. -/
def pathA (s : Store) : Prop :=
  activeFlags s = [false, true, false, false, true, false] ∧
    s.currentChild_a OR_INDEX_root = L_INDEX_A

/-- The active set is exactly `{root, B}` and `currentChild_a[root]` designates `B`. -/
def pathB (s : Store) : Prop :=
  activeFlags s = [false, true, false, false, false, true] ∧
    s.currentChild_a OR_INDEX_root = L_INDEX_B

/-- The active set is exactly `{root, Sub0, A__Sub0}`, with `currentChild_a[root]` designating
`Sub0` and `currentChild_a[Sub0]` designating `A__Sub0`. -/
def pathSub0_A (s : Store) : Prop :=
  activeFlags s = [true, true, true, false, false, false] ∧
    s.currentChild_a OR_INDEX_root = L_INDEX_Sub0 ∧
    s.currentChild_a OR_INDEX_Sub0 = L_INDEX_A__Sub0

/-- The active set is exactly `{root, Sub0, B__Sub0}`, with `currentChild_a[root]` designating
`Sub0` and `currentChild_a[Sub0]` designating `B__Sub0`. -/
def pathSub0_B (s : Store) : Prop :=
  activeFlags s = [true, true, false, true, false, false] ∧
    s.currentChild_a OR_INDEX_root = L_INDEX_Sub0 ∧
    s.currentChild_a OR_INDEX_Sub0 = L_INDEX_B__Sub0

/-- The active path is one of the four consistent paths of the machine. -/
def wellFormed (s : Store) : Prop := pathA s ∨ pathB s ∨ pathSub0_A s ∨ pathSub0_B s

/-- A sample store on the path `root/A`: the machine right after initialisation at time 0. -/
def storeA : Store := initStateMachine_submachineTest0 0 zeroStore

/-- A sample store on the path `root/B`, reached from `storeA` by `P` at time 1. -/
def storeB : Store := enter_B (-1) 1 (exit_A (-1) storeA)

/-- A sample store on the path `root/Sub0/A__Sub0`, reached from `storeB` by `Q` at time 2. -/
def storeSub0_A : Store := enter_Sub0 (-1) 2 (exit_B (-1) storeB)

/-- A sample store on the path `root/Sub0/B__Sub0`, reached from `storeSub0_A` by `TICK` at
time 3. -/
def storeSub0_B : Store := enter_B__Sub0 (-1) 3 (exit_A__Sub0 (-1) storeSub0_A)

/-- The basic state designated by the `currentChild_a` chain from the root, following the
nested `switch`es of the dispatcher; `none` where the dispatcher reaches
`assertUnreachable()`. -/
def activeLeaf (s : Store) : Option (Fin STATE_COUNT) :=
  if s.currentChild_a OR_INDEX_root = L_INDEX_B then some G_INDEX_B
  else if s.currentChild_a OR_INDEX_root = L_INDEX_Sub0 then
    if s.currentChild_a OR_INDEX_Sub0 = L_INDEX_A__Sub0 then some G_INDEX_A__Sub0
    else if s.currentChild_a OR_INDEX_Sub0 = L_INDEX_B__Sub0 then some G_INDEX_B__Sub0
    else none
  else if s.currentChild_a OR_INDEX_root = L_INDEX_A then some G_INDEX_A
  else none

end submachineTest0

/-! ## submachineTest1 -/

namespace submachineTest1

/-- Modelled from the spec: the event type of `submachineTest1_preamble.h` is not among the
sources.  An event carries a class discriminant; the classes are the ones the dispatcher names
in its `case` labels, and `other` stands for any further class of the preamble, which every
`switch` of the dispatcher sends to `default`. -/
inductive eventClass_t where
  | TICK
  | x
  | y
  | P
  | other (tag : Nat)
  deriving DecidableEq, Repr

/-- Modelled from the spec: the struct `event_t` of the missing preamble, reduced to the
discriminant the dispatcher reads. -/
structure event_t where
  tag : eventClass_t

/-- Modelled from the spec: the accessor `eventClassOf` of the missing preamble. -/
def eventClassOf (event_p : event_t) : eventClass_t := event_p.tag

abbrev STATE_COUNT : Nat := 6
abbrev OR_STATE_COUNT : Nat := 2

def G_INDEX_Sub1 : Fin STATE_COUNT := ⟨0, by decide⟩
def L_INDEX_Sub1 : LOCAL_INDEX_T := 2
def G_INDEX_root : Fin STATE_COUNT := ⟨1, by decide⟩
def G_INDEX_B : Fin STATE_COUNT := ⟨2, by decide⟩
def L_INDEX_B : LOCAL_INDEX_T := 1
def G_INDEX_V__Sub1 : Fin STATE_COUNT := ⟨3, by decide⟩
def L_INDEX_V__Sub1 : LOCAL_INDEX_T := 1
def G_INDEX_U__Sub1 : Fin STATE_COUNT := ⟨4, by decide⟩
def L_INDEX_U__Sub1 : LOCAL_INDEX_T := 0
def G_INDEX_A : Fin STATE_COUNT := ⟨5, by decide⟩
def L_INDEX_A : LOCAL_INDEX_T := 0
def L_INDEX_Y__Sub1 : LOCAL_INDEX_T := 3
def L_INDEX_X__Sub1 : LOCAL_INDEX_T := 2

/-- The index `G_INDEX_Sub1` used into `currentChild_a`, whose size is `OR_STATE_COUNT`. -/
def OR_INDEX_Sub1 : Fin OR_STATE_COUNT := ⟨G_INDEX_Sub1.val, by decide⟩

/-- The index `G_INDEX_root` used into `currentChild_a`, whose size is `OR_STATE_COUNT`. -/
def OR_INDEX_root : Fin OR_STATE_COUNT := ⟨G_INDEX_root.val, by decide⟩

/-- The three static arrays of the machine. -/
structure Store where
  currentChild_a : Fin OR_STATE_COUNT → LOCAL_INDEX_T
  isIn_a : Fin STATE_COUNT → Bool
  timeEntered_a : Fin STATE_COUNT → TIME_T

/-- Static storage is zero-initialised: nothing active, all indices and times zero. -/
def zeroStore : Store :=
  { currentChild_a := fun _ => 0, isIn_a := fun _ => false, timeEntered_a := fun _ => 0 }

/-- The user callable of the machine, the action `act1`. -/
structure callables_t where
  act1 : event_t → status_t → status_t

/-- Names of the user callables. -/
inductive callee_t where
  | act1
  deriving DecidableEq, Repr

/-- One invocation of a user callable: which one, the status passed, and the arrays at the
moment of the call. -/
structure call_t where
  callee : callee_t
  status : status_t
  store : Store

/-- The state of a dispatch in progress: the local array `handled_a`, the static arrays and
the calls made so far. -/
structure frame_t where
  handled_a : Fin STATE_COUNT → Bool
  store : Store
  calls : List call_t

/-- Appends an invocation of a user callable to the call log. -/
def frame_t.record (f : frame_t) (callee : callee_t) (status : status_t) : frame_t :=
  { f with calls := f.calls ++ [{ callee := callee, status := status, store := f.store }] }

/-- What a completed dispatch leaves behind: the returned flag, the arrays and the calls
made. -/
structure outcome_t where
  handled : Bool
  store : Store
  calls : List call_t

def enter_B (childIndex : LOCAL_INDEX_T) (now : TIME_T) (s : Store) : Store :=
  let s := { s with isIn_a := setAt s.isIn_a G_INDEX_B true }
  let s := { s with timeEntered_a := setAt s.timeEntered_a G_INDEX_B now }
  { s with currentChild_a := setAt s.currentChild_a OR_INDEX_root L_INDEX_B }

def exit_B (childIndex : LOCAL_INDEX_T) (s : Store) : Store :=
  { s with isIn_a := setAt s.isIn_a G_INDEX_B false }

def enter_V__Sub1 (childIndex : LOCAL_INDEX_T) (now : TIME_T) (s : Store) : Store :=
  let s := { s with isIn_a := setAt s.isIn_a G_INDEX_V__Sub1 true }
  let s := { s with timeEntered_a := setAt s.timeEntered_a G_INDEX_V__Sub1 now }
  { s with currentChild_a := setAt s.currentChild_a OR_INDEX_Sub1 L_INDEX_V__Sub1 }

def exit_V__Sub1 (childIndex : LOCAL_INDEX_T) (s : Store) : Store :=
  { s with isIn_a := setAt s.isIn_a G_INDEX_V__Sub1 false }

def enter_U__Sub1 (childIndex : LOCAL_INDEX_T) (now : TIME_T) (s : Store) : Store :=
  let s := { s with isIn_a := setAt s.isIn_a G_INDEX_U__Sub1 true }
  let s := { s with timeEntered_a := setAt s.timeEntered_a G_INDEX_U__Sub1 now }
  { s with currentChild_a := setAt s.currentChild_a OR_INDEX_Sub1 L_INDEX_U__Sub1 }

def exit_U__Sub1 (childIndex : LOCAL_INDEX_T) (s : Store) : Store :=
  { s with isIn_a := setAt s.isIn_a G_INDEX_U__Sub1 false }

def enter_A (childIndex : LOCAL_INDEX_T) (now : TIME_T) (s : Store) : Store :=
  let s := { s with isIn_a := setAt s.isIn_a G_INDEX_A true }
  let s := { s with timeEntered_a := setAt s.timeEntered_a G_INDEX_A now }
  { s with currentChild_a := setAt s.currentChild_a OR_INDEX_root L_INDEX_A }

def exit_A (childIndex : LOCAL_INDEX_T) (s : Store) : Store :=
  { s with isIn_a := setAt s.isIn_a G_INDEX_A false }

def enter_Sub1 (childIndex : LOCAL_INDEX_T) (now : TIME_T) (s : Store) : Store :=
  let s := { s with isIn_a := setAt s.isIn_a G_INDEX_Sub1 true }
  let s := { s with timeEntered_a := setAt s.timeEntered_a G_INDEX_Sub1 now }
  let s := { s with currentChild_a := setAt s.currentChild_a OR_INDEX_root L_INDEX_Sub1 }
  if childIndex = -1 then enter_U__Sub1 (-1) now s else s

/-- The routine `exit_Sub1`; `none` when `assertUnreachable()` is reached. -/
def exit_Sub1 (childIndex : LOCAL_INDEX_T) (s : Store) : Option Store :=
  let r : Option Store :=
    if childIndex = -1 then
      let current : LOCAL_INDEX_T := s.currentChild_a OR_INDEX_Sub1
      if current = L_INDEX_U__Sub1 then some (exit_U__Sub1 (-1) s)
      else if current = L_INDEX_V__Sub1 then some (exit_V__Sub1 (-1) s)
      else none
    else some s
  match r with
  | some s => some { s with isIn_a := setAt s.isIn_a G_INDEX_Sub1 false }
  | none => none

def enter_root (childIndex : LOCAL_INDEX_T) (now : TIME_T) (s : Store) : Store :=
  let s := { s with isIn_a := setAt s.isIn_a G_INDEX_root true }
  let s := { s with timeEntered_a := setAt s.timeEntered_a G_INDEX_root now }
  if childIndex = -1 then enter_A (-1) now s else s

def initStateMachine_submachineTest1 (now : TIME_T) (s : Store) : Store :=
  enter_root (-1) now s

/-- The block `Code for basic state 'B'` of `dispatchEvent_submachineTest1`. -/
def basic_B (event_p : event_t) (now : TIME_T) (f : frame_t) : frame_t :=
  match eventClassOf event_p with
  | .TICK =>
    /- Code for after( 0.0 ms ) -/
    if ! f.handled_a G_INDEX_B then
      let status : status_t := OK_STATUS
      let f := { f with handled_a := setAt f.handled_a G_INDEX_B true }
      /- Transition from B to A. -/
      let f := { f with store := exit_B (-1) f.store }
      { f with store := enter_A (-1) now f.store }
    else f
  | _ => f

/-- The block `Code for basic state 'U__Sub1'`. -/
def basic_U__Sub1 (event_p : event_t) (now : TIME_T) (f : frame_t) : frame_t :=
  match eventClassOf event_p with
  | .x =>
    let status : status_t := OK_STATUS
    let f := { f with handled_a := setAt f.handled_a G_INDEX_U__Sub1 true }
    /- Transition from U__Sub1 to V__Sub1. -/
    let f := { f with store := exit_U__Sub1 (-1) f.store }
    { f with store := enter_V__Sub1 (-1) now f.store }
  | _ => f

/-- The block `Code for basic state 'V__Sub1'`; `none` when `assertUnreachable()` is
reached. -/
def basic_V__Sub1 (event_p : event_t) (now : TIME_T) (f : frame_t) : Option frame_t :=
  match eventClassOf event_p with
  | .y =>
    let status : status_t := OK_STATUS
    let f := { f with handled_a := setAt f.handled_a G_INDEX_V__Sub1 true }
    /- Transition from V__Sub1 to Y__Sub1. -/
    let f := { f with store := exit_V__Sub1 (-1) f.store }
    /- Transition from Y__Sub1 to B. -/
    match exit_Sub1 L_INDEX_Y__Sub1 f.store with
    | some s => some { f with store := enter_B (-1) now s }
    | none => none
  | _ => some f

/-- The block `Code for basic state 'A'`. -/
def basic_A (cb : callables_t) (event_p : event_t) (now : TIME_T) (f : frame_t) : frame_t :=
  match eventClassOf event_p with
  | .P =>
    let status : status_t := OK_STATUS
    let f := { f with handled_a := setAt f.handled_a G_INDEX_A true }
    /- Transition from A to X__Sub1. -/
    let f := { f with store := exit_A (-1) f.store }
    let f := { f with store := enter_Sub1 L_INDEX_X__Sub1 now f.store }
    /- Transition from X__Sub1 to U__Sub1. -/
    let f := f.record .act1 status
    let status := cb.act1 event_p status
    { f with store := enter_U__Sub1 (-1) now f.store }
  | _ => f

/-- The block `Code for OR state 'Sub1'`; `none` when `assertUnreachable()` is reached. -/
def or_Sub1 (event_p : event_t) (now : TIME_T) (f : frame_t) : Option frame_t :=
  if f.store.currentChild_a OR_INDEX_Sub1 = L_INDEX_U__Sub1 then
    let f := basic_U__Sub1 event_p now f
    some { f with handled_a := setAt f.handled_a G_INDEX_Sub1 (f.handled_a G_INDEX_U__Sub1) }
  else if f.store.currentChild_a OR_INDEX_Sub1 = L_INDEX_V__Sub1 then
    match basic_V__Sub1 event_p now f with
    | some f =>
      some { f with handled_a := setAt f.handled_a G_INDEX_Sub1 (f.handled_a G_INDEX_V__Sub1) }
    | none => none
  else none

/-- The block `Code for OR state 'root'`; `none` when `assertUnreachable()` is reached. -/
def or_root (cb : callables_t) (event_p : event_t) (now : TIME_T) (f : frame_t) :
    Option frame_t :=
  if f.store.currentChild_a OR_INDEX_root = L_INDEX_B then
    let f := basic_B event_p now f
    some { f with handled_a := setAt f.handled_a G_INDEX_root (f.handled_a G_INDEX_B) }
  else if f.store.currentChild_a OR_INDEX_root = L_INDEX_Sub1 then
    match or_Sub1 event_p now f with
    | some f =>
      some { f with handled_a := setAt f.handled_a G_INDEX_root (f.handled_a G_INDEX_Sub1) }
    | none => none
  else if f.store.currentChild_a OR_INDEX_root = L_INDEX_A then
    let f := basic_A cb event_p now f
    some { f with handled_a := setAt f.handled_a G_INDEX_root (f.handled_a G_INDEX_A) }
  else none

def dispatchEvent_submachineTest1 (cb : callables_t) (event_p : event_t) (now : TIME_T)
    (s : Store) : Option outcome_t :=
  let f : frame_t := { handled_a := fun _ => false, store := s, calls := [] }
  match or_root cb event_p now f with
  | some f => some { handled := f.handled_a G_INDEX_root, store := f.store, calls := f.calls }
  | none => none

/-- One call of the dispatcher by the host: the callable as it behaves during that call, the
event and the time. -/
structure step_t where
  cb : callables_t
  event : event_t
  now : TIME_T

/-- A sequence of dispatches, each starting from the arrays the previous one left; the result
lists the outcome of every dispatch, or is `none` if one of them was fatal. -/
def dispatchAll : List step_t → Store → Option (List outcome_t)
  | [], _ => some []
  | st :: rest, s =>
    match dispatchEvent_submachineTest1 st.cb st.event st.now s with
    | none => none
    | some o =>
      match dispatchAll rest o.store with
      | none => none
      | some os => some (o :: os)

/-- The list of the flags `isIn_a`, in the order of the global indices
`Sub1, root, B, V__Sub1, U__Sub1, A`. -/
def activeFlags (s : Store) : List Bool :=
  [s.isIn_a G_INDEX_Sub1, s.isIn_a G_INDEX_root, s.isIn_a G_INDEX_B,
    s.isIn_a G_INDEX_V__Sub1, s.isIn_a G_INDEX_U__Sub1, s.isIn_a G_INDEX_A]

/-- The active set is exactly `{root, A}` and `currentChild_a[root]` designates `A`. -/
def pathA (s : Store) : Prop :=
  activeFlags s = [false, true, false, false, false, true] ∧
    s.currentChild_a OR_INDEX_root = L_INDEX_A

/-- The active set is exactly `{root, B}` and `currentChild_a[root]` designates `B`. -/
def pathB (s : Store) : Prop :=
  activeFlags s = [false, true, true, false, false, false] ∧
    s.currentChild_a OR_INDEX_root = L_INDEX_B

/-- The active set is exactly `{root, Sub1, U__Sub1}`, with `currentChild_a[root]` designating
`Sub1` and `currentChild_a[Sub1]` designating `U__Sub1`. -/
def pathSub1_U (s : Store) : Prop :=
  activeFlags s = [true, true, false, false, true, false] ∧
    s.currentChild_a OR_INDEX_root = L_INDEX_Sub1 ∧
    s.currentChild_a OR_INDEX_Sub1 = L_INDEX_U__Sub1

/-- The active set is exactly `{root, Sub1, V__Sub1}`, with `currentChild_a[root]` designating
`Sub1` and `currentChild_a[Sub1]` designating `V__Sub1`. -/
def pathSub1_V (s : Store) : Prop :=
  activeFlags s = [true, true, false, true, false, false] ∧
    s.currentChild_a OR_INDEX_root = L_INDEX_Sub1 ∧
    s.currentChild_a OR_INDEX_Sub1 = L_INDEX_V__Sub1

/-- The active path is one of the four consistent paths of the machine. -/
def wellFormed (s : Store) : Prop := pathA s ∨ pathB s ∨ pathSub1_U s ∨ pathSub1_V s

/-- A sample callable: `act1` returns the status it was given. -/
def idCallables : callables_t := { act1 := fun _ st => st }

/-- A sample store on the path `root/A`: the machine right after initialisation at time 0. -/
def storeA : Store := initStateMachine_submachineTest1 0 zeroStore

/-- A sample store on the path `root/Sub1/U__Sub1`, reached from `storeA` by `P` at time 1. -/
def storeSub1_U : Store :=
  enter_U__Sub1 (-1) 1 (enter_Sub1 L_INDEX_X__Sub1 1 (exit_A (-1) storeA))

/-- A sample store on the path `root/Sub1/V__Sub1`, reached from `storeSub1_U` by `x` at
time 2. -/
def storeSub1_V : Store := enter_V__Sub1 (-1) 2 (exit_U__Sub1 (-1) storeSub1_U)

/-- The basic state designated by the `currentChild_a` chain from the root, following the
nested `switch`es of the dispatcher; `none` where the dispatcher reaches
`assertUnreachable()`. -/
def activeLeaf (s : Store) : Option (Fin STATE_COUNT) :=
  if s.currentChild_a OR_INDEX_root = L_INDEX_B then some G_INDEX_B
  else if s.currentChild_a OR_INDEX_root = L_INDEX_Sub1 then
    if s.currentChild_a OR_INDEX_Sub1 = L_INDEX_U__Sub1 then some G_INDEX_U__Sub1
    else if s.currentChild_a OR_INDEX_Sub1 = L_INDEX_V__Sub1 then some G_INDEX_V__Sub1
    else none
  else if s.currentChild_a OR_INDEX_root = L_INDEX_A then some G_INDEX_A
  else none

end submachineTest1

/-! ## StateCharts: the traffic light in two table styles -/

namespace StateCharts

/-- The enumeration `StateKindT`, the same in `noEventHandlers.c` and `test.c`. -/
inductive StateKindT where
  | BASIC
  | OR
  | AND
  deriving DecidableEq, Repr

/-- The enumeration `EventClassT`, the same in both files. -/
inductive EventClassT where
  | TICK_EC
  | TIMER_EC
  | EV_REC_APPROACHES_EC
  | EV_REC_CLEAR_EC
  deriving DecidableEq, Repr

/-- The struct `EventS`, the same in both files: the tag and the member `data.time`. -/
structure EventT where
  tag : EventClassT
  data_time : Int

/-- The address of a state object (`&startState`, ...); both files declare the same seven. -/
inductive StateRef where
  | startState
  | northSouthGreen
  | northSouthAmber
  | eastWestGreen
  | eastWestAmber
  | allRed
  | rootState
  deriving DecidableEq, Repr

/-- The address of an action function; both files define the same four. -/
inductive ActionRef where
  | enterNorthSouthGreenAct
  | enterAllRedAct
  | enterEastWestAmberAct
  | enterNorthSouthAmberAct
  deriving DecidableEq, Repr

/-- The address of a transition object; both files declare the same ten. -/
inductive TransitionRef where
  | initTrans
  | northSouthGreen2AllRed
  | northSouthGreen2northSouthAmber
  | northSouthAmber2AllRed
  | northSouthAmber2eastWestGreen
  | eastWestGreen2AllRed
  | eastWestGreen2eastWestAmber
  | eastWestAmber2AllRed
  | eastWestAmber2NorthSouthGreen
  | AllRed2NorthSouthGreen
  deriving DecidableEq, Repr

end StateCharts

namespace noEventHandlers

open StateCharts

/-- The address of a guard function. -/
inductive GuardRef where
  | alwaysGuard
  deriving DecidableEq, Repr

/-- The struct `TransitionS` of `noEventHandlers.c`. -/
structure TransitionT where
  pSource : StateRef
  eventClass : EventClassT
  pGuard : GuardRef
  pAction : ActionRef
  pTarget : StateRef
  deriving DecidableEq, Repr

/-- The struct `StateS` of `noEventHandlers.c`; a null-terminated array of pointers is a list,
a null pointer is `none` or the empty list, and members left out of an initialiser are zero. -/
structure StateT where
  kind : StateKindT
  pcName : String
  transitionCount : Int
  ppTransitions : List TransitionRef
  childCount : Int
  ppChildren : List StateRef
  pParent : Option StateRef
  depth : Int
  index : Int
  activeChild : Int

def alwaysGuard (pEvent : EventT) (pTrans : TransitionRef) : Bool := true

def initTrans : TransitionT :=
  ⟨.startState, .TICK_EC, .alwaysGuard, .enterNorthSouthGreenAct, .northSouthGreen⟩

def northSouthGreen2AllRed : TransitionT :=
  ⟨.northSouthGreen, .EV_REC_APPROACHES_EC, .alwaysGuard, .enterAllRedAct, .allRed⟩

def northSouthGreen2northSouthAmber : TransitionT :=
  ⟨.northSouthGreen, .TIMER_EC, .alwaysGuard, .enterNorthSouthAmberAct, .northSouthAmber⟩

def northSouthAmber2AllRed : TransitionT :=
  ⟨.northSouthAmber, .EV_REC_APPROACHES_EC, .alwaysGuard, .enterAllRedAct, .allRed⟩

def northSouthAmber2eastWestGreen : TransitionT :=
  ⟨.northSouthAmber, .TIMER_EC, .alwaysGuard, .enterEastWestAmberAct, .eastWestGreen⟩

def eastWestGreen2AllRed : TransitionT :=
  ⟨.eastWestGreen, .EV_REC_APPROACHES_EC, .alwaysGuard, .enterAllRedAct, .allRed⟩

def eastWestGreen2eastWestAmber : TransitionT :=
  ⟨.eastWestGreen, .TIMER_EC, .alwaysGuard, .enterEastWestAmberAct, .eastWestAmber⟩

def eastWestAmber2AllRed : TransitionT :=
  ⟨.eastWestGreen, .EV_REC_APPROACHES_EC, .alwaysGuard, .enterAllRedAct, .allRed⟩

def eastWestAmber2NorthSouthGreen : TransitionT :=
  ⟨.eastWestGreen, .TIMER_EC, .alwaysGuard, .enterNorthSouthGreenAct, .northSouthGreen⟩

def AllRed2NorthSouthGreen : TransitionT :=
  ⟨.allRed, .EV_REC_CLEAR_EC, .alwaysGuard, .enterNorthSouthGreenAct, .northSouthGreen⟩

/-- The transition object at an address. -/
def TransitionRef.deref : TransitionRef → TransitionT
  | .initTrans => initTrans
  | .northSouthGreen2AllRed => northSouthGreen2AllRed
  | .northSouthGreen2northSouthAmber => northSouthGreen2northSouthAmber
  | .northSouthAmber2AllRed => northSouthAmber2AllRed
  | .northSouthAmber2eastWestGreen => northSouthAmber2eastWestGreen
  | .eastWestGreen2AllRed => eastWestGreen2AllRed
  | .eastWestGreen2eastWestAmber => eastWestGreen2eastWestAmber
  | .eastWestAmber2AllRed => eastWestAmber2AllRed
  | .eastWestAmber2NorthSouthGreen => eastWestAmber2NorthSouthGreen
  | .AllRed2NorthSouthGreen => AllRed2NorthSouthGreen

def startStateTransitions : List TransitionRef := [.initTrans]

def startState : StateT :=
  ⟨.BASIC, "startState", 1, startStateTransitions, 0, [], none, 0, 0, 0⟩

def northSouthGreenTransitions : List TransitionRef :=
  [.northSouthGreen2AllRed, .northSouthGreen2northSouthAmber]

def northSouthGreen : StateT :=
  ⟨.BASIC, "northSouthGreen", 2, northSouthGreenTransitions, 0, [], none, 0, 0, 0⟩

def northSouthAmberTransitions : List TransitionRef :=
  [.northSouthAmber2AllRed, .northSouthAmber2eastWestGreen]

def northSouthAmber : StateT :=
  ⟨.BASIC, "northSouthAmber", 2, northSouthAmberTransitions, 0, [], none, 0, 0, 0⟩

def eastWestGreenTransitions : List TransitionRef :=
  [.eastWestAmber2AllRed, .eastWestGreen2eastWestAmber]

def eastWestGreen : StateT :=
  ⟨.BASIC, "eastWestGreen", 2, eastWestGreenTransitions, 0, [], none, 0, 0, 0⟩

def eastWestAmberTransitions : List TransitionRef :=
  [.eastWestGreen2AllRed, .eastWestAmber2NorthSouthGreen]

def eastWestAmber : StateT :=
  ⟨.BASIC, "eastWestAmber", 2, eastWestAmberTransitions, 0, [], none, 0, 0, 0⟩

def allRedTransitions : List TransitionRef := [.AllRed2NorthSouthGreen]

def allRed : StateT :=
  ⟨.BASIC, "allRed", 1, allRedTransitions, 0, [], none, 0, 0, 0⟩

def rootChildren : List StateRef :=
  [.startState, .northSouthGreen, .northSouthAmber, .eastWestGreen, .eastWestAmber, .allRed]

def rootState : StateT :=
  ⟨.OR, "root", 0, [], 6, rootChildren, none, 0, 0, 0⟩

/-- The state object at an address. -/
def StateRef.deref : StateRef → StateT
  | .startState => startState
  | .northSouthGreen => northSouthGreen
  | .northSouthAmber => northSouthAmber
  | .eastWestGreen => eastWestGreen
  | .eastWestAmber => eastWestAmber
  | .allRed => allRed
  | .rootState => rootState

/-- The six basic states of the traffic light, in the order of `rootChildren`. -/
def basicStates : List StateRef := rootChildren

/-- The first transition of a list whose `eventClass` is the given class, if any. -/
def firstMatching (l : List TransitionRef) (ec : EventClassT) : Option TransitionRef :=
  l.find? fun r => decide ((TransitionRef.deref r).eventClass = ec)

end noEventHandlers

namespace test

open StateCharts

/-- The struct `TransitionS` of `test.c`. -/
structure TransitionT where
  pSource : StateRef
  pAction : ActionRef
  pTarget : StateRef
  deriving DecidableEq, Repr

/-- The address of an event handler, or a null pointer. -/
inductive EventHandlerRef where
  | startStateEH
  | northSouthGreenEH
  | doNothingEH
  deriving DecidableEq, Repr

/-- The struct `StateS` of `test.c`; members left out of an initialiser are zero. -/
structure StateT where
  kind : StateKindT
  pcName : String
  pEventHandler : Option EventHandlerRef
  childCount : Int
  ppChildren : List StateRef
  pParent : Option StateRef
  depth : Int
  index : Int
  activeChild : Int

/-- The handler `startStateEH`; the second argument is the content of `*ppTransition` on
entry and the result is its content on return. -/
def startStateEH (pEvent : EventT) (ppTransition : Option TransitionRef) :
    Option TransitionRef :=
  match pEvent.tag with
  | .TICK_EC => some .initTrans
  | _ => ppTransition

/-- The handler `northSouthGreenEH`. -/
def northSouthGreenEH (pEvent : EventT) (ppTransition : Option TransitionRef) :
    Option TransitionRef :=
  match pEvent.tag with
  | .TIMER_EC => some .northSouthGreen2northSouthAmber
  | .EV_REC_APPROACHES_EC => some .northSouthGreen2AllRed
  | _ => ppTransition

/-- The handler `doNothingEH`. -/
def doNothingEH (pEvent : EventT) (ppTransition : Option TransitionRef) :
    Option TransitionRef :=
  ppTransition

/-- The handler function at an address. -/
def EventHandlerRef.deref :
    EventHandlerRef → EventT → Option TransitionRef → Option TransitionRef
  | .startStateEH => test.startStateEH
  | .northSouthGreenEH => test.northSouthGreenEH
  | .doNothingEH => test.doNothingEH

def initTrans : TransitionT := ⟨.startState, .enterNorthSouthGreenAct, .northSouthGreen⟩

def northSouthGreen2AllRed : TransitionT := ⟨.northSouthGreen, .enterAllRedAct, .allRed⟩

def northSouthGreen2northSouthAmber : TransitionT :=
  ⟨.northSouthGreen, .enterNorthSouthAmberAct, .northSouthAmber⟩

def northSouthAmber2AllRed : TransitionT := ⟨.northSouthAmber, .enterAllRedAct, .allRed⟩

def northSouthAmber2eastWestGreen : TransitionT :=
  ⟨.northSouthAmber, .enterEastWestAmberAct, .eastWestGreen⟩

def eastWestGreen2AllRed : TransitionT := ⟨.eastWestGreen, .enterAllRedAct, .allRed⟩

def eastWestGreen2eastWestAmber : TransitionT :=
  ⟨.eastWestGreen, .enterEastWestAmberAct, .eastWestAmber⟩

def eastWestAmber2AllRed : TransitionT := ⟨.eastWestGreen, .enterAllRedAct, .allRed⟩

def eastWestAmber2NorthSouthGreen : TransitionT :=
  ⟨.eastWestGreen, .enterNorthSouthGreenAct, .northSouthGreen⟩

def AllRed2NorthSouthGreen : TransitionT :=
  ⟨.allRed, .enterNorthSouthGreenAct, .northSouthGreen⟩

/-- The transition object at an address. -/
def TransitionRef.deref : TransitionRef → TransitionT
  | .initTrans => initTrans
  | .northSouthGreen2AllRed => northSouthGreen2AllRed
  | .northSouthGreen2northSouthAmber => northSouthGreen2northSouthAmber
  | .northSouthAmber2AllRed => northSouthAmber2AllRed
  | .northSouthAmber2eastWestGreen => northSouthAmber2eastWestGreen
  | .eastWestGreen2AllRed => eastWestGreen2AllRed
  | .eastWestGreen2eastWestAmber => eastWestGreen2eastWestAmber
  | .eastWestAmber2AllRed => eastWestAmber2AllRed
  | .eastWestAmber2NorthSouthGreen => eastWestAmber2NorthSouthGreen
  | .AllRed2NorthSouthGreen => AllRed2NorthSouthGreen

def startState : StateT := ⟨.BASIC, "startState", some .startStateEH, 0, [], none, 0, 0, 0⟩

def northSouthGreen : StateT :=
  ⟨.BASIC, "northSouthGreen", some .northSouthGreenEH, 0, [], none, 0, 0, 0⟩

def northSouthAmber : StateT := ⟨.BASIC, "northSouthAmber", none, 0, [], none, 0, 0, 0⟩

def eastWestGreen : StateT := ⟨.BASIC, "eastWestGreen", none, 0, [], none, 0, 0, 0⟩

def eastWestAmber : StateT := ⟨.BASIC, "eastWestAmber", none, 0, [], none, 0, 0, 0⟩

def allRed : StateT := ⟨.BASIC, "allRed", none, 0, [], none, 0, 0, 0⟩

def rootChildren : List StateRef :=
  [.startState, .northSouthGreen, .northSouthAmber, .eastWestGreen, .eastWestAmber, .allRed]

def rootState : StateT := ⟨.OR, "root", some .doNothingEH, 6, rootChildren, none, 0, 0, 0⟩

/-- The state object at an address. -/
def StateRef.deref : StateRef → StateT
  | .startState => startState
  | .northSouthGreen => northSouthGreen
  | .northSouthAmber => northSouthAmber
  | .eastWestGreen => eastWestGreen
  | .eastWestAmber => eastWestAmber
  | .allRed => allRed
  | .rootState => rootState

end test

/-! ## The generated files read with logged array accesses

A second reading of the three generated files, for the claims about array subscripts.  The
arrays are lists, every subscripted read or write is appended to a log with the array and the
raw index, and `assertUnreachable()` aborts the run.  A read outside the list yields a default
and a write outside it is dropped; the theorems show that neither ever happens. -/

namespace Checked

/-- The arrays of a generated file: the three static ones and the local `handled_a`. -/
inductive array_t where
  | currentChild_a
  | isIn_a
  | timeEntered_a
  | handled_a
  deriving DecidableEq, Repr

/-- One subscripted access `array[index]`. -/
structure access_t where
  array : array_t
  index : Nat
  deriving DecidableEq, Repr

/-- The arrays as lists, and the accesses made so far. -/
structure Memory where
  currentChild_a : List LOCAL_INDEX_T
  isIn_a : List Bool
  timeEntered_a : List TIME_T
  handled_a : List Bool
  accesses : List access_t

/-- A routine: from a memory to its result (`none` once `assertUnreachable()` was reached) and
the memory it leaves. -/
def Run (α : Type) : Type := Memory → Option α × Memory

/-- The routine that only returns a value. -/
def Run.pure {α : Type} (a : α) : Run α := fun m => (some a, m)

/-- Sequencing of routines; an aborted run stays aborted. -/
def Run.bind {α β : Type} (x : Run α) (f : α → Run β) : Run β := fun m =>
  match x m with
  | (some a, m') => f a m'
  | (none, m') => (none, m')

instance : Monad Run where
  pure := Run.pure
  bind := Run.bind

/-- Appends the access `a[i]` to the log. -/
def Memory.log (m : Memory) (a : array_t) (i : Nat) : Memory :=
  { m with accesses := m.accesses ++ [{ array := a, index := i }] }

/-- The call `assertUnreachable()`. -/
def assertUnreachable : Run Unit := fun m => (none, m)

/-- The read `currentChild_a[i]`. -/
def getCurrentChild (i : Nat) : Run LOCAL_INDEX_T := fun m =>
  (some (m.currentChild_a.getD i 0), m.log .currentChild_a i)

/-- The write `currentChild_a[i] = v`. -/
def setCurrentChild (i : Nat) (v : LOCAL_INDEX_T) : Run Unit := fun m =>
  (some (), { m.log .currentChild_a i with currentChild_a := m.currentChild_a.set i v })

/-- The write `isIn_a[i] = v`. -/
def setIsIn (i : Nat) (v : Bool) : Run Unit := fun m =>
  (some (), { m.log .isIn_a i with isIn_a := m.isIn_a.set i v })

/-- The read `timeEntered_a[i]`. -/
def getTimeEntered (i : Nat) : Run TIME_T := fun m =>
  (some (m.timeEntered_a.getD i 0), m.log .timeEntered_a i)

/-- The write `timeEntered_a[i] = v`. -/
def setTimeEntered (i : Nat) (v : TIME_T) : Run Unit := fun m =>
  (some (), { m.log .timeEntered_a i with timeEntered_a := m.timeEntered_a.set i v })

/-- The read `handled_a[i]`. -/
def getHandled (i : Nat) : Run Bool := fun m =>
  (some (m.handled_a.getD i false), m.log .handled_a i)

/-- The write `handled_a[i] = v`. -/
def setHandled (i : Nat) (v : Bool) : Run Unit := fun m =>
  (some (), { m.log .handled_a i with handled_a := m.handled_a.set i v })

/-- The declaration `bool_t handled_a[ n ] = {false}`. -/
def declareHandled (n : Nat) : Run Unit := fun m =>
  (some (), { m with handled_a := List.replicate n false })

/-- The access lies inside its array: below `k` (the size of `currentChild_a`) or below `n`
(the size of the three other arrays). -/
def access_t.inBounds (n k : Nat) (a : access_t) : Prop :=
  match a.array with
  | .currentChild_a => a.index < k
  | _ => a.index < n

/-- The arrays have their declared sizes and every access made so far was inside its array. -/
def Memory.safe (n k : Nat) (m : Memory) : Prop :=
  m.currentChild_a.length = k ∧ m.isIn_a.length = n ∧ m.timeEntered_a.length = n ∧
    m.handled_a.length = n ∧ ∀ a ∈ m.accesses, a.inBounds n k

/-- Run from any memory whose arrays have the declared sizes, the routine leaves the sizes as
they are and makes only accesses inside the arrays, whether it returns or aborts. -/
def Run.keeps {α : Type} (n k : Nat) (x : Run α) : Prop :=
  ∀ m : Memory, m.safe n k → (x m).2.safe n k

/-- The memory of a freshly loaded program: zeroed arrays of the declared sizes, no access
made yet. -/
def Memory.zero (n k : Nat) : Memory :=
  { currentChild_a := List.replicate k 0, isIn_a := List.replicate n false,
    timeEntered_a := List.replicate n 0, handled_a := List.replicate n false, accesses := [] }

end Checked

namespace firstExample.checked

open Checked

def G_INDEX_root : Nat := 0
def G_INDEX_IDLE : Nat := 1
def G_INDEX_RUNNING : Nat := 2

def enter_IDLE (childIndex : LOCAL_INDEX_T) (now : TIME_T) : Run Unit := do
  setIsIn G_INDEX_IDLE true
  setTimeEntered G_INDEX_IDLE now
  setCurrentChild G_INDEX_root L_INDEX_IDLE

def exit_IDLE (childIndex : LOCAL_INDEX_T) : Run Unit := do
  setIsIn G_INDEX_IDLE false

def enter_RUNNING (childIndex : LOCAL_INDEX_T) (now : TIME_T) : Run Unit := do
  setIsIn G_INDEX_RUNNING true
  setTimeEntered G_INDEX_RUNNING now
  setCurrentChild G_INDEX_root L_INDEX_RUNNING

def exit_RUNNING (childIndex : LOCAL_INDEX_T) : Run Unit := do
  setIsIn G_INDEX_RUNNING false

def enter_root (childIndex : LOCAL_INDEX_T) (now : TIME_T) : Run Unit := do
  setIsIn G_INDEX_root true
  setTimeEntered G_INDEX_root now
  if childIndex = -1 then
    enter_IDLE (-1) now
  else
    pure ()

def initStateMachine_firstExample (now : TIME_T) : Run Unit := do
  enter_root (-1) now

/-- The block `Code for basic state 'IDLE'`. -/
def basic_IDLE (cb : callables_t) (event_p : event_t) (now : TIME_T) : Run Unit := do
  match eventClassOf event_p with
  | .GO =>
    let status : status_t := OK_STATUS
    setHandled G_INDEX_IDLE true
    /- Transition from IDLE to C. -/
    exit_IDLE (-1)
    if cb.ready_query event_p status then
      /- Transition from C to RUNNING. -/
      let status := cb.start event_p status
      enter_RUNNING (-1) now
    else
      /- Transition from C to IDLE. -/
      enter_IDLE (-1) now
  | _ => pure ()

/-- The block `Code for basic state 'RUNNING'`. -/
def basic_RUNNING (cb : callables_t) (event_p : event_t) (now : TIME_T) : Run Unit := do
  match eventClassOf event_p with
  | .KILL =>
    let status : status_t := OK_STATUS
    setHandled G_INDEX_RUNNING true
    /- Transition from RUNNING to IDLE. -/
    exit_RUNNING (-1)
    let status := cb.stop event_p status
    enter_IDLE (-1) now
  | .TICK =>
    /- Code for after( 60000.0 ms ): the operands of `&&` are evaluated left to right. -/
    let handled ← getHandled G_INDEX_RUNNING
    if handled then
      pure ()
    else
      let entered ← getTimeEntered G_INDEX_RUNNING
      if IS_AFTER (TO_DURATION 60000) entered now then
        let status : status_t := OK_STATUS
        setHandled G_INDEX_RUNNING true
        /- Transition from RUNNING to IDLE. -/
        exit_RUNNING (-1)
        let status := cb.stop event_p status
        enter_IDLE (-1) now
      else
        pure ()
  | _ => pure ()

/-- The block `Code for OR state 'root'`. -/
def or_root (cb : callables_t) (event_p : event_t) (now : TIME_T) : Run Unit := do
  let child ← getCurrentChild G_INDEX_root
  if child = L_INDEX_IDLE then
    basic_IDLE cb event_p now
    let handled ← getHandled G_INDEX_IDLE
    setHandled G_INDEX_root handled
  else if child = L_INDEX_RUNNING then
    basic_RUNNING cb event_p now
    let handled ← getHandled G_INDEX_RUNNING
    setHandled G_INDEX_root handled
  else
    assertUnreachable

def dispatchEvent_firstExample (cb : callables_t) (event_p : event_t) (now : TIME_T) :
    Run Bool := do
  declareHandled STATE_COUNT
  or_root cb event_p now
  getHandled G_INDEX_root

end firstExample.checked

namespace submachineTest0.checked

open Checked

def G_INDEX_Sub0 : Nat := 0
def G_INDEX_root : Nat := 1
def G_INDEX_A__Sub0 : Nat := 2
def G_INDEX_B__Sub0 : Nat := 3
def G_INDEX_A : Nat := 4
def G_INDEX_B : Nat := 5

def enter_A__Sub0 (childIndex : LOCAL_INDEX_T) (now : TIME_T) : Run Unit := do
  setIsIn G_INDEX_A__Sub0 true
  setTimeEntered G_INDEX_A__Sub0 now
  setCurrentChild G_INDEX_Sub0 L_INDEX_A__Sub0

def exit_A__Sub0 (childIndex : LOCAL_INDEX_T) : Run Unit := do
  setIsIn G_INDEX_A__Sub0 false

def enter_B__Sub0 (childIndex : LOCAL_INDEX_T) (now : TIME_T) : Run Unit := do
  setIsIn G_INDEX_B__Sub0 true
  setTimeEntered G_INDEX_B__Sub0 now
  setCurrentChild G_INDEX_Sub0 L_INDEX_B__Sub0

def exit_B__Sub0 (childIndex : LOCAL_INDEX_T) : Run Unit := do
  setIsIn G_INDEX_B__Sub0 false

def enter_A (childIndex : LOCAL_INDEX_T) (now : TIME_T) : Run Unit := do
  setIsIn G_INDEX_A true
  setTimeEntered G_INDEX_A now
  setCurrentChild G_INDEX_root L_INDEX_A

def exit_A (childIndex : LOCAL_INDEX_T) : Run Unit := do
  setIsIn G_INDEX_A false

def enter_B (childIndex : LOCAL_INDEX_T) (now : TIME_T) : Run Unit := do
  setIsIn G_INDEX_B true
  setTimeEntered G_INDEX_B now
  setCurrentChild G_INDEX_root L_INDEX_B

def exit_B (childIndex : LOCAL_INDEX_T) : Run Unit := do
  setIsIn G_INDEX_B false

def enter_Sub0 (childIndex : LOCAL_INDEX_T) (now : TIME_T) : Run Unit := do
  setIsIn G_INDEX_Sub0 true
  setTimeEntered G_INDEX_Sub0 now
  setCurrentChild G_INDEX_root L_INDEX_Sub0
  if childIndex = -1 then
    enter_A__Sub0 (-1) now
  else
    pure ()

/-- The `switch( current )` of `exit_Sub0`. -/
def exit_Sub0_child : Run Unit := do
  let current ← getCurrentChild G_INDEX_Sub0
  if current = L_INDEX_A__Sub0 then
    exit_A__Sub0 (-1)
  else if current = L_INDEX_B__Sub0 then
    exit_B__Sub0 (-1)
  else
    assertUnreachable

def exit_Sub0 (childIndex : LOCAL_INDEX_T) : Run Unit := do
  (if childIndex = -1 then exit_Sub0_child else pure ())
  setIsIn G_INDEX_Sub0 false

def enter_root (childIndex : LOCAL_INDEX_T) (now : TIME_T) : Run Unit := do
  setIsIn G_INDEX_root true
  setTimeEntered G_INDEX_root now
  if childIndex = -1 then
    enter_A (-1) now
  else
    pure ()

def initStateMachine_submachineTest0 (now : TIME_T) : Run Unit := do
  enter_root (-1) now

/-- The block `Code for basic state 'B'`. -/
def basic_B (event_p : event_t) (now : TIME_T) : Run Unit := do
  match eventClassOf event_p with
  | .Q =>
    let status : status_t := OK_STATUS
    setHandled G_INDEX_B true
    /- Transition from B to Sub0. -/
    exit_B (-1)
    enter_Sub0 (-1) now
  | _ => pure ()

/-- The block `Code for basic state 'A__Sub0'`. -/
def basic_A__Sub0 (event_p : event_t) (now : TIME_T) : Run Unit := do
  match eventClassOf event_p with
  | .TICK =>
    /- Code for after( 0.0 ms ) -/
    let handled ← getHandled G_INDEX_A__Sub0
    if handled then
      pure ()
    else
      let status : status_t := OK_STATUS
      setHandled G_INDEX_A__Sub0 true
      /- Transition from A__Sub0 to B__Sub0. -/
      exit_A__Sub0 (-1)
      enter_B__Sub0 (-1) now
  | _ => pure ()

/-- The block `Code for basic state 'B__Sub0'`: the state has no outgoing transitions. -/
def basic_B__Sub0 (event_p : event_t) (now : TIME_T) : Run Unit := do
  pure ()

/-- The block `Code for basic state 'A'`. -/
def basic_A (event_p : event_t) (now : TIME_T) : Run Unit := do
  match eventClassOf event_p with
  | .P =>
    let status : status_t := OK_STATUS
    setHandled G_INDEX_A true
    /- Transition from A to B. -/
    exit_A (-1)
    enter_B (-1) now
  | _ => pure ()

/-- The `switch` over `currentChild_a[G_INDEX_Sub0]` inside the block of `Sub0`. -/
def or_Sub0_child (event_p : event_t) (now : TIME_T) : Run Unit := do
  let child ← getCurrentChild G_INDEX_Sub0
  if child = L_INDEX_A__Sub0 then
    basic_A__Sub0 event_p now
    let handled ← getHandled G_INDEX_A__Sub0
    setHandled G_INDEX_Sub0 handled
  else if child = L_INDEX_B__Sub0 then
    basic_B__Sub0 event_p now
    let handled ← getHandled G_INDEX_B__Sub0
    setHandled G_INDEX_Sub0 handled
  else
    assertUnreachable

/-- The block `Event handling code for state Sub0`. -/
def own_Sub0 (event_p : event_t) (now : TIME_T) : Run Unit := do
  match eventClassOf event_p with
  | .R =>
    let status : status_t := OK_STATUS
    setHandled G_INDEX_Sub0 true
    /- Transition from Sub0 to A. -/
    exit_Sub0 (-1)
    enter_A (-1) now
  | _ => pure ()

/-- The block `Code for OR state 'Sub0'`. -/
def or_Sub0 (event_p : event_t) (now : TIME_T) : Run Unit := do
  or_Sub0_child event_p now
  let handled ← getHandled G_INDEX_Sub0
  if handled then
    pure ()
  else
    own_Sub0 event_p now

/-- The block `Code for OR state 'root'`. -/
def or_root (event_p : event_t) (now : TIME_T) : Run Unit := do
  let child ← getCurrentChild G_INDEX_root
  if child = L_INDEX_B then
    basic_B event_p now
    let handled ← getHandled G_INDEX_B
    setHandled G_INDEX_root handled
  else if child = L_INDEX_Sub0 then
    or_Sub0 event_p now
    let handled ← getHandled G_INDEX_Sub0
    setHandled G_INDEX_root handled
  else if child = L_INDEX_A then
    basic_A event_p now
    let handled ← getHandled G_INDEX_A
    setHandled G_INDEX_root handled
  else
    assertUnreachable

def dispatchEvent_submachineTest0 (event_p : event_t) (now : TIME_T) : Run Bool := do
  declareHandled STATE_COUNT
  or_root event_p now
  getHandled G_INDEX_root

end submachineTest0.checked

namespace submachineTest1.checked

open Checked

def G_INDEX_Sub1 : Nat := 0
def G_INDEX_root : Nat := 1
def G_INDEX_B : Nat := 2
def G_INDEX_V__Sub1 : Nat := 3
def G_INDEX_U__Sub1 : Nat := 4
def G_INDEX_A : Nat := 5

def enter_B (childIndex : LOCAL_INDEX_T) (now : TIME_T) : Run Unit := do
  setIsIn G_INDEX_B true
  setTimeEntered G_INDEX_B now
  setCurrentChild G_INDEX_root L_INDEX_B

def exit_B (childIndex : LOCAL_INDEX_T) : Run Unit := do
  setIsIn G_INDEX_B false

def enter_V__Sub1 (childIndex : LOCAL_INDEX_T) (now : TIME_T) : Run Unit := do
  setIsIn G_INDEX_V__Sub1 true
  setTimeEntered G_INDEX_V__Sub1 now
  setCurrentChild G_INDEX_Sub1 L_INDEX_V__Sub1

def exit_V__Sub1 (childIndex : LOCAL_INDEX_T) : Run Unit := do
  setIsIn G_INDEX_V__Sub1 false

def enter_U__Sub1 (childIndex : LOCAL_INDEX_T) (now : TIME_T) : Run Unit := do
  setIsIn G_INDEX_U__Sub1 true
  setTimeEntered G_INDEX_U__Sub1 now
  setCurrentChild G_INDEX_Sub1 L_INDEX_U__Sub1

def exit_U__Sub1 (childIndex : LOCAL_INDEX_T) : Run Unit := do
  setIsIn G_INDEX_U__Sub1 false

def enter_A (childIndex : LOCAL_INDEX_T) (now : TIME_T) : Run Unit := do
  setIsIn G_INDEX_A true
  setTimeEntered G_INDEX_A now
  setCurrentChild G_INDEX_root L_INDEX_A

def exit_A (childIndex : LOCAL_INDEX_T) : Run Unit := do
  setIsIn G_INDEX_A false

def enter_Sub1 (childIndex : LOCAL_INDEX_T) (now : TIME_T) : Run Unit := do
  setIsIn G_INDEX_Sub1 true
  setTimeEntered G_INDEX_Sub1 now
  setCurrentChild G_INDEX_root L_INDEX_Sub1
  if childIndex = -1 then
    enter_U__Sub1 (-1) now
  else
    pure ()

/-- The `switch( current )` of `exit_Sub1`. -/
def exit_Sub1_child : Run Unit := do
  let current ← getCurrentChild G_INDEX_Sub1
  if current = L_INDEX_U__Sub1 then
    exit_U__Sub1 (-1)
  else if current = L_INDEX_V__Sub1 then
    exit_V__Sub1 (-1)
  else
    assertUnreachable

def exit_Sub1 (childIndex : LOCAL_INDEX_T) : Run Unit := do
  (if childIndex = -1 then exit_Sub1_child else pure ())
  setIsIn G_INDEX_Sub1 false

def enter_root (childIndex : LOCAL_INDEX_T) (now : TIME_T) : Run Unit := do
  setIsIn G_INDEX_root true
  setTimeEntered G_INDEX_root now
  if childIndex = -1 then
    enter_A (-1) now
  else
    pure ()

def initStateMachine_submachineTest1 (now : TIME_T) : Run Unit := do
  enter_root (-1) now

/-- The block `Code for basic state 'B'`. -/
def basic_B (event_p : event_t) (now : TIME_T) : Run Unit := do
  match eventClassOf event_p with
  | .TICK =>
    /- Code for after( 0.0 ms ) -/
    let handled ← getHandled G_INDEX_B
    if handled then
      pure ()
    else
      let status : status_t := OK_STATUS
      setHandled G_INDEX_B true
      /- Transition from B to A. -/
      exit_B (-1)
      enter_A (-1) now
  | _ => pure ()

/-- The block `Code for basic state 'U__Sub1'`. -/
def basic_U__Sub1 (event_p : event_t) (now : TIME_T) : Run Unit := do
  match eventClassOf event_p with
  | .x =>
    let status : status_t := OK_STATUS
    setHandled G_INDEX_U__Sub1 true
    /- Transition from U__Sub1 to V__Sub1. -/
    exit_U__Sub1 (-1)
    enter_V__Sub1 (-1) now
  | _ => pure ()

/-- The block `Code for basic state 'V__Sub1'`. -/
def basic_V__Sub1 (event_p : event_t) (now : TIME_T) : Run Unit := do
  match eventClassOf event_p with
  | .y =>
    let status : status_t := OK_STATUS
    setHandled G_INDEX_V__Sub1 true
    /- Transition from V__Sub1 to Y__Sub1. -/
    exit_V__Sub1 (-1)
    /- Transition from Y__Sub1 to B. -/
    exit_Sub1 L_INDEX_Y__Sub1
    enter_B (-1) now
  | _ => pure ()

/-- The block `Code for basic state 'A'`. -/
def basic_A (cb : callables_t) (event_p : event_t) (now : TIME_T) : Run Unit := do
  match eventClassOf event_p with
  | .P =>
    let status : status_t := OK_STATUS
    setHandled G_INDEX_A true
    /- Transition from A to X__Sub1. -/
    exit_A (-1)
    enter_Sub1 L_INDEX_X__Sub1 now
    /- Transition from X__Sub1 to U__Sub1. -/
    let status := cb.act1 event_p status
    enter_U__Sub1 (-1) now
  | _ => pure ()

/-- The block `Code for OR state 'Sub1'`. -/
def or_Sub1 (event_p : event_t) (now : TIME_T) : Run Unit := do
  let child ← getCurrentChild G_INDEX_Sub1
  if child = L_INDEX_U__Sub1 then
    basic_U__Sub1 event_p now
    let handled ← getHandled G_INDEX_U__Sub1
    setHandled G_INDEX_Sub1 handled
  else if child = L_INDEX_V__Sub1 then
    basic_V__Sub1 event_p now
    let handled ← getHandled G_INDEX_V__Sub1
    setHandled G_INDEX_Sub1 handled
  else
    assertUnreachable

/-- The block `Code for OR state 'root'`. -/
def or_root (cb : callables_t) (event_p : event_t) (now : TIME_T) : Run Unit := do
  let child ← getCurrentChild G_INDEX_root
  if child = L_INDEX_B then
    basic_B event_p now
    let handled ← getHandled G_INDEX_B
    setHandled G_INDEX_root handled
  else if child = L_INDEX_Sub1 then
    or_Sub1 event_p now
    let handled ← getHandled G_INDEX_Sub1
    setHandled G_INDEX_root handled
  else if child = L_INDEX_A then
    basic_A cb event_p now
    let handled ← getHandled G_INDEX_A
    setHandled G_INDEX_root handled
  else
    assertUnreachable

def dispatchEvent_submachineTest1 (cb : callables_t) (event_p : event_t) (now : TIME_T) :
    Run Bool := do
  declareHandled STATE_COUNT
  or_root cb event_p now
  getHandled G_INDEX_root

end submachineTest1.checked

/-! # Theorems -/

/-! ## Array assignment -/

theorem setAt_same {n : Nat} {α : Type} (a : Fin n → α) (i : Fin n) (v : α) :
    setAt a i v i = v := by
  simp [setAt]

theorem setAt_other {n : Nat} {α : Type} (a : Fin n → α) (i j : Fin n) (v : α) (h : j ≠ i) :
    setAt a i v j = a j := by
  simp [setAt, h]

namespace firstExample

/-! ### The dispatcher, case by case -/

theorem dispatch_IDLE_GO_ready (cb : callables_t) (event_p : event_t) (now : TIME_T)
    (s : Store) (hc : s.currentChild_a OR_INDEX_root = L_INDEX_IDLE)
    (he : event_p.tag = .GO) (hq : cb.ready_query event_p OK_STATUS = true) :
    dispatchEvent_firstExample cb event_p now s =
      some { handled := true
             store := enter_RUNNING (-1) now (exit_IDLE (-1) s)
             calls := [⟨.ready_query, OK_STATUS, exit_IDLE (-1) s⟩,
                       ⟨.start, OK_STATUS, exit_IDLE (-1) s⟩] } := by
  simp (disch := decide) [dispatchEvent_firstExample, or_root, basic_IDLE, eventClassOf, hc,
    he, hq, frame_t.record, setAt_same, setAt_other]

theorem dispatch_IDLE_GO_unready (cb : callables_t) (event_p : event_t) (now : TIME_T)
    (s : Store) (hc : s.currentChild_a OR_INDEX_root = L_INDEX_IDLE)
    (he : event_p.tag = .GO) (hq : cb.ready_query event_p OK_STATUS = false) :
    dispatchEvent_firstExample cb event_p now s =
      some { handled := true
             store := enter_IDLE (-1) now (exit_IDLE (-1) s)
             calls := [⟨.ready_query, OK_STATUS, exit_IDLE (-1) s⟩] } := by
  simp (disch := decide) [dispatchEvent_firstExample, or_root, basic_IDLE, eventClassOf, hc,
    he, hq, frame_t.record, setAt_same, setAt_other]

theorem dispatch_IDLE_other (cb : callables_t) (event_p : event_t) (now : TIME_T)
    (s : Store) (hc : s.currentChild_a OR_INDEX_root = L_INDEX_IDLE)
    (he : event_p.tag ≠ .GO) :
    dispatchEvent_firstExample cb event_p now s =
      some { handled := false, store := s, calls := [] } := by
  rcases event_p with ⟨tag, a, b, d⟩
  cases tag <;>
    simp (disch := decide) [dispatchEvent_firstExample, or_root, basic_IDLE, eventClassOf, hc,
      setAt_same, setAt_other] at he ⊢

theorem dispatch_RUNNING_KILL (cb : callables_t) (event_p : event_t) (now : TIME_T)
    (s : Store) (hc : s.currentChild_a OR_INDEX_root = L_INDEX_RUNNING)
    (he : event_p.tag = .KILL) :
    dispatchEvent_firstExample cb event_p now s =
      some { handled := true
             store := enter_IDLE (-1) now (exit_RUNNING (-1) s)
             calls := [⟨.stop, OK_STATUS, exit_RUNNING (-1) s⟩] } := by
  simp (disch := decide) [dispatchEvent_firstExample, or_root, basic_RUNNING, eventClassOf, hc,
    he, frame_t.record, setAt_same, setAt_other, L_INDEX_RUNNING, L_INDEX_IDLE]

theorem dispatch_RUNNING_TICK_after (cb : callables_t) (event_p : event_t) (now : TIME_T)
    (s : Store) (hc : s.currentChild_a OR_INDEX_root = L_INDEX_RUNNING)
    (he : event_p.tag = .TICK)
    (ht : IS_AFTER (TO_DURATION 60000) (s.timeEntered_a G_INDEX_RUNNING) now = true) :
    dispatchEvent_firstExample cb event_p now s =
      some { handled := true
             store := enter_IDLE (-1) now (exit_RUNNING (-1) s)
             calls := [⟨.stop, OK_STATUS, exit_RUNNING (-1) s⟩] } := by
  simp (disch := decide) [dispatchEvent_firstExample, or_root, basic_RUNNING, eventClassOf, hc,
    he, ht, frame_t.record, setAt_same, setAt_other, L_INDEX_RUNNING, L_INDEX_IDLE]

theorem dispatch_RUNNING_TICK_before (cb : callables_t) (event_p : event_t) (now : TIME_T)
    (s : Store) (hc : s.currentChild_a OR_INDEX_root = L_INDEX_RUNNING)
    (he : event_p.tag = .TICK)
    (ht : IS_AFTER (TO_DURATION 60000) (s.timeEntered_a G_INDEX_RUNNING) now = false) :
    dispatchEvent_firstExample cb event_p now s =
      some { handled := false, store := s, calls := [] } := by
  simp (disch := decide) [dispatchEvent_firstExample, or_root, basic_RUNNING, eventClassOf, hc,
    he, ht, frame_t.record, setAt_same, setAt_other, L_INDEX_RUNNING, L_INDEX_IDLE]

theorem dispatch_RUNNING_GO (cb : callables_t) (event_p : event_t) (now : TIME_T)
    (s : Store) (hc : s.currentChild_a OR_INDEX_root = L_INDEX_RUNNING)
    (he : event_p.tag = .GO) :
    dispatchEvent_firstExample cb event_p now s =
      some { handled := false, store := s, calls := [] } := by
  simp (disch := decide) [dispatchEvent_firstExample, or_root, basic_RUNNING, eventClassOf, hc,
    he, frame_t.record, setAt_same, setAt_other, L_INDEX_RUNNING, L_INDEX_IDLE]

/-! ### Entering and leaving the two basic states -/

theorem leafRUNNING_enter_exit (now : TIME_T) (s : Store) (h : leafIDLE s) :
    leafRUNNING (enter_RUNNING (-1) now (exit_IDLE (-1) s)) := by
  rcases h with ⟨h0, h1, h2, h3⟩
  simp (disch := decide) [leafRUNNING, enter_RUNNING, exit_IDLE, setAt_same, setAt_other, h0]

theorem leafIDLE_enter_exit (now : TIME_T) (s : Store) (h : leafRUNNING s) :
    leafIDLE (enter_IDLE (-1) now (exit_RUNNING (-1) s)) := by
  rcases h with ⟨h0, h1, h2, h3⟩
  simp (disch := decide) [leafIDLE, enter_IDLE, exit_RUNNING, setAt_same, setAt_other, h0]

theorem leafIDLE_reenter (now : TIME_T) (s : Store) (h : leafIDLE s) :
    leafIDLE (enter_IDLE (-1) now (exit_IDLE (-1) s)) := by
  rcases h with ⟨h0, h1, h2, h3⟩
  simp (disch := decide) [leafIDLE, enter_IDLE, exit_IDLE, setAt_same, setAt_other, h0, h2]

theorem init_leafIDLE (now : TIME_T) :
    leafIDLE (initStateMachine_firstExample now zeroStore) := by
  simp (disch := decide) [leafIDLE, initStateMachine_firstExample, enter_root, enter_IDLE,
    zeroStore, setAt_same, setAt_other]

theorem dispatch_wellFormed (cb : callables_t) (event_p : event_t) (now : TIME_T) (s : Store)
    (h : wellFormed s) :
    ∃ o, dispatchEvent_firstExample cb event_p now s = some o ∧ wellFormed o.store := by
  rcases h with h | h
  · by_cases he : event_p.tag = .GO
    · cases hq : cb.ready_query event_p OK_STATUS
      · exact ⟨_, dispatch_IDLE_GO_unready cb event_p now s h.2.2.2 he hq,
          Or.inl (leafIDLE_reenter now s h)⟩
      · exact ⟨_, dispatch_IDLE_GO_ready cb event_p now s h.2.2.2 he hq,
          Or.inr (leafRUNNING_enter_exit now s h)⟩
    · exact ⟨_, dispatch_IDLE_other cb event_p now s h.2.2.2 he, Or.inl h⟩
  · rcases hE : event_p.tag with _ | _ | _
    · exact ⟨_, dispatch_RUNNING_GO cb event_p now s h.2.2.2 hE, Or.inr h⟩
    · exact ⟨_, dispatch_RUNNING_KILL cb event_p now s h.2.2.2 hE,
        Or.inl (leafIDLE_enter_exit now s h)⟩
    · cases ht : IS_AFTER (TO_DURATION 60000) (s.timeEntered_a G_INDEX_RUNNING) now
      · exact ⟨_, dispatch_RUNNING_TICK_before cb event_p now s h.2.2.2 hE ht, Or.inr h⟩
      · exact ⟨_, dispatch_RUNNING_TICK_after cb event_p now s h.2.2.2 hE ht,
          Or.inl (leafIDLE_enter_exit now s h)⟩

theorem dispatchAll_wellFormed (steps : List step_t) :
    ∀ s : Store, wellFormed s →
      ∃ outs, dispatchAll steps s = some outs ∧ outs.length = steps.length ∧
        ∀ o ∈ outs, wellFormed o.store := by
  induction steps with
  | nil => intro s _; exact ⟨[], rfl, rfl, by simp⟩
  | cons st rest ih =>
    intro s hs
    obtain ⟨o, ho, hw⟩ := dispatch_wellFormed st.cb st.event st.now s hs
    obtain ⟨os, hos, hl, hall⟩ := ih o.store hw
    refine ⟨o :: os, ?_, by simp [hl], ?_⟩
    · simp [dispatchAll, ho, hos]
    · intro o' ho'
      rcases List.mem_cons.mp ho' with h | h
      · rw [h]; exact hw
      · exact hall o' h

end firstExample

namespace submachineTest0

theorem init_pathA_test0 (now : TIME_T) :
    pathA (initStateMachine_submachineTest0 now zeroStore) := by
  simp (disch := decide) [pathA, activeFlags, initStateMachine_submachineTest0, enter_root,
    enter_A, zeroStore, setAt_same, setAt_other]

theorem dispatch_wellFormed_test0 (event_p : event_t) (now : TIME_T) (s : Store)
    (h : wellFormed s) :
    ∃ o, dispatchEvent_submachineTest0 event_p now s = some o ∧ wellFormed o.store := by
  rcases event_p with ⟨tag⟩
  rcases h with ⟨hf, hr⟩ | ⟨hf, hr⟩ | ⟨hf, hr, hs⟩ | ⟨hf, hr, hs⟩
  all_goals
    simp only [activeFlags, List.cons.injEq, and_true] at hf
    rcases hf with ⟨f0, f1, f2, f3, f4, f5⟩
    cases tag <;>
    simp (disch := decide) [dispatchEvent_submachineTest0, or_root, or_Sub0, or_Sub0_child,
      own_Sub0, basic_A, basic_B, basic_A__Sub0, basic_B__Sub0, eventClassOf, exit_Sub0,
      enter_Sub0, enter_A, enter_B, enter_A__Sub0, enter_B__Sub0, exit_A, exit_B, exit_A__Sub0,
      exit_B__Sub0, wellFormed, pathA, pathB, pathSub0_A, pathSub0_B, activeFlags,
      setAt_same, setAt_other, L_INDEX_A, L_INDEX_B, L_INDEX_Sub0, L_INDEX_A__Sub0,
      L_INDEX_B__Sub0, *]

theorem dispatchAll_wellFormed_test0 (steps : List step_t) :
    ∀ s : Store, wellFormed s →
      ∃ outs, dispatchAll steps s = some outs ∧ outs.length = steps.length ∧
        ∀ o ∈ outs, wellFormed o.store := by
  induction steps with
  | nil => intro s _; exact ⟨[], rfl, rfl, by simp⟩
  | cons st rest ih =>
    intro s hs
    obtain ⟨o, ho, hw⟩ := dispatch_wellFormed_test0 st.event st.now s hs
    obtain ⟨os, hos, hl, hall⟩ := ih o.store hw
    refine ⟨o :: os, ?_, by simp [hl], ?_⟩
    · simp [dispatchAll, ho, hos]
    · intro o' ho'
      rcases List.mem_cons.mp ho' with h | h
      · rw [h]; exact hw
      · exact hall o' h

end submachineTest0

namespace submachineTest1

theorem init_pathA_test1 (now : TIME_T) :
    pathA (initStateMachine_submachineTest1 now zeroStore) := by
  simp (disch := decide) [pathA, activeFlags, initStateMachine_submachineTest1, enter_root,
    enter_A, zeroStore, setAt_same, setAt_other]

theorem dispatch_wellFormed_test1 (cb : callables_t) (event_p : event_t) (now : TIME_T)
    (s : Store)
    (h : wellFormed s) :
    ∃ o, dispatchEvent_submachineTest1 cb event_p now s = some o ∧ wellFormed o.store := by
  rcases event_p with ⟨tag⟩
  rcases h with ⟨hf, hr⟩ | ⟨hf, hr⟩ | ⟨hf, hr, hs⟩ | ⟨hf, hr, hs⟩
  all_goals
    simp only [activeFlags, List.cons.injEq, and_true] at hf
    rcases hf with ⟨f0, f1, f2, f3, f4, f5⟩
    cases tag <;>
    simp (disch := decide) [dispatchEvent_submachineTest1, or_root, or_Sub1, basic_A, basic_B,
      basic_U__Sub1, basic_V__Sub1, eventClassOf, exit_Sub1, enter_Sub1, enter_A, enter_B,
      enter_U__Sub1, enter_V__Sub1, exit_A, exit_B, exit_U__Sub1, exit_V__Sub1,
      frame_t.record, wellFormed, pathA, pathB, pathSub1_U, pathSub1_V, activeFlags,
      setAt_same, setAt_other, L_INDEX_A, L_INDEX_B, L_INDEX_Sub1, L_INDEX_U__Sub1,
      L_INDEX_V__Sub1, L_INDEX_X__Sub1, L_INDEX_Y__Sub1, *]

theorem dispatchAll_wellFormed_test1 (steps : List step_t) :
    ∀ s : Store, wellFormed s →
      ∃ outs, dispatchAll steps s = some outs ∧ outs.length = steps.length ∧
        ∀ o ∈ outs, wellFormed o.store := by
  induction steps with
  | nil => intro s _; exact ⟨[], rfl, rfl, by simp⟩
  | cons st rest ih =>
    intro s hs
    obtain ⟨o, ho, hw⟩ := dispatch_wellFormed_test1 st.cb st.event st.now s hs
    obtain ⟨os, hos, hl, hall⟩ := ih o.store hw
    refine ⟨o :: os, ?_, by simp [hl], ?_⟩
    · simp [dispatchAll, ho, hos]
    · intro o' ho'
      rcases List.mem_cons.mp ho' with h | h
      · rw [h]; exact hw
      · exact hall o' h

end submachineTest1

/-! ## The single-active-leaf invariant (C1, C2, C3) -/

/-- C1: firstExample.  Starting from the all-inactive (zero) store, after
`initStateMachine_firstExample t0` and after every dispatch of any finite sequence of
`dispatchEvent_firstExample` calls (any events, any times, any behaviour of `ready_query`,
`start` and `stop` at each call), no dispatch is fatal and the store is well formed: the root
is active, exactly one of `IDLE` and `RUNNING` is active, and `currentChild_a[root]` is the
local index of that state. -/
theorem firstExample_active_path_invariant (t0 : TIME_T) (steps : List firstExample.step_t) :
    firstExample.wellFormed
      (firstExample.initStateMachine_firstExample t0 firstExample.zeroStore) ∧
    ∃ outs, firstExample.dispatchAll steps
        (firstExample.initStateMachine_firstExample t0 firstExample.zeroStore) = some outs ∧
      outs.length = steps.length ∧ ∀ o ∈ outs, firstExample.wellFormed o.store :=
  ⟨Or.inl (firstExample.init_leafIDLE t0),
    firstExample.dispatchAll_wellFormed steps _ (Or.inl (firstExample.init_leafIDLE t0))⟩

/-- C2: submachineTest0.  Starting from the all-inactive (zero) store, after
`initStateMachine_submachineTest0 t0` and after every dispatch of any finite sequence of
`dispatchEvent_submachineTest0` calls, no dispatch is fatal and the set of active states is
exactly one of `{root, A}`, `{root, B}`, `{root, Sub0, A__Sub0}`, `{root, Sub0, B__Sub0}`,
with `currentChild_a[root]` and, when `Sub0` is active, `currentChild_a[Sub0]` naming the
active child on that path. -/
theorem submachineTest0_active_path_invariant (t0 : TIME_T)
    (steps : List submachineTest0.step_t) :
    submachineTest0.wellFormed
      (submachineTest0.initStateMachine_submachineTest0 t0 submachineTest0.zeroStore) ∧
    ∃ outs, submachineTest0.dispatchAll steps
        (submachineTest0.initStateMachine_submachineTest0 t0 submachineTest0.zeroStore)
          = some outs ∧
      outs.length = steps.length ∧ ∀ o ∈ outs, submachineTest0.wellFormed o.store :=
  ⟨Or.inl (submachineTest0.init_pathA_test0 t0),
    submachineTest0.dispatchAll_wellFormed_test0 steps _
      (Or.inl (submachineTest0.init_pathA_test0 t0))⟩

/-- C3: submachineTest1.  Starting from the all-inactive (zero) store, after
`initStateMachine_submachineTest1 t0` and after every dispatch of any finite sequence of
`dispatchEvent_submachineTest1` calls (any events, any times, any behaviour of `act1`), no
dispatch is fatal and the set of active states is exactly one of `{root, A}`, `{root, B}`,
`{root, Sub1, U__Sub1}`, `{root, Sub1, V__Sub1}`, with `currentChild_a[root]` and, when `Sub1`
is active, `currentChild_a[Sub1]` naming the active child on that path; this although `Sub1`
is entered and left with the explicit resume indices `X__Sub1` and `Y__Sub1`. -/
theorem submachineTest1_active_path_invariant (t0 : TIME_T)
    (steps : List submachineTest1.step_t) :
    submachineTest1.wellFormed
      (submachineTest1.initStateMachine_submachineTest1 t0 submachineTest1.zeroStore) ∧
    ∃ outs, submachineTest1.dispatchAll steps
        (submachineTest1.initStateMachine_submachineTest1 t0 submachineTest1.zeroStore)
          = some outs ∧
      outs.length = steps.length ∧ ∀ o ∈ outs, submachineTest1.wellFormed o.store :=
  ⟨Or.inl (submachineTest1.init_pathA_test1 t0),
    submachineTest1.dispatchAll_wellFormed_test1 steps _
      (Or.inl (submachineTest1.init_pathA_test1 t0))⟩

/-! ## Initialisation (C4) -/

/-- C4: for each of the three machines, `initStateMachine` on the all-inactive store leaves
exactly two states active, the root and the root's child of local index 0 (`IDLE`, resp. `A`);
`currentChild_a[root]` is 0, and `timeEntered_a` of the root and of that child equal `now`. -/
theorem init_enters_root_and_default_child (now : TIME_T) :
    ((∀ g, (firstExample.initStateMachine_firstExample now firstExample.zeroStore).isIn_a g = true
          ↔ (g = firstExample.G_INDEX_root ∨ g = firstExample.G_INDEX_IDLE)) ∧
      firstExample.L_INDEX_IDLE = 0 ∧
      (firstExample.initStateMachine_firstExample now firstExample.zeroStore).currentChild_a
        firstExample.OR_INDEX_root = 0 ∧
      (firstExample.initStateMachine_firstExample now firstExample.zeroStore).timeEntered_a
        firstExample.G_INDEX_root = now ∧
      (firstExample.initStateMachine_firstExample now firstExample.zeroStore).timeEntered_a
        firstExample.G_INDEX_IDLE = now) ∧
    ((∀ g, (submachineTest0.initStateMachine_submachineTest0 now
            submachineTest0.zeroStore).isIn_a g = true
          ↔ (g = submachineTest0.G_INDEX_root ∨ g = submachineTest0.G_INDEX_A)) ∧
      submachineTest0.L_INDEX_A = 0 ∧
      (submachineTest0.initStateMachine_submachineTest0 now
        submachineTest0.zeroStore).currentChild_a submachineTest0.OR_INDEX_root = 0 ∧
      (submachineTest0.initStateMachine_submachineTest0 now
        submachineTest0.zeroStore).timeEntered_a submachineTest0.G_INDEX_root = now ∧
      (submachineTest0.initStateMachine_submachineTest0 now
        submachineTest0.zeroStore).timeEntered_a submachineTest0.G_INDEX_A = now) ∧
    ((∀ g, (submachineTest1.initStateMachine_submachineTest1 now
            submachineTest1.zeroStore).isIn_a g = true
          ↔ (g = submachineTest1.G_INDEX_root ∨ g = submachineTest1.G_INDEX_A)) ∧
      submachineTest1.L_INDEX_A = 0 ∧
      (submachineTest1.initStateMachine_submachineTest1 now
        submachineTest1.zeroStore).currentChild_a submachineTest1.OR_INDEX_root = 0 ∧
      (submachineTest1.initStateMachine_submachineTest1 now
        submachineTest1.zeroStore).timeEntered_a submachineTest1.G_INDEX_root = now ∧
      (submachineTest1.initStateMachine_submachineTest1 now
        submachineTest1.zeroStore).timeEntered_a submachineTest1.G_INDEX_A = now) := by
  refine ⟨⟨?_, rfl, ?_, ?_, ?_⟩, ⟨?_, rfl, ?_, ?_, ?_⟩, ⟨?_, rfl, ?_, ?_, ?_⟩⟩
  · intro g
    fin_cases g <;>
      simp (disch := decide) [firstExample.initStateMachine_firstExample,
        firstExample.enter_root, firstExample.enter_IDLE, firstExample.zeroStore, setAt,
        firstExample.G_INDEX_root, firstExample.G_INDEX_IDLE]
    all_goals try tauto
  · simp [firstExample.initStateMachine_firstExample, firstExample.enter_root,
      firstExample.enter_IDLE, setAt_same, firstExample.L_INDEX_IDLE]
  · simp (disch := decide) [firstExample.initStateMachine_firstExample,
      firstExample.enter_root, firstExample.enter_IDLE, setAt_same, setAt_other]
  · simp (disch := decide) [firstExample.initStateMachine_firstExample,
      firstExample.enter_root, firstExample.enter_IDLE, setAt_same, setAt_other]
  · intro g
    fin_cases g <;>
      simp (disch := decide) [submachineTest0.initStateMachine_submachineTest0,
        submachineTest0.enter_root, submachineTest0.enter_A, submachineTest0.zeroStore, setAt,
        submachineTest0.G_INDEX_root, submachineTest0.G_INDEX_A]
  · simp [submachineTest0.initStateMachine_submachineTest0, submachineTest0.enter_root,
      submachineTest0.enter_A, setAt_same, submachineTest0.L_INDEX_A]
  · simp (disch := decide) [submachineTest0.initStateMachine_submachineTest0,
      submachineTest0.enter_root, submachineTest0.enter_A, setAt_same, setAt_other]
  · simp (disch := decide) [submachineTest0.initStateMachine_submachineTest0,
      submachineTest0.enter_root, submachineTest0.enter_A, setAt_same, setAt_other]
  · intro g
    fin_cases g <;>
      simp (disch := decide) [submachineTest1.initStateMachine_submachineTest1,
        submachineTest1.enter_root, submachineTest1.enter_A, submachineTest1.zeroStore, setAt,
        submachineTest1.G_INDEX_root, submachineTest1.G_INDEX_A]
  · simp [submachineTest1.initStateMachine_submachineTest1, submachineTest1.enter_root,
      submachineTest1.enter_A, setAt_same, submachineTest1.L_INDEX_A]
  · simp (disch := decide) [submachineTest1.initStateMachine_submachineTest1,
      submachineTest1.enter_root, submachineTest1.enter_A, setAt_same, setAt_other]
  · simp (disch := decide) [submachineTest1.initStateMachine_submachineTest1,
      submachineTest1.enter_root, submachineTest1.enter_A, setAt_same, setAt_other]

/-! ## Modular time comparison -/

theorem toTIME_T_cast (x : Int) : ((toTIME_T x : Nat) : Int) = x % 4294967296 := by
  unfold toTIME_T
  exact Int.toNat_of_nonneg (Int.emod_nonneg x (by decide))

theorem toTIME_T_sub_add (t0 e : Nat) (ht : t0 < 4294967296) (he : e < 4294967296) :
    toTIME_T ((((t0 + e) % 4294967296 : Nat) : Int) - (t0 : Int)) = e := by
  have h := toTIME_T_cast ((((t0 + e) % 4294967296 : Nat) : Int) - (t0 : Int))
  omega

theorem toTIME_T_small (d : Nat) (hd : d < 4294967296) : toTIME_T (d : Int) = d := by
  have h := toTIME_T_cast (d : Int)
  omega

theorem IS_AFTER_eq_true_iff (d : Nat) (t0 t1 : TIME_T) :
    IS_AFTER d t0 t1 = true ↔
      (d : Int) % 4294967296 ≤ ((t1 : Int) - (t0 : Int)) % 4294967296 := by
  unfold IS_AFTER
  rw [decide_eq_true_iff, ← toTIME_T_cast, ← toTIME_T_cast]
  exact Int.ofNat_le.symm

theorem IS_AFTER_offset (d t0 e : Nat) (hd : d < 4294967296) (ht : t0 < 4294967296)
    (he : e < 4294967296) :
    IS_AFTER d t0 ((t0 + e) % 4294967296) = true ↔ d ≤ e := by
  unfold IS_AFTER
  rw [decide_eq_true_iff, toTIME_T_sub_add t0 e ht he, toTIME_T_small d hd]

/-! ## firstExample: single transitions (C5, C6, C7) -/

namespace firstExample

theorem countCalls_start_ready (s : Store) :
    countCalls .start [⟨.ready_query, OK_STATUS, s⟩, ⟨.start, OK_STATUS, s⟩] = 1 ∧
    countCalls .stop [⟨.ready_query, OK_STATUS, s⟩, ⟨.start, OK_STATUS, s⟩] = 0 := by
  constructor <;> simp [countCalls, List.filter]

theorem countCalls_stop_single (s : Store) :
    countCalls .stop [⟨.stop, OK_STATUS, s⟩] = 1 := by
  simp [countCalls, List.filter]

theorem timeEntered_enter_RUNNING (now : TIME_T) (s : Store) :
    (enter_RUNNING (-1) now s).timeEntered_a G_INDEX_RUNNING = now := by
  simp [enter_RUNNING, setAt_same]

theorem timeEntered_enter_IDLE (now : TIME_T) (s : Store) :
    (enter_IDLE (-1) now s).timeEntered_a G_INDEX_IDLE = now := by
  simp [enter_IDLE, setAt_same]

theorem leafIDLE_idleStore : leafIDLE idleStore := init_leafIDLE 0

theorem leafRUNNING_runningStore (t0 : TIME_T) : leafRUNNING (runningStore t0) :=
  leafRUNNING_enter_exit t0 idleStore leafIDLE_idleStore

theorem timeEntered_runningStore (t0 : TIME_T) :
    (runningStore t0).timeEntered_a G_INDEX_RUNNING = t0 :=
  timeEntered_enter_RUNNING t0 _

end firstExample

/-- C5: firstExample.  For every store whose active leaf is `IDLE` and every `now`,
dispatching a `GO` event for which `ready_query` returns true returns true (handled), invokes
`start` exactly once and `stop` never, and leaves the active set exactly `{root, RUNNING}` with
`currentChild_a[root] = L_INDEX_RUNNING` and `timeEntered_a[RUNNING] = now`. -/
theorem firstExample_GO_ready_enters_RUNNING (cb : firstExample.callables_t)
    (event_p : firstExample.event_t) (now : TIME_T) (s : firstExample.Store)
    (hs : firstExample.leafIDLE s) (he : firstExample.eventClassOf event_p = .GO)
    (hq : cb.ready_query event_p OK_STATUS = true) :
    ∃ o, firstExample.dispatchEvent_firstExample cb event_p now s = some o ∧
      o.handled = true ∧
      firstExample.countCalls .start o.calls = 1 ∧
      firstExample.countCalls .stop o.calls = 0 ∧
      firstExample.leafRUNNING o.store ∧
      o.store.timeEntered_a firstExample.G_INDEX_RUNNING = now :=
  ⟨_, firstExample.dispatch_IDLE_GO_ready cb event_p now s hs.2.2.2 he hq, rfl,
    (firstExample.countCalls_start_ready _).1, (firstExample.countCalls_start_ready _).2,
    firstExample.leafRUNNING_enter_exit now s hs, firstExample.timeEntered_enter_RUNNING now _⟩

theorem firstExample_GO_ready_enters_RUNNING_witness :
    firstExample.leafIDLE firstExample.idleStore ∧
    ∃ o, firstExample.dispatchEvent_firstExample firstExample.readyCallables
        (firstExample.eventOf .GO) 7 firstExample.idleStore = some o ∧
      o.handled = true ∧
      firstExample.countCalls .start o.calls = 1 ∧
      firstExample.countCalls .stop o.calls = 0 ∧
      firstExample.leafRUNNING o.store ∧
      o.store.timeEntered_a firstExample.G_INDEX_RUNNING = 7 :=
  ⟨firstExample.leafIDLE_idleStore,
    firstExample_GO_ready_enters_RUNNING firstExample.readyCallables (firstExample.eventOf .GO)
      7 firstExample.idleStore firstExample.leafIDLE_idleStore rfl rfl⟩

/-- C6: firstExample.  For every store whose active leaf is `RUNNING` and every `now`, however
long `RUNNING` has been active, dispatching a `KILL` event returns true, invokes `stop` exactly
once, and leaves the active set exactly `{root, IDLE}` with
`currentChild_a[root] = L_INDEX_IDLE` and `timeEntered_a[IDLE] = now`. -/
theorem firstExample_KILL_returns_to_IDLE (cb : firstExample.callables_t)
    (event_p : firstExample.event_t) (now : TIME_T) (s : firstExample.Store)
    (hs : firstExample.leafRUNNING s) (he : firstExample.eventClassOf event_p = .KILL) :
    ∃ o, firstExample.dispatchEvent_firstExample cb event_p now s = some o ∧
      o.handled = true ∧
      firstExample.countCalls .stop o.calls = 1 ∧
      firstExample.leafIDLE o.store ∧
      o.store.timeEntered_a firstExample.G_INDEX_IDLE = now :=
  ⟨_, firstExample.dispatch_RUNNING_KILL cb event_p now s hs.2.2.2 he, rfl,
    firstExample.countCalls_stop_single _, firstExample.leafIDLE_enter_exit now s hs,
    firstExample.timeEntered_enter_IDLE now _⟩

theorem firstExample_KILL_returns_to_IDLE_witness :
    firstExample.leafRUNNING (firstExample.runningStore 5) ∧
    ∃ o, firstExample.dispatchEvent_firstExample firstExample.readyCallables
        (firstExample.eventOf .KILL) 9 (firstExample.runningStore 5) = some o ∧
      o.handled = true ∧
      firstExample.countCalls .stop o.calls = 1 ∧
      firstExample.leafIDLE o.store ∧
      o.store.timeEntered_a firstExample.G_INDEX_IDLE = 9 :=
  ⟨firstExample.leafRUNNING_runningStore 5,
    firstExample_KILL_returns_to_IDLE firstExample.readyCallables (firstExample.eventOf .KILL)
      9 (firstExample.runningStore 5) (firstExample.leafRUNNING_runningStore 5) rfl⟩

/-- C7: firstExample.  For every store whose active leaf is `RUNNING` and every `now`,
dispatching `TICK` fires the timed transition to `IDLE` (returns true, `stop` invoked once,
active set `{root, IDLE}`) if and only if `(now - timeEntered_a[RUNNING]) mod 2^32 >= 60000`;
otherwise it returns false, calls nothing and leaves the store unchanged.  The elapsed time is
taken modulo `2^32`, so this covers a `now` numerically below `timeEntered_a[RUNNING]`. -/
theorem firstExample_TICK_fires_iff_elapsed (cb : firstExample.callables_t)
    (event_p : firstExample.event_t) (now : TIME_T) (s : firstExample.Store)
    (hs : firstExample.leafRUNNING s) (he : firstExample.eventClassOf event_p = .TICK) :
    ∃ o, firstExample.dispatchEvent_firstExample cb event_p now s = some o ∧
      (o.handled = true ↔
        (60000 : Int) ≤
          ((now : Int) - (s.timeEntered_a firstExample.G_INDEX_RUNNING : Int)) % 4294967296) ∧
      (o.handled = true →
        firstExample.countCalls .stop o.calls = 1 ∧ firstExample.leafIDLE o.store) ∧
      (o.handled = false → o.store = s ∧ o.calls = []) := by
  have key := IS_AFTER_eq_true_iff (TO_DURATION 60000)
    (s.timeEntered_a firstExample.G_INDEX_RUNNING) now
  have hd : ((TO_DURATION 60000 : Nat) : Int) % 4294967296 = 60000 := by
    simp [TO_DURATION]
  rw [hd] at key
  cases ht : IS_AFTER (TO_DURATION 60000) (s.timeEntered_a firstExample.G_INDEX_RUNNING) now
  · refine ⟨_, firstExample.dispatch_RUNNING_TICK_before cb event_p now s hs.2.2.2 he ht,
      ?_, ?_, ?_⟩
    · rw [← key, ht]
    · intro h; cases h
    · intro _; exact ⟨rfl, rfl⟩
  · refine ⟨_, firstExample.dispatch_RUNNING_TICK_after cb event_p now s hs.2.2.2 he ht,
      ?_, ?_, ?_⟩
    · rw [← key, ht]
    · intro _
      exact ⟨firstExample.countCalls_stop_single _, firstExample.leafIDLE_enter_exit now s hs⟩
    · intro h; cases h

theorem firstExample_TICK_fires_iff_elapsed_witness :
    firstExample.leafRUNNING (firstExample.runningStore 0xFFFFFF00) ∧
    ∃ o, firstExample.dispatchEvent_firstExample firstExample.readyCallables
        (firstExample.eventOf .TICK) 0x0000F000 (firstExample.runningStore 0xFFFFFF00)
          = some o ∧
      (o.handled = true ↔
        (60000 : Int) ≤
          (((0x0000F000 : Nat) : Int) - ((firstExample.runningStore 0xFFFFFF00).timeEntered_a
            firstExample.G_INDEX_RUNNING : Int)) % 4294967296) ∧
      (o.handled = true →
        firstExample.countCalls .stop o.calls = 1 ∧ firstExample.leafIDLE o.store) ∧
      (o.handled = false → o.store = firstExample.runningStore 0xFFFFFF00 ∧ o.calls = []) :=
  ⟨firstExample.leafRUNNING_runningStore _,
    firstExample_TICK_fires_iff_elapsed firstExample.readyCallables
      (firstExample.eventOf .TICK) 0x0000F000 (firstExample.runningStore 0xFFFFFF00)
      (firstExample.leafRUNNING_runningStore _) rfl⟩

/-! ## Wraparound safety of `IS_AFTER` (C8) -/

/-- C8: `IS_AFTER` is wraparound-safe.  For every 32-bit entry time `t0`, every duration
`d < 2^32` and every true elapsed time `e < 2^32`, `IS_AFTER d t0 ((t0 + e) mod 2^32)` is true
if and only if `d <= e`; here `IS_AFTER d t0 t1` is `d <= ((t1 - t0) mod 2^32)` on unsigned
32-bit values. -/
theorem IS_AFTER_wraparound_safe (d t0 e : Nat) (hd : d < 4294967296)
    (ht : t0 < 4294967296) (he : e < 4294967296) :
    (IS_AFTER d t0 ((t0 + e) % 4294967296) = true ↔ d ≤ e) ∧
    (∀ t1 : TIME_T, IS_AFTER d t0 t1 = true ↔
      (d : Int) ≤ ((t1 : Int) - (t0 : Int)) % 4294967296) := by
  refine ⟨IS_AFTER_offset d t0 e hd ht he, fun t1 => ?_⟩
  rw [IS_AFTER_eq_true_iff]
  have : (d : Int) % 4294967296 = d := by omega
  rw [this]

theorem IS_AFTER_wraparound_safe_witness :
    (IS_AFTER 60000 0xFFFFFF00 ((0xFFFFFF00 + 61696) % 4294967296) = true ↔ 60000 ≤ 61696) ∧
    (∀ t1 : TIME_T, IS_AFTER 60000 0xFFFFFF00 t1 = true ↔
      ((60000 : Nat) : Int) ≤ ((t1 : Int) - ((0xFFFFFF00 : Nat) : Int)) % 4294967296) :=
  IS_AFTER_wraparound_safe 60000 0xFFFFFF00 61696 (by decide) (by decide) (by decide)

/-! ## firstExample: sequences of dispatches (C9, C10) -/

namespace firstExample

theorem TICK_fires_across_wraparound :
    (dispatchEvent_firstExample readyCallables (eventOf .TICK) 0x0000F000
      (runningStore 0xFFFFFF00)).map (fun o => o.handled) = some true := by
  rw [dispatch_RUNNING_TICK_after readyCallables (eventOf .TICK) 0x0000F000
    (runningStore 0xFFFFFF00) (leafRUNNING_runningStore _).2.2.2 rfl
    (by rw [timeEntered_runningStore]; decide)]
  rfl

theorem totalCalls_unhandled (c : callee_t) (s : Store) (l : List step_t) :
    totalCalls c (l.map fun _ => ({ handled := false, store := s, calls := [] } : outcome_t))
      = 0 := by
  induction l with
  | nil => rfl
  | cons a l ih =>
    simp only [totalCalls, List.map_cons, List.sum_cons] at ih ⊢
    rw [ih]
    rfl

/-- While `IDLE` is the active child, a run of `TICK` events is not handled and changes
nothing. -/
theorem dispatchAll_TICK_in_IDLE (steps : List step_t) (s : Store)
    (hc : s.currentChild_a OR_INDEX_root = L_INDEX_IDLE)
    (hE : ∀ st ∈ steps, eventClassOf st.event = .TICK) :
    dispatchAll steps s
      = some (steps.map fun _ => ({ handled := false, store := s, calls := [] } : outcome_t)) := by
  induction steps with
  | nil => rfl
  | cons st rest ih =>
    have h1 : eventClassOf st.event = .TICK := hE st (List.mem_cons_self _ _)
    have h2 : st.event.tag ≠ .GO := by
      intro h
      rw [eventClassOf, h] at h1
      cases h1
    have h3 := ih (fun u hu => hE u (List.mem_cons_of_mem _ hu))
    simp only [dispatchAll, dispatch_IDLE_other st.cb st.event st.now s hc h2, h3, List.map_cons]

/-- C9: firstExample.  Let `RUNNING` have just been entered at time `t0`, and let `TICK` be
dispatched at `now_i = (t0 + e_i) mod 2^32` for nondecreasing offsets `e_i < 2^32`.  Then no
dispatch is fatal; every dispatch with `e_i < 60000` returns false and leaves `RUNNING` the
active leaf; the first dispatch with `e_i >= 60000` returns true and makes `IDLE` the active
leaf; every later `TICK` returns false; and over the whole run `stop` is invoked exactly once
if some `e_i >= 60000` and never otherwise. -/
theorem TICK_sequence_fires_exactly_once (t0 : TIME_T) (s : Store) (ht0 : t0 < 4294967296)
    (hs : leafRUNNING s) (hte : s.timeEntered_a G_INDEX_RUNNING = t0)
    (ticks : List (step_t × Nat))
    (htick : ∀ t ∈ ticks, eventClassOf t.1.event = .TICK ∧ t.2 < 4294967296 ∧
      t.1.now = (t0 + t.2) % 4294967296)
    (hsorted : ticks.Pairwise (fun a b => a.2 ≤ b.2)) :
    ∃ outs, dispatchAll (ticks.map Prod.fst) s = some outs ∧ outs.length = ticks.length ∧
      (∀ (i : Nat) (t : step_t × Nat) (o : outcome_t),
        ticks[i]? = some t → outs[i]? = some o →
        (t.2 < 60000 → o.handled = false ∧ leafRUNNING o.store) ∧
        (60000 ≤ t.2 →
          (∀ (j : Nat) (u : step_t × Nat), j < i → ticks[j]? = some u → u.2 < 60000) →
          o.handled = true ∧ leafIDLE o.store) ∧
        ((∃ (j : Nat) (u : step_t × Nat), j < i ∧ ticks[j]? = some u ∧ 60000 ≤ u.2) →
          o.handled = false)) ∧
      totalCalls .stop outs = if ∃ t ∈ ticks, 60000 ≤ t.2 then 1 else 0 := by
  induction ticks with
  | nil =>
    refine ⟨[], rfl, rfl, ?_, ?_⟩
    · intro i t o h
      simp at h
    · simp [totalCalls]
  | cons t rest ih =>
    obtain ⟨hE, hlt, hnow⟩ := htick t (List.mem_cons_self _ _)
    have hrest : ∀ u ∈ rest, eventClassOf u.1.event = .TICK ∧ u.2 < 4294967296 ∧
        u.1.now = (t0 + u.2) % 4294967296 := fun u hu => htick u (List.mem_cons_of_mem _ hu)
    rw [List.pairwise_cons] at hsorted
    obtain ⟨hle, hsorted⟩ := hsorted
    have hafter : IS_AFTER (TO_DURATION 60000) (s.timeEntered_a G_INDEX_RUNNING) t.1.now = true
        ↔ 60000 ≤ t.2 := by
      rw [hte, hnow]
      exact IS_AFTER_offset 60000 t0 t.2 (by decide) ht0 hlt
    by_cases hfire : 60000 ≤ t.2
    · -- the timed transition fires at this dispatch; the machine is in IDLE from here on
      have hd := dispatch_RUNNING_TICK_after t.1.cb t.1.event t.1.now s hs.2.2.2 hE
        (hafter.mpr hfire)
      have hidle : leafIDLE (enter_IDLE (-1) t.1.now (exit_RUNNING (-1) s)) :=
        leafIDLE_enter_exit _ s hs
      have hrun := dispatchAll_TICK_in_IDLE (rest.map Prod.fst) _ hidle.2.2.2
        (by
          intro st hst
          obtain ⟨u, hu, rfl⟩ := List.mem_map.mp hst
          exact (hrest u hu).1)
      have hdisp : dispatchAll ((t :: rest).map Prod.fst) s
          = some ((⟨true, enter_IDLE (-1) t.1.now (exit_RUNNING (-1) s),
              [⟨.stop, OK_STATUS, exit_RUNNING (-1) s⟩]⟩ : outcome_t) ::
            (rest.map Prod.fst).map fun _ =>
              (⟨false, enter_IDLE (-1) t.1.now (exit_RUNNING (-1) s), []⟩ : outcome_t)) := by
        simp only [List.map_cons, dispatchAll, hd, hrun]
      refine ⟨_, hdisp, by simp, ?_, ?_⟩
      · intro i u o hu ho
        cases i with
        | zero =>
          simp only [List.getElem?_cons_zero, Option.some.injEq] at hu ho
          subst hu
          subst ho
          refine ⟨fun h => absurd hfire (by omega), fun _ _ => ⟨rfl, hidle⟩, ?_⟩
          rintro ⟨j, _, hj, _⟩
          omega
        | succ k =>
          simp only [List.getElem?_cons_succ, List.getElem?_map] at hu ho
          have hmem : u ∈ rest := List.getElem?_mem hu
          have hge : 60000 ≤ u.2 := le_trans hfire (hle u hmem)
          have ho' : o = (⟨false, enter_IDLE (-1) t.1.now (exit_RUNNING (-1) s), []⟩ :
              outcome_t) := by
            cases hk : rest[k]? with
            | none => rw [hk] at hu; cases hu
            | some v =>
              rw [hk] at ho
              simp only [Option.map_some', Option.some.injEq] at ho
              exact ho.symm
          subst ho'
          refine ⟨fun h => absurd hge (by omega), fun _ hall => ?_, fun _ => rfl⟩
          have := hall 0 t (Nat.succ_pos k) List.getElem?_cons_zero
          omega
      · have hex : ∃ u ∈ t :: rest, 60000 ≤ u.2 := ⟨t, List.mem_cons_self _ _, hfire⟩
        rw [if_pos hex]
        have hz := totalCalls_unhandled .stop
          (enter_IDLE (-1) t.1.now (exit_RUNNING (-1) s)) (rest.map Prod.fst)
        simp only [totalCalls, List.map_cons, List.sum_cons] at hz ⊢
        rw [hz, countCalls_stop_single]
    · -- too early: nothing happens and the run continues from the same store
      have hearly : t.2 < 60000 := by omega
      have hd := dispatch_RUNNING_TICK_before t.1.cb t.1.event t.1.now s hs.2.2.2 hE
        (by
          cases hv : IS_AFTER (TO_DURATION 60000) (s.timeEntered_a G_INDEX_RUNNING) t.1.now
          · rfl
          · exact absurd (hafter.mp hv) hfire)
      obtain ⟨outs, hrun, hlen, hidx, htot⟩ := ih hrest hsorted
      have hdisp : dispatchAll ((t :: rest).map Prod.fst) s
          = some ((⟨false, s, []⟩ : outcome_t) :: outs) := by
        simp only [List.map_cons, dispatchAll, hd, hrun]
      refine ⟨_, hdisp, by simp [hlen], ?_, ?_⟩
      · intro i u o hu ho
        cases i with
        | zero =>
          simp only [List.getElem?_cons_zero, Option.some.injEq] at hu ho
          subst hu
          subst ho
          refine ⟨fun _ => ⟨rfl, hs⟩, fun h => absurd h hfire, ?_⟩
          rintro ⟨j, _, hj, _⟩
          omega
        | succ k =>
          simp only [List.getElem?_cons_succ] at hu ho
          obtain ⟨hA, hB, hC⟩ := hidx k u o hu ho
          refine ⟨hA, fun h hall => hB h (fun j v hj hv =>
            hall (j + 1) v (by omega) (by rw [List.getElem?_cons_succ]; exact hv)), ?_⟩
          rintro ⟨j, v, hj, hv, hge⟩
          cases j with
          | zero =>
            simp only [List.getElem?_cons_zero, Option.some.injEq] at hv
            subst hv
            omega
          | succ j' =>
            simp only [List.getElem?_cons_succ] at hv
            exact hC ⟨j', v, by omega, hv, hge⟩
      · have hiff : (∃ u ∈ t :: rest, 60000 ≤ u.2) ↔ ∃ u ∈ rest, 60000 ≤ u.2 := by
          constructor
          · rintro ⟨u, hu, hge⟩
            rcases List.mem_cons.mp hu with h | h
            · subst h; omega
            · exact ⟨u, h, hge⟩
          · rintro ⟨u, hu, hge⟩
            exact ⟨u, List.mem_cons_of_mem _ hu, hge⟩
        simp only [totalCalls, List.map_cons, List.sum_cons] at htot ⊢
        rw [htot]
        simp only [countCalls, List.filter_nil, List.length_nil, Nat.zero_add, hiff]

theorem sampleTicks_spec : ∀ t ∈ sampleTicks, eventClassOf t.1.event = .TICK ∧
    t.2 < 4294967296 ∧ t.1.now = (0xFFFFFF00 + t.2) % 4294967296 := by
  intro t ht
  simp only [sampleTicks, List.mem_cons, List.mem_singleton, List.not_mem_nil, or_false] at ht
  rcases ht with rfl | rfl | rfl | rfl <;> exact ⟨rfl, by decide, rfl⟩

theorem sampleTicks_sorted : sampleTicks.Pairwise (fun a b => a.2 ≤ b.2) := by
  simp [sampleTicks, tickAfter]

theorem TICK_sequence_fires_exactly_once_witness :
    ∃ outs, dispatchAll (sampleTicks.map Prod.fst) (runningStore 0xFFFFFF00) = some outs ∧
      outs.length = sampleTicks.length ∧
      (∀ (i : Nat) (t : step_t × Nat) (o : outcome_t),
        sampleTicks[i]? = some t → outs[i]? = some o →
        (t.2 < 60000 → o.handled = false ∧ leafRUNNING o.store) ∧
        (60000 ≤ t.2 →
          (∀ (j : Nat) (u : step_t × Nat),
            j < i → sampleTicks[j]? = some u → u.2 < 60000) →
          o.handled = true ∧ leafIDLE o.store) ∧
        ((∃ (j : Nat) (u : step_t × Nat),
            j < i ∧ sampleTicks[j]? = some u ∧ 60000 ≤ u.2) →
          o.handled = false)) ∧
      totalCalls .stop outs = if ∃ t ∈ sampleTicks, 60000 ≤ t.2 then 1 else 0 :=
  TICK_sequence_fires_exactly_once 0xFFFFFF00 (runningStore 0xFFFFFF00) (by decide)
    (leafRUNNING_runningStore _) (timeEntered_runningStore _) sampleTicks sampleTicks_spec
    sampleTicks_sorted

end firstExample

/-- C10: firstExample, re-entering `RUNNING` resets its deadline.  Starting with `RUNNING`
entered at `t0`, after `KILL` at `t1` and then `GO` (with `ready_query` true) at `t2`, a `TICK`
dispatched at `t3` with `(t3 - t2) mod 2^32 < 60000` returns false and leaves `RUNNING` the
active leaf, whatever `(t3 - t0) mod 2^32` is. -/
theorem firstExample_reentry_resets_deadline (cb1 cb2 cb3 : firstExample.callables_t)
    (ev1 ev2 ev3 : firstExample.event_t) (t0 t1 t2 t3 : TIME_T) (s : firstExample.Store)
    (hs : firstExample.leafRUNNING s)
    (hte : s.timeEntered_a firstExample.G_INDEX_RUNNING = t0)
    (he1 : firstExample.eventClassOf ev1 = .KILL)
    (he2 : firstExample.eventClassOf ev2 = .GO)
    (hq : cb2.ready_query ev2 OK_STATUS = true)
    (he3 : firstExample.eventClassOf ev3 = .TICK)
    (hlt : ((t3 : Int) - (t2 : Int)) % 4294967296 < 60000) :
    ∃ o1 o2 o3,
      firstExample.dispatchAll [⟨cb1, ev1, t1⟩, ⟨cb2, ev2, t2⟩, ⟨cb3, ev3, t3⟩] s
        = some [o1, o2, o3] ∧
      o1.handled = true ∧ firstExample.leafIDLE o1.store ∧
      o2.handled = true ∧ firstExample.leafRUNNING o2.store ∧
      o2.store.timeEntered_a firstExample.G_INDEX_RUNNING = t2 ∧
      o3.handled = false ∧ firstExample.leafRUNNING o3.store ∧ o3.store = o2.store := by
  have h1 := firstExample.dispatch_RUNNING_KILL cb1 ev1 t1 s hs.2.2.2 he1
  have i1 := firstExample.leafIDLE_enter_exit t1 s hs
  have h2 := firstExample.dispatch_IDLE_GO_ready cb2 ev2 t2 _ i1.2.2.2 he2 hq
  have r2 := firstExample.leafRUNNING_enter_exit t2 _ i1
  have te2 := firstExample.timeEntered_enter_RUNNING t2
    (firstExample.exit_IDLE (-1)
      (firstExample.enter_IDLE (-1) t1 (firstExample.exit_RUNNING (-1) s)))
  have hearly : IS_AFTER (TO_DURATION 60000) t2 t3 = false := by
    cases hv : IS_AFTER (TO_DURATION 60000) t2 t3
    · rfl
    · have := (IS_AFTER_eq_true_iff (TO_DURATION 60000) t2 t3).mp hv
      simp only [TO_DURATION] at this
      omega
  have h3 := firstExample.dispatch_RUNNING_TICK_before cb3 ev3 t3 _ r2.2.2.2 he3
    (by rw [te2]; exact hearly)
  have hd : firstExample.dispatchAll [⟨cb1, ev1, t1⟩, ⟨cb2, ev2, t2⟩, ⟨cb3, ev3, t3⟩] s
      = some [⟨true, firstExample.enter_IDLE (-1) t1 (firstExample.exit_RUNNING (-1) s),
                [⟨.stop, OK_STATUS, firstExample.exit_RUNNING (-1) s⟩]⟩,
              ⟨true, firstExample.enter_RUNNING (-1) t2 (firstExample.exit_IDLE (-1)
                  (firstExample.enter_IDLE (-1) t1 (firstExample.exit_RUNNING (-1) s))),
                [⟨.ready_query, OK_STATUS, firstExample.exit_IDLE (-1)
                    (firstExample.enter_IDLE (-1) t1 (firstExample.exit_RUNNING (-1) s))⟩,
                  ⟨.start, OK_STATUS, firstExample.exit_IDLE (-1)
                    (firstExample.enter_IDLE (-1) t1 (firstExample.exit_RUNNING (-1) s))⟩]⟩,
              ⟨false, firstExample.enter_RUNNING (-1) t2 (firstExample.exit_IDLE (-1)
                  (firstExample.enter_IDLE (-1) t1 (firstExample.exit_RUNNING (-1) s))),
                []⟩] := by
    simp only [firstExample.dispatchAll, h1, h2, h3]
  exact ⟨_, _, _, hd, rfl, i1, rfl, r2, te2, rfl, r2, rfl⟩

theorem firstExample_reentry_resets_deadline_witness :
    firstExample.leafRUNNING (firstExample.runningStore 0) ∧
    (((60000 : Nat) : Int) - ((20 : Nat) : Int)) % 4294967296 < 60000 ∧
    ∃ o1 o2 o3,
      firstExample.dispatchAll
        [⟨firstExample.readyCallables, firstExample.eventOf .KILL, 10⟩,
          ⟨firstExample.readyCallables, firstExample.eventOf .GO, 20⟩,
          ⟨firstExample.readyCallables, firstExample.eventOf .TICK, 60000⟩]
        (firstExample.runningStore 0) = some [o1, o2, o3] ∧
      o1.handled = true ∧ firstExample.leafIDLE o1.store ∧
      o2.handled = true ∧ firstExample.leafRUNNING o2.store ∧
      o2.store.timeEntered_a firstExample.G_INDEX_RUNNING = 20 ∧
      o3.handled = false ∧ firstExample.leafRUNNING o3.store ∧ o3.store = o2.store :=
  ⟨firstExample.leafRUNNING_runningStore 0, by decide,
    firstExample_reentry_resets_deadline firstExample.readyCallables
      firstExample.readyCallables firstExample.readyCallables (firstExample.eventOf .KILL)
      (firstExample.eventOf .GO) (firstExample.eventOf .TICK) 0 10 20 60000
      (firstExample.runningStore 0) (firstExample.leafRUNNING_runningStore 0)
      (firstExample.timeEntered_runningStore 0) rfl rfl rfl rfl (by decide)⟩

/-! ## submachineTest0: bubbling and default entry (C11, C12, C18) -/

namespace submachineTest0

theorem pathA_storeA_test0 : pathA storeA := init_pathA_test0 0

theorem pathB_storeB : pathB storeB := by
  simp (disch := decide) [pathB, activeFlags, storeB, storeA, initStateMachine_submachineTest0,
    enter_root, enter_A, enter_B, exit_A, zeroStore, setAt_same, setAt_other]

theorem pathSub0_A_storeSub0_A : pathSub0_A storeSub0_A := by
  simp (disch := decide) [pathSub0_A, activeFlags, storeSub0_A, storeB, storeA,
    initStateMachine_submachineTest0, enter_root, enter_A, enter_B, exit_A, exit_B, enter_Sub0,
    enter_A__Sub0, zeroStore, setAt_same, setAt_other]

theorem pathSub0_B_storeSub0_B : pathSub0_B storeSub0_B := by
  simp (disch := decide) [pathSub0_B, activeFlags, storeSub0_B, storeSub0_A, storeB, storeA,
    initStateMachine_submachineTest0, enter_root, enter_A, enter_B, exit_A, exit_B, enter_Sub0,
    enter_A__Sub0, enter_B__Sub0, exit_A__Sub0, zeroStore, setAt_same, setAt_other]

end submachineTest0

/-- C11: submachineTest0.  For every store whose active path is `root/Sub0/A__Sub0` and every
`now`, dispatching `TICK` returns true and is consumed by `A__Sub0` alone: the only routines
run are `exit_A__Sub0` and `enter_B__Sub0`, so afterwards the active set is exactly
`{root, Sub0, B__Sub0}`, `currentChild_a[Sub0] = L_INDEX_B__Sub0`, `currentChild_a[root]` is
still `L_INDEX_Sub0`, and `Sub0` was neither exited nor re-entered (`isIn_a[Sub0]` stays true
and `timeEntered_a[Sub0]` is unchanged). -/
theorem submachineTest0_TICK_consumed_by_child (event_p : submachineTest0.event_t)
    (now : TIME_T) (s : submachineTest0.Store) (hs : submachineTest0.pathSub0_A s)
    (he : submachineTest0.eventClassOf event_p = .TICK) :
    ∃ o, submachineTest0.dispatchEvent_submachineTest0 event_p now s = some o ∧
      o.handled = true ∧
      o.store = submachineTest0.enter_B__Sub0 (-1) now (submachineTest0.exit_A__Sub0 (-1) s) ∧
      submachineTest0.pathSub0_B o.store ∧
      o.store.isIn_a submachineTest0.G_INDEX_Sub0 = true ∧
      o.store.timeEntered_a submachineTest0.G_INDEX_Sub0
        = s.timeEntered_a submachineTest0.G_INDEX_Sub0 := by
  rcases event_p with ⟨tag⟩
  obtain ⟨hf, hr, hc⟩ := hs
  simp only [submachineTest0.activeFlags, List.cons.injEq, and_true] at hf
  obtain ⟨f0, f1, f2, f3, f4, f5⟩ := hf
  simp only [submachineTest0.eventClassOf] at he
  subst he
  simp (disch := decide) [submachineTest0.dispatchEvent_submachineTest0,
    submachineTest0.or_root, submachineTest0.or_Sub0, submachineTest0.or_Sub0_child,
    submachineTest0.own_Sub0, submachineTest0.basic_A__Sub0, submachineTest0.eventClassOf,
    submachineTest0.enter_B__Sub0, submachineTest0.exit_A__Sub0, submachineTest0.pathSub0_B,
    submachineTest0.activeFlags, setAt_same, setAt_other, submachineTest0.L_INDEX_B,
    submachineTest0.L_INDEX_Sub0, submachineTest0.L_INDEX_A__Sub0, *]

theorem submachineTest0_TICK_consumed_by_child_witness :
    submachineTest0.pathSub0_A submachineTest0.storeSub0_A ∧
    ∃ o, submachineTest0.dispatchEvent_submachineTest0 ⟨.TICK⟩ 9 submachineTest0.storeSub0_A
        = some o ∧
      o.handled = true ∧
      o.store = submachineTest0.enter_B__Sub0 (-1) 9
        (submachineTest0.exit_A__Sub0 (-1) submachineTest0.storeSub0_A) ∧
      submachineTest0.pathSub0_B o.store ∧
      o.store.isIn_a submachineTest0.G_INDEX_Sub0 = true ∧
      o.store.timeEntered_a submachineTest0.G_INDEX_Sub0
        = submachineTest0.storeSub0_A.timeEntered_a submachineTest0.G_INDEX_Sub0 :=
  ⟨submachineTest0.pathSub0_A_storeSub0_A,
    submachineTest0_TICK_consumed_by_child ⟨.TICK⟩ 9 submachineTest0.storeSub0_A
      submachineTest0.pathSub0_A_storeSub0_A rfl⟩

/-- C12: submachineTest0.  For every store whose active path is `root/Sub0/c` with `c` either
`A__Sub0` or `B__Sub0`, and every `now`, dispatching `R` is not handled by the child, bubbles
to `Sub0` and returns true; afterwards the active set is exactly `{root, A}` (`Sub0`,
`A__Sub0` and `B__Sub0` all inactive), `currentChild_a[root] = L_INDEX_A` and
`timeEntered_a[A] = now`. -/
theorem submachineTest0_R_bubbles_to_Sub0 (event_p : submachineTest0.event_t)
    (now : TIME_T) (s : submachineTest0.Store)
    (hs : submachineTest0.pathSub0_A s ∨ submachineTest0.pathSub0_B s)
    (he : submachineTest0.eventClassOf event_p = .R) :
    (∃ f, submachineTest0.or_Sub0_child event_p now ⟨fun _ => false, s⟩ = some f ∧
      f.handled_a submachineTest0.G_INDEX_Sub0 = false ∧ f.store = s) ∧
    ∃ o, submachineTest0.dispatchEvent_submachineTest0 event_p now s = some o ∧
      o.handled = true ∧
      submachineTest0.pathA o.store ∧
      o.store.timeEntered_a submachineTest0.G_INDEX_A = now := by
  rcases event_p with ⟨tag⟩
  simp only [submachineTest0.eventClassOf] at he
  subst he
  rcases hs with ⟨hf, hr, hc⟩ | ⟨hf, hr, hc⟩
  all_goals
    simp only [submachineTest0.activeFlags, List.cons.injEq, and_true] at hf
    obtain ⟨f0, f1, f2, f3, f4, f5⟩ := hf
    simp (disch := decide) [submachineTest0.dispatchEvent_submachineTest0,
      submachineTest0.or_root, submachineTest0.or_Sub0, submachineTest0.or_Sub0_child,
      submachineTest0.own_Sub0, submachineTest0.basic_A__Sub0, submachineTest0.basic_B__Sub0,
      submachineTest0.eventClassOf, submachineTest0.exit_Sub0, submachineTest0.enter_A,
      submachineTest0.exit_A__Sub0, submachineTest0.exit_B__Sub0, submachineTest0.pathA,
      submachineTest0.activeFlags, setAt_same, setAt_other, submachineTest0.L_INDEX_B,
      submachineTest0.L_INDEX_Sub0, submachineTest0.L_INDEX_A__Sub0,
      submachineTest0.L_INDEX_B__Sub0, submachineTest0.L_INDEX_A, *]

theorem submachineTest0_R_bubbles_to_Sub0_witness :
    (submachineTest0.pathSub0_A submachineTest0.storeSub0_B ∨
      submachineTest0.pathSub0_B submachineTest0.storeSub0_B) ∧
    (∃ f, submachineTest0.or_Sub0_child ⟨.R⟩ 9 ⟨fun _ => false, submachineTest0.storeSub0_B⟩
        = some f ∧
      f.handled_a submachineTest0.G_INDEX_Sub0 = false ∧
      f.store = submachineTest0.storeSub0_B) ∧
    ∃ o, submachineTest0.dispatchEvent_submachineTest0 ⟨.R⟩ 9 submachineTest0.storeSub0_B
        = some o ∧
      o.handled = true ∧
      submachineTest0.pathA o.store ∧
      o.store.timeEntered_a submachineTest0.G_INDEX_A = 9 :=
  ⟨Or.inr submachineTest0.pathSub0_B_storeSub0_B,
    submachineTest0_R_bubbles_to_Sub0 ⟨.R⟩ 9 submachineTest0.storeSub0_B
      (Or.inr submachineTest0.pathSub0_B_storeSub0_B) rfl⟩

/-- C18: submachineTest0, entering a composite without an explicit resume point cascades to
its default child.  For every store whose active set is exactly `{root, B}` and every `now`,
dispatching `Q` returns true and leaves the active set exactly `{root, Sub0, A__Sub0}`, with
`currentChild_a[root] = L_INDEX_Sub0`, `currentChild_a[Sub0] = L_INDEX_A__Sub0 = 0`, and
`timeEntered_a` of both `Sub0` and `A__Sub0` equal to `now`. -/
theorem submachineTest0_Q_enters_default_child (event_p : submachineTest0.event_t)
    (now : TIME_T) (s : submachineTest0.Store) (hs : submachineTest0.pathB s)
    (he : submachineTest0.eventClassOf event_p = .Q) :
    ∃ o, submachineTest0.dispatchEvent_submachineTest0 event_p now s = some o ∧
      o.handled = true ∧
      submachineTest0.pathSub0_A o.store ∧
      submachineTest0.L_INDEX_A__Sub0 = 0 ∧
      o.store.timeEntered_a submachineTest0.G_INDEX_Sub0 = now ∧
      o.store.timeEntered_a submachineTest0.G_INDEX_A__Sub0 = now := by
  rcases event_p with ⟨tag⟩
  simp only [submachineTest0.eventClassOf] at he
  subst he
  obtain ⟨hf, hr⟩ := hs
  simp only [submachineTest0.activeFlags, List.cons.injEq, and_true] at hf
  obtain ⟨f0, f1, f2, f3, f4, f5⟩ := hf
  simp (disch := decide) [submachineTest0.dispatchEvent_submachineTest0,
    submachineTest0.or_root, submachineTest0.basic_B, submachineTest0.eventClassOf,
    submachineTest0.exit_B, submachineTest0.enter_Sub0, submachineTest0.enter_A__Sub0,
    submachineTest0.pathSub0_A, submachineTest0.activeFlags, setAt_same, setAt_other,
    submachineTest0.L_INDEX_A__Sub0, *]

theorem submachineTest0_Q_enters_default_child_witness :
    submachineTest0.pathB submachineTest0.storeB ∧
    ∃ o, submachineTest0.dispatchEvent_submachineTest0 ⟨.Q⟩ 9 submachineTest0.storeB = some o ∧
      o.handled = true ∧
      submachineTest0.pathSub0_A o.store ∧
      submachineTest0.L_INDEX_A__Sub0 = 0 ∧
      o.store.timeEntered_a submachineTest0.G_INDEX_Sub0 = 9 ∧
      o.store.timeEntered_a submachineTest0.G_INDEX_A__Sub0 = 9 :=
  ⟨submachineTest0.pathB_storeB,
    submachineTest0_Q_enters_default_child ⟨.Q⟩ 9 submachineTest0.storeB
      submachineTest0.pathB_storeB rfl⟩

/-! ## submachineTest1: explicit entry and exit points (C13, C19, C20) -/

namespace submachineTest1

theorem pathA_storeA_test1 : pathA storeA := init_pathA_test1 0

theorem pathSub1_U_storeSub1_U : pathSub1_U storeSub1_U := by
  simp (disch := decide) [pathSub1_U, activeFlags, storeSub1_U, storeA,
    initStateMachine_submachineTest1, enter_root, enter_A, exit_A, enter_Sub1, enter_U__Sub1,
    zeroStore, setAt_same, setAt_other, L_INDEX_X__Sub1]

theorem pathSub1_V_storeSub1_V : pathSub1_V storeSub1_V := by
  simp (disch := decide) [pathSub1_V, activeFlags, storeSub1_V, storeSub1_U, storeA,
    initStateMachine_submachineTest1, enter_root, enter_A, exit_A, enter_Sub1, enter_U__Sub1,
    enter_V__Sub1, exit_U__Sub1, zeroStore, setAt_same, setAt_other, L_INDEX_X__Sub1]

end submachineTest1

/-- C13: submachineTest1.  For every store whose active set is exactly `{root, A}` and every
`now`, dispatching `P` returns true and enters `Sub1` through its entry point `X__Sub1`
without running the default-child entry of `Sub1`: `act1` is invoked exactly once, at a moment
when `isIn_a[Sub1]` is true and `isIn_a[U__Sub1]` is still false; afterwards the active set is
exactly `{root, Sub1, U__Sub1}`, `currentChild_a[root] = L_INDEX_Sub1`,
`currentChild_a[Sub1] = L_INDEX_U__Sub1`, and `timeEntered_a` of `Sub1` and of `U__Sub1` both
equal `now`. -/
theorem submachineTest1_P_enters_Sub1_at_entry_point (cb : submachineTest1.callables_t)
    (event_p : submachineTest1.event_t) (now : TIME_T) (s : submachineTest1.Store)
    (hs : submachineTest1.pathA s) (he : submachineTest1.eventClassOf event_p = .P) :
    ∃ o, submachineTest1.dispatchEvent_submachineTest1 cb event_p now s = some o ∧
      o.handled = true ∧
      (∃ c, o.calls = [c] ∧ c.callee = .act1 ∧
        c.store = submachineTest1.enter_Sub1 submachineTest1.L_INDEX_X__Sub1 now
          (submachineTest1.exit_A (-1) s) ∧
        c.store.isIn_a submachineTest1.G_INDEX_Sub1 = true ∧
        c.store.isIn_a submachineTest1.G_INDEX_U__Sub1 = false) ∧
      submachineTest1.pathSub1_U o.store ∧
      o.store.timeEntered_a submachineTest1.G_INDEX_Sub1 = now ∧
      o.store.timeEntered_a submachineTest1.G_INDEX_U__Sub1 = now := by
  rcases event_p with ⟨tag⟩
  simp only [submachineTest1.eventClassOf] at he
  subst he
  obtain ⟨hf, hr⟩ := hs
  simp only [submachineTest1.activeFlags, List.cons.injEq, and_true] at hf
  obtain ⟨f0, f1, f2, f3, f4, f5⟩ := hf
  simp (disch := decide) [submachineTest1.dispatchEvent_submachineTest1,
    submachineTest1.or_root, submachineTest1.basic_A, submachineTest1.eventClassOf,
    submachineTest1.exit_A, submachineTest1.enter_Sub1, submachineTest1.enter_U__Sub1,
    submachineTest1.frame_t.record, submachineTest1.pathSub1_U, submachineTest1.activeFlags,
    setAt_same, setAt_other, submachineTest1.L_INDEX_A, submachineTest1.L_INDEX_B,
    submachineTest1.L_INDEX_Sub1, submachineTest1.L_INDEX_X__Sub1, *]

theorem submachineTest1_P_enters_Sub1_at_entry_point_witness :
    submachineTest1.pathA submachineTest1.storeA ∧
    ∃ o, submachineTest1.dispatchEvent_submachineTest1 submachineTest1.idCallables ⟨.P⟩ 9
        submachineTest1.storeA = some o ∧
      o.handled = true ∧
      (∃ c, o.calls = [c] ∧ c.callee = .act1 ∧
        c.store = submachineTest1.enter_Sub1 submachineTest1.L_INDEX_X__Sub1 9
          (submachineTest1.exit_A (-1) submachineTest1.storeA) ∧
        c.store.isIn_a submachineTest1.G_INDEX_Sub1 = true ∧
        c.store.isIn_a submachineTest1.G_INDEX_U__Sub1 = false) ∧
      submachineTest1.pathSub1_U o.store ∧
      o.store.timeEntered_a submachineTest1.G_INDEX_Sub1 = 9 ∧
      o.store.timeEntered_a submachineTest1.G_INDEX_U__Sub1 = 9 :=
  ⟨submachineTest1.pathA_storeA_test1,
    submachineTest1_P_enters_Sub1_at_entry_point submachineTest1.idCallables ⟨.P⟩ 9
      submachineTest1.storeA submachineTest1.pathA_storeA_test1 rfl⟩

/-- C19: submachineTest1.  For every store whose active path is `root/Sub1/V__Sub1` and every
`now`, dispatching `y` returns true and leaves `Sub1` through its explicit exit point
`Y__Sub1` (`exit_V__Sub1`, then `exit_Sub1(L_INDEX_Y__Sub1)`, then `enter_B`): afterwards the
active set is exactly `{root, B}`, `currentChild_a[root] = L_INDEX_B` and
`timeEntered_a[B] = now`; and a following `TICK` at any `now'` returns true and makes the
active set exactly `{root, A}`. -/
theorem submachineTest1_y_leaves_Sub1_at_exit_point (cb cb' : submachineTest1.callables_t)
    (event_p event_p' : submachineTest1.event_t) (now now' : TIME_T)
    (s : submachineTest1.Store) (hs : submachineTest1.pathSub1_V s)
    (he : submachineTest1.eventClassOf event_p = .y)
    (he' : submachineTest1.eventClassOf event_p' = .TICK) :
    ∃ o, submachineTest1.dispatchEvent_submachineTest1 cb event_p now s = some o ∧
      o.handled = true ∧
      (∃ s', submachineTest1.exit_Sub1 submachineTest1.L_INDEX_Y__Sub1
          (submachineTest1.exit_V__Sub1 (-1) s) = some s' ∧
        o.store = submachineTest1.enter_B (-1) now s') ∧
      submachineTest1.pathB o.store ∧
      o.store.timeEntered_a submachineTest1.G_INDEX_B = now ∧
      ∃ o', submachineTest1.dispatchEvent_submachineTest1 cb' event_p' now' o.store
          = some o' ∧
        o'.handled = true ∧ submachineTest1.pathA o'.store := by
  rcases event_p with ⟨tag⟩
  rcases event_p' with ⟨tag'⟩
  simp only [submachineTest1.eventClassOf] at he he'
  subst he
  subst he'
  obtain ⟨hf, hr, hc⟩ := hs
  simp only [submachineTest1.activeFlags, List.cons.injEq, and_true] at hf
  obtain ⟨f0, f1, f2, f3, f4, f5⟩ := hf
  simp (disch := decide) [submachineTest1.dispatchEvent_submachineTest1,
    submachineTest1.or_root, submachineTest1.or_Sub1, submachineTest1.basic_V__Sub1,
    submachineTest1.basic_B, submachineTest1.eventClassOf, submachineTest1.exit_V__Sub1,
    submachineTest1.exit_Sub1, submachineTest1.enter_B, submachineTest1.exit_B,
    submachineTest1.enter_A, submachineTest1.pathA, submachineTest1.pathB,
    submachineTest1.activeFlags, setAt_same, setAt_other, submachineTest1.L_INDEX_A,
    submachineTest1.L_INDEX_B, submachineTest1.L_INDEX_Sub1, submachineTest1.L_INDEX_U__Sub1,
    submachineTest1.L_INDEX_V__Sub1, submachineTest1.L_INDEX_Y__Sub1, *]

theorem submachineTest1_y_leaves_Sub1_at_exit_point_witness :
    submachineTest1.pathSub1_V submachineTest1.storeSub1_V ∧
    ∃ o, submachineTest1.dispatchEvent_submachineTest1 submachineTest1.idCallables ⟨.y⟩ 9
        submachineTest1.storeSub1_V = some o ∧
      o.handled = true ∧
      (∃ s', submachineTest1.exit_Sub1 submachineTest1.L_INDEX_Y__Sub1
          (submachineTest1.exit_V__Sub1 (-1) submachineTest1.storeSub1_V) = some s' ∧
        o.store = submachineTest1.enter_B (-1) 9 s') ∧
      submachineTest1.pathB o.store ∧
      o.store.timeEntered_a submachineTest1.G_INDEX_B = 9 ∧
      ∃ o', submachineTest1.dispatchEvent_submachineTest1 submachineTest1.idCallables
          ⟨.TICK⟩ 12 o.store = some o' ∧
        o'.handled = true ∧ submachineTest1.pathA o'.store :=
  ⟨submachineTest1.pathSub1_V_storeSub1_V,
    submachineTest1_y_leaves_Sub1_at_exit_point submachineTest1.idCallables
      submachineTest1.idCallables ⟨.y⟩ ⟨.TICK⟩ 9 12 submachineTest1.storeSub1_V
      submachineTest1.pathSub1_V_storeSub1_V rfl rfl⟩

/-- C20, as the claim states it, fails: on the zero store `enter_Sub1(L_INDEX_X__Sub1, 5)`
marks `Sub1` active and records the time, but `currentChild_a[Sub1]` stays 0, not
`L_INDEX_X__Sub1 = 2`. -/
theorem submachineTest1_enter_Sub1_resume_not_recorded :
    submachineTest1.L_INDEX_X__Sub1 ≠ -1 ∧
    (submachineTest1.enter_Sub1 submachineTest1.L_INDEX_X__Sub1 5
      submachineTest1.zeroStore).currentChild_a submachineTest1.OR_INDEX_Sub1 = 0 ∧
    ¬ ((submachineTest1.enter_Sub1 submachineTest1.L_INDEX_X__Sub1 5
          submachineTest1.zeroStore).isIn_a submachineTest1.G_INDEX_Sub1 = true ∧
       (submachineTest1.enter_Sub1 submachineTest1.L_INDEX_X__Sub1 5
          submachineTest1.zeroStore).timeEntered_a submachineTest1.G_INDEX_Sub1 = 5 ∧
       (submachineTest1.enter_Sub1 submachineTest1.L_INDEX_X__Sub1 5
          submachineTest1.zeroStore).currentChild_a submachineTest1.OR_INDEX_Sub1
            = submachineTest1.L_INDEX_X__Sub1) := by
  simp (disch := decide) [submachineTest1.enter_Sub1, submachineTest1.zeroStore,
    submachineTest1.L_INDEX_X__Sub1, setAt_same, setAt_other]

/-- C20, amended: for every store, every `now` and every resume index `k` different from -1,
after `enter_Sub1(k, now)` the store has `isIn_a[Sub1] = true` and
`timeEntered_a[Sub1] = now`, while `currentChild_a[Sub1]` is left as it was: the resume index
is not recorded. -/
theorem submachineTest1_enter_Sub1_with_resume (k : LOCAL_INDEX_T) (now : TIME_T)
    (s : submachineTest1.Store) (hk : k ≠ -1) :
    (submachineTest1.enter_Sub1 k now s).isIn_a submachineTest1.G_INDEX_Sub1 = true ∧
    (submachineTest1.enter_Sub1 k now s).timeEntered_a submachineTest1.G_INDEX_Sub1 = now ∧
    (submachineTest1.enter_Sub1 k now s).currentChild_a submachineTest1.OR_INDEX_Sub1
      = s.currentChild_a submachineTest1.OR_INDEX_Sub1 := by
  refine ⟨?_, ?_, ?_⟩
  · simp [submachineTest1.enter_Sub1, hk, setAt_same]
  · simp [submachineTest1.enter_Sub1, hk, setAt_same]
  · simp (disch := decide) [submachineTest1.enter_Sub1, hk, setAt_other]

theorem submachineTest1_enter_Sub1_with_resume_witness :
    (submachineTest1.enter_Sub1 submachineTest1.L_INDEX_X__Sub1 5
      submachineTest1.storeSub1_V).isIn_a submachineTest1.G_INDEX_Sub1 = true ∧
    (submachineTest1.enter_Sub1 submachineTest1.L_INDEX_X__Sub1 5
      submachineTest1.storeSub1_V).timeEntered_a submachineTest1.G_INDEX_Sub1 = 5 ∧
    (submachineTest1.enter_Sub1 submachineTest1.L_INDEX_X__Sub1 5
      submachineTest1.storeSub1_V).currentChild_a submachineTest1.OR_INDEX_Sub1
      = submachineTest1.storeSub1_V.currentChild_a submachineTest1.OR_INDEX_Sub1 :=
  submachineTest1_enter_Sub1_with_resume submachineTest1.L_INDEX_X__Sub1 5
    submachineTest1.storeSub1_V (by decide)

/-! ## firstExample: the choice point, action order and the status token (C15, C16, C17) -/

/-- C15, as the claim states it, fails: with active leaf `IDLE` (entered at time 0) and a
guard that is false, dispatching `GO` at time 7 returns true, and `timeEntered_a[IDLE]`
becomes 7; the dispatch is neither unhandled nor without effect on the arrays. -/
theorem firstExample_GO_unready_is_handled :
    firstExample.leafIDLE firstExample.idleStore ∧
    firstExample.unreadyCallables.ready_query (firstExample.eventOf .GO) OK_STATUS = false ∧
    ∃ o, firstExample.dispatchEvent_firstExample firstExample.unreadyCallables
        (firstExample.eventOf .GO) 7 firstExample.idleStore = some o ∧
      o.handled = true ∧
      firstExample.idleStore.timeEntered_a firstExample.G_INDEX_IDLE = 0 ∧
      o.store.timeEntered_a firstExample.G_INDEX_IDLE = 7 ∧
      ¬ (o.handled = false ∧ o.store.currentChild_a = firstExample.idleStore.currentChild_a ∧
          o.store.isIn_a = firstExample.idleStore.isIn_a ∧
          o.store.timeEntered_a = firstExample.idleStore.timeEntered_a) := by
  refine ⟨firstExample.leafIDLE_idleStore, rfl, _,
    firstExample.dispatch_IDLE_GO_unready firstExample.unreadyCallables
      (firstExample.eventOf .GO) 7 firstExample.idleStore
      firstExample.leafIDLE_idleStore.2.2.2 rfl rfl, rfl, ?_, ?_, ?_⟩
  · simp (disch := decide) [firstExample.idleStore, firstExample.initStateMachine_firstExample,
      firstExample.enter_root, firstExample.enter_IDLE, setAt_same, setAt_other]
  · exact firstExample.timeEntered_enter_IDLE 7 _
  · rintro ⟨h, -⟩
    cases h

/-- C15, amended: the `GO` transition of `IDLE` leads to the choice point `C` and is taken
whatever the guard says.  For every store whose active leaf is `IDLE` and every `now`,
dispatching a `GO` event for which `ready_query` returns false returns true (handled), takes
the branch from `C` back to `IDLE`, and leaves `currentChild_a` and `isIn_a` unchanged and
`timeEntered_a` unchanged except for `timeEntered_a[IDLE]`, which becomes `now`. -/
theorem firstExample_GO_unready_reenters_IDLE (cb : firstExample.callables_t)
    (event_p : firstExample.event_t) (now : TIME_T) (s : firstExample.Store)
    (hs : firstExample.leafIDLE s) (he : firstExample.eventClassOf event_p = .GO)
    (hq : cb.ready_query event_p OK_STATUS = false) :
    ∃ o, firstExample.dispatchEvent_firstExample cb event_p now s = some o ∧
      o.handled = true ∧
      o.store.currentChild_a = s.currentChild_a ∧
      o.store.isIn_a = s.isIn_a ∧
      o.store.timeEntered_a firstExample.G_INDEX_IDLE = now ∧
      ∀ g, g ≠ firstExample.G_INDEX_IDLE → o.store.timeEntered_a g = s.timeEntered_a g := by
  refine ⟨_, firstExample.dispatch_IDLE_GO_unready cb event_p now s hs.2.2.2 he hq, rfl,
    ?_, ?_, firstExample.timeEntered_enter_IDLE now _, ?_⟩
  · funext i
    have hi : i = firstExample.OR_INDEX_root := Subsingleton.elim _ _
    subst hi
    simp [firstExample.enter_IDLE, firstExample.exit_IDLE, setAt_same, hs.2.2.2]
  · funext g
    by_cases hg : g = firstExample.G_INDEX_IDLE
    · subst hg
      simp [firstExample.enter_IDLE, firstExample.exit_IDLE, setAt_same, hs.2.1]
    · simp [firstExample.enter_IDLE, firstExample.exit_IDLE, setAt_other _ _ _ _ hg]
  · intro g hg
    simp [firstExample.enter_IDLE, firstExample.exit_IDLE, setAt_other _ _ _ _ hg]

theorem firstExample_GO_unready_reenters_IDLE_witness :
    firstExample.leafIDLE firstExample.idleStore ∧
    ∃ o, firstExample.dispatchEvent_firstExample firstExample.unreadyCallables
        (firstExample.eventOf .GO) 7 firstExample.idleStore = some o ∧
      o.handled = true ∧
      o.store.currentChild_a = firstExample.idleStore.currentChild_a ∧
      o.store.isIn_a = firstExample.idleStore.isIn_a ∧
      o.store.timeEntered_a firstExample.G_INDEX_IDLE = 7 ∧
      ∀ g, g ≠ firstExample.G_INDEX_IDLE →
        o.store.timeEntered_a g = firstExample.idleStore.timeEntered_a g :=
  ⟨firstExample.leafIDLE_idleStore,
    firstExample_GO_unready_reenters_IDLE firstExample.unreadyCallables
      (firstExample.eventOf .GO) 7 firstExample.idleStore firstExample.leafIDLE_idleStore
      rfl rfl⟩

/-- C16: firstExample.  In every dispatch from a store with active leaf `IDLE` or `RUNNING`,
every invocation of an action (`start` or `stop`) happens strictly after the source state has
been marked inactive and strictly before the target state is marked active: at the moment of
the call `isIn_a[IDLE]` and `isIn_a[RUNNING]` are both false and `timeEntered_a` is still what
it was before the dispatch, while after the dispatch the target (`RUNNING` for `start`, `IDLE`
for `stop`) is the active leaf with `timeEntered_a = now`.  The three firing transitions do
invoke their action: `GO` from `IDLE` with the guard true invokes `start`; `KILL` and the
timed `TICK` from `RUNNING` invoke `stop`. -/
theorem firstExample_action_between_exit_and_enter (cb : firstExample.callables_t)
    (event_p : firstExample.event_t) (now : TIME_T) (s : firstExample.Store)
    (o : firstExample.outcome_t) (hs : firstExample.wellFormed s)
    (hd : firstExample.dispatchEvent_firstExample cb event_p now s = some o) :
    (∀ c ∈ o.calls, c.callee ≠ .ready_query →
      o.handled = true ∧
      c.store.isIn_a firstExample.G_INDEX_IDLE = false ∧
      c.store.isIn_a firstExample.G_INDEX_RUNNING = false ∧
      c.store.timeEntered_a = s.timeEntered_a ∧
      (c.callee = .start → firstExample.leafRUNNING o.store ∧
        o.store.timeEntered_a firstExample.G_INDEX_RUNNING = now) ∧
      (c.callee = .stop → firstExample.leafIDLE o.store ∧
        o.store.timeEntered_a firstExample.G_INDEX_IDLE = now)) ∧
    (firstExample.leafIDLE s → firstExample.eventClassOf event_p = .GO →
      cb.ready_query event_p OK_STATUS = true → ∃ c ∈ o.calls, c.callee = .start) ∧
    (firstExample.leafRUNNING s → firstExample.eventClassOf event_p = .KILL →
      ∃ c ∈ o.calls, c.callee = .stop) ∧
    (firstExample.leafRUNNING s → firstExample.eventClassOf event_p = .TICK →
      IS_AFTER (TO_DURATION 60000) (s.timeEntered_a firstExample.G_INDEX_RUNNING) now = true →
      ∃ c ∈ o.calls, c.callee = .stop) := by
  have hIR : ∀ t : firstExample.Store, firstExample.leafIDLE t → firstExample.leafRUNNING t →
      False := by
    intro t h1 h2
    have := h1.2.1
    rw [h2.2.1] at this
    cases this
  rcases hs with hs | hs
  · -- active leaf IDLE
    by_cases he : event_p.tag = .GO
    · cases hq : cb.ready_query event_p OK_STATUS
      · rw [firstExample.dispatch_IDLE_GO_unready cb event_p now s hs.2.2.2 he hq] at hd
        cases hd
        refine ⟨?_, fun _ _ h => (by cases h), fun h => (hIR s hs h).elim,
          fun h => (hIR s hs h).elim⟩
        intro c hc hne
        simp only [List.mem_singleton] at hc
        subst hc
        exact absurd rfl hne
      · rw [firstExample.dispatch_IDLE_GO_ready cb event_p now s hs.2.2.2 he hq] at hd
        cases hd
        refine ⟨?_, fun _ _ _ => ⟨_, List.mem_cons_of_mem _ (List.mem_singleton_self _), rfl⟩,
          fun h => (hIR s hs h).elim, fun h => (hIR s hs h).elim⟩
        intro c hc hne
        simp only [List.mem_cons, List.mem_singleton, List.not_mem_nil, or_false] at hc
        rcases hc with hc | hc
        · subst hc
          exact absurd rfl hne
        · subst hc
          refine ⟨rfl, ?_, ?_, rfl, fun _ => ⟨firstExample.leafRUNNING_enter_exit now s hs,
            firstExample.timeEntered_enter_RUNNING now _⟩, fun h => (by cases h)⟩
          · simp [firstExample.exit_IDLE, setAt_same]
          · simp (disch := decide) [firstExample.exit_IDLE, setAt_other, hs.2.2.1]
    · rw [firstExample.dispatch_IDLE_other cb event_p now s hs.2.2.2 he] at hd
      cases hd
      refine ⟨fun c hc => (by cases hc), fun _ h => absurd h he,
        fun h => (hIR s hs h).elim, fun h => (hIR s hs h).elim⟩
  · -- active leaf RUNNING
    have hstop : ∀ c ∈ [(⟨.stop, OK_STATUS, firstExample.exit_RUNNING (-1) s⟩ :
          firstExample.call_t)], c.callee ≠ .ready_query →
        true = true ∧
        c.store.isIn_a firstExample.G_INDEX_IDLE = false ∧
        c.store.isIn_a firstExample.G_INDEX_RUNNING = false ∧
        c.store.timeEntered_a = s.timeEntered_a ∧
        (c.callee = .start →
          firstExample.leafRUNNING
            (firstExample.enter_IDLE (-1) now (firstExample.exit_RUNNING (-1) s)) ∧
          (firstExample.enter_IDLE (-1) now (firstExample.exit_RUNNING (-1) s)).timeEntered_a
            firstExample.G_INDEX_RUNNING = now) ∧
        (c.callee = .stop →
          firstExample.leafIDLE
            (firstExample.enter_IDLE (-1) now (firstExample.exit_RUNNING (-1) s)) ∧
          (firstExample.enter_IDLE (-1) now (firstExample.exit_RUNNING (-1) s)).timeEntered_a
            firstExample.G_INDEX_IDLE = now) := by
      intro c hc _
      simp only [List.mem_singleton] at hc
      subst hc
      refine ⟨rfl, ?_, ?_, rfl, fun h => (by cases h),
        fun _ => ⟨firstExample.leafIDLE_enter_exit now s hs,
          firstExample.timeEntered_enter_IDLE now _⟩⟩
      · simp (disch := decide) [firstExample.exit_RUNNING, setAt_other, hs.2.1]
      · simp [firstExample.exit_RUNNING, setAt_same]
    rcases hE : event_p.tag with _ | _ | _
    · rw [firstExample.dispatch_RUNNING_GO cb event_p now s hs.2.2.2 hE] at hd
      cases hd
      refine ⟨fun c hc => (by cases hc), fun h => (hIR s h hs).elim, fun _ h => ?_,
        fun _ h => ?_⟩
      · rw [firstExample.eventClassOf, hE] at h
        cases h
      · rw [firstExample.eventClassOf, hE] at h
        cases h
    · rw [firstExample.dispatch_RUNNING_KILL cb event_p now s hs.2.2.2 hE] at hd
      cases hd
      exact ⟨hstop, fun h => (hIR s h hs).elim,
        fun _ _ => ⟨_, List.mem_singleton_self _, rfl⟩,
        fun _ _ _ => ⟨_, List.mem_singleton_self _, rfl⟩⟩
    · cases ht : IS_AFTER (TO_DURATION 60000)
          (s.timeEntered_a firstExample.G_INDEX_RUNNING) now
      · rw [firstExample.dispatch_RUNNING_TICK_before cb event_p now s hs.2.2.2 hE ht] at hd
        cases hd
        refine ⟨fun c hc => (by cases hc), fun h => (hIR s h hs).elim, fun _ h => ?_,
          fun _ _ h => (by cases h)⟩
        rw [firstExample.eventClassOf, hE] at h
        cases h
      · rw [firstExample.dispatch_RUNNING_TICK_after cb event_p now s hs.2.2.2 hE ht] at hd
        cases hd
        exact ⟨hstop, fun h => (hIR s h hs).elim,
          fun _ _ => ⟨_, List.mem_singleton_self _, rfl⟩,
          fun _ _ _ => ⟨_, List.mem_singleton_self _, rfl⟩⟩

theorem firstExample_action_between_exit_and_enter_witness :
    (∀ c ∈ ([⟨.stop, OK_STATUS, firstExample.exit_RUNNING (-1) (firstExample.runningStore 5)⟩] :
        List firstExample.call_t), c.callee ≠ .ready_query →
      true = true ∧
      c.store.isIn_a firstExample.G_INDEX_IDLE = false ∧
      c.store.isIn_a firstExample.G_INDEX_RUNNING = false ∧
      c.store.timeEntered_a = (firstExample.runningStore 5).timeEntered_a ∧
      (c.callee = .start →
        firstExample.leafRUNNING (firstExample.enter_IDLE (-1) 9
          (firstExample.exit_RUNNING (-1) (firstExample.runningStore 5))) ∧
        (firstExample.enter_IDLE (-1) 9 (firstExample.exit_RUNNING (-1)
          (firstExample.runningStore 5))).timeEntered_a firstExample.G_INDEX_RUNNING = 9) ∧
      (c.callee = .stop →
        firstExample.leafIDLE (firstExample.enter_IDLE (-1) 9
          (firstExample.exit_RUNNING (-1) (firstExample.runningStore 5))) ∧
        (firstExample.enter_IDLE (-1) 9 (firstExample.exit_RUNNING (-1)
          (firstExample.runningStore 5))).timeEntered_a firstExample.G_INDEX_IDLE = 9)) ∧
    ∃ c ∈ ([⟨.stop, OK_STATUS, firstExample.exit_RUNNING (-1) (firstExample.runningStore 5)⟩] :
        List firstExample.call_t), c.callee = .stop :=
  have h := firstExample_action_between_exit_and_enter firstExample.readyCallables
    (firstExample.eventOf .KILL) 9 (firstExample.runningStore 5)
    ⟨true, firstExample.enter_IDLE (-1) 9
        (firstExample.exit_RUNNING (-1) (firstExample.runningStore 5)),
      [⟨.stop, OK_STATUS, firstExample.exit_RUNNING (-1) (firstExample.runningStore 5)⟩]⟩
    (Or.inr (firstExample.leafRUNNING_runningStore 5))
    (firstExample.dispatch_RUNNING_KILL firstExample.readyCallables
      (firstExample.eventOf .KILL) 9 (firstExample.runningStore 5)
      (firstExample.leafRUNNING_runningStore 5).2.2.2 rfl)
  ⟨h.1, h.2.2.1 (firstExample.leafRUNNING_runningStore 5) rfl⟩

/-- C17: the engine never branches on the status token.  In firstExample (guard
`ready_query`, actions `start` and `stop`) and in submachineTest1 (action `act1`), for every
store, event and `now`, two dispatches whose actions return different status values (the guard
being the same) have the same outcome: the same returned flag, the same final `currentChild_a`,
`isIn_a` and `timeEntered_a`, and the same calls, every one made with the same status
argument. -/
theorem status_token_never_branched_on :
    (∀ (rq : firstExample.event_t → status_t → Bool)
        (start stop start' stop' : firstExample.event_t → status_t → status_t)
        (event_p : firstExample.event_t) (now : TIME_T) (s : firstExample.Store),
      firstExample.dispatchEvent_firstExample ⟨rq, start, stop⟩ event_p now s
        = firstExample.dispatchEvent_firstExample ⟨rq, start', stop'⟩ event_p now s) ∧
    (∀ (act1 act1' : submachineTest1.event_t → status_t → status_t)
        (event_p : submachineTest1.event_t) (now : TIME_T) (s : submachineTest1.Store),
      submachineTest1.dispatchEvent_submachineTest1 ⟨act1⟩ event_p now s
        = submachineTest1.dispatchEvent_submachineTest1 ⟨act1'⟩ event_p now s) := by
  constructor
  · intro rq start stop start' stop' event_p now s
    simp only [firstExample.dispatchEvent_firstExample, firstExample.or_root,
      firstExample.basic_IDLE, firstExample.basic_RUNNING]
  · intro act1 act1' event_p now s
    simp only [submachineTest1.dispatchEvent_submachineTest1, submachineTest1.or_root,
      submachineTest1.basic_A]

/-! ## Unhandled events leave no trace (C14) -/

namespace firstExample

theorem unhandled_firstExample (cb : callables_t) (event_p : event_t) (now : TIME_T)
    (s : Store) (o : outcome_t) (hd : dispatchEvent_firstExample cb event_p now s = some o)
    (hh : o.handled = false) : o.store = s ∧ o.calls = [] := by
  by_cases hI : s.currentChild_a OR_INDEX_root = L_INDEX_IDLE
  · by_cases he : event_p.tag = .GO
    · cases hq : cb.ready_query event_p OK_STATUS
      · rw [dispatch_IDLE_GO_unready cb event_p now s hI he hq] at hd
        cases hd
        cases hh
      · rw [dispatch_IDLE_GO_ready cb event_p now s hI he hq] at hd
        cases hd
        cases hh
    · rw [dispatch_IDLE_other cb event_p now s hI he] at hd
      cases hd
      exact ⟨rfl, rfl⟩
  · by_cases hR : s.currentChild_a OR_INDEX_root = L_INDEX_RUNNING
    · rcases hE : event_p.tag with _ | _ | _
      · rw [dispatch_RUNNING_GO cb event_p now s hR hE] at hd
        cases hd
        exact ⟨rfl, rfl⟩
      · rw [dispatch_RUNNING_KILL cb event_p now s hR hE] at hd
        cases hd
        cases hh
      · cases ht : IS_AFTER (TO_DURATION 60000) (s.timeEntered_a G_INDEX_RUNNING) now
        · rw [dispatch_RUNNING_TICK_before cb event_p now s hR hE ht] at hd
          cases hd
          exact ⟨rfl, rfl⟩
        · rw [dispatch_RUNNING_TICK_after cb event_p now s hR hE ht] at hd
          cases hd
          cases hh
    · simp [dispatchEvent_firstExample, or_root, hI, hR] at hd

end firstExample

namespace submachineTest0

theorem unhandled_test0 (event_p : event_t) (now : TIME_T) (s : Store) (o : outcome_t)
    (hd : dispatchEvent_submachineTest0 event_p now s = some o) (hh : o.handled = false) :
    o.store = s := by
  rcases event_p with ⟨tag⟩
  by_cases hB : s.currentChild_a OR_INDEX_root = L_INDEX_B
  · cases tag <;>
      simp (disch := decide) [dispatchEvent_submachineTest0, or_root, basic_B, eventClassOf,
        setAt_same, setAt_other, hB,
        L_INDEX_A, L_INDEX_B, L_INDEX_Sub0, L_INDEX_A__Sub0, L_INDEX_B__Sub0] at hd <;>
      (subst hd; first | rfl | cases hh)
  · by_cases hS : s.currentChild_a OR_INDEX_root = L_INDEX_Sub0
    · by_cases h0 : s.currentChild_a OR_INDEX_Sub0 = L_INDEX_A__Sub0
      · cases tag <;>
          simp (disch := decide) [dispatchEvent_submachineTest0, or_root, or_Sub0,
            or_Sub0_child, own_Sub0, basic_A__Sub0, eventClassOf, exit_Sub0, setAt_same,
            setAt_other, hS, h0,
        L_INDEX_A, L_INDEX_B, L_INDEX_Sub0, L_INDEX_A__Sub0, L_INDEX_B__Sub0] at hd <;>
          (subst hd; first | rfl | cases hh)
      · by_cases h1 : s.currentChild_a OR_INDEX_Sub0 = L_INDEX_B__Sub0
        · cases tag <;>
            simp (disch := decide) [dispatchEvent_submachineTest0, or_root, or_Sub0,
              or_Sub0_child, own_Sub0, basic_B__Sub0, eventClassOf, exit_Sub0, setAt_same,
              setAt_other, hS, h1,
        L_INDEX_A, L_INDEX_B, L_INDEX_Sub0, L_INDEX_A__Sub0, L_INDEX_B__Sub0] at hd <;>
            (subst hd; first | rfl | cases hh)
        · simp [dispatchEvent_submachineTest0, or_root, or_Sub0, or_Sub0_child, hS, h0, h1,
            (by decide : L_INDEX_Sub0 ≠ L_INDEX_B)] at hd
    · by_cases hA : s.currentChild_a OR_INDEX_root = L_INDEX_A
      · cases tag <;>
          simp (disch := decide) [dispatchEvent_submachineTest0, or_root, basic_A,
            eventClassOf, setAt_same, setAt_other, hA,
        L_INDEX_A, L_INDEX_B, L_INDEX_Sub0, L_INDEX_A__Sub0, L_INDEX_B__Sub0] at hd <;>
          (subst hd; first | rfl | cases hh)
      · simp [dispatchEvent_submachineTest0, or_root, hB, hS, hA] at hd

end submachineTest0

namespace submachineTest1

theorem unhandled_test1 (cb : callables_t) (event_p : event_t) (now : TIME_T) (s : Store)
    (o : outcome_t) (hd : dispatchEvent_submachineTest1 cb event_p now s = some o)
    (hh : o.handled = false) : o.store = s ∧ o.calls = [] := by
  rcases event_p with ⟨tag⟩
  by_cases hB : s.currentChild_a OR_INDEX_root = L_INDEX_B
  · cases tag <;>
      simp (disch := decide) [dispatchEvent_submachineTest1, or_root, basic_B, eventClassOf,
        setAt_same, setAt_other, hB,
        L_INDEX_A, L_INDEX_B, L_INDEX_Sub1, L_INDEX_U__Sub1, L_INDEX_V__Sub1] at hd <;>
      (subst hd; first | exact ⟨rfl, rfl⟩ | cases hh)
  · by_cases hS : s.currentChild_a OR_INDEX_root = L_INDEX_Sub1
    · by_cases h0 : s.currentChild_a OR_INDEX_Sub1 = L_INDEX_U__Sub1
      · cases tag <;>
          simp (disch := decide) [dispatchEvent_submachineTest1, or_root, or_Sub1,
            basic_U__Sub1, eventClassOf, setAt_same, setAt_other, hS, h0,
        L_INDEX_A, L_INDEX_B, L_INDEX_Sub1, L_INDEX_U__Sub1, L_INDEX_V__Sub1] at hd <;>
          (subst hd; first | exact ⟨rfl, rfl⟩ | cases hh)
      · by_cases h1 : s.currentChild_a OR_INDEX_Sub1 = L_INDEX_V__Sub1
        · cases tag <;>
            simp (disch := decide) [dispatchEvent_submachineTest1, or_root, or_Sub1,
              basic_V__Sub1, eventClassOf, exit_Sub1, L_INDEX_Y__Sub1, setAt_same,
              setAt_other, hS, h1,
        L_INDEX_A, L_INDEX_B, L_INDEX_Sub1, L_INDEX_U__Sub1, L_INDEX_V__Sub1] at hd <;>
            (subst hd; first | exact ⟨rfl, rfl⟩ | cases hh)
        · simp [dispatchEvent_submachineTest1, or_root, or_Sub1, hS, h0, h1,
            (by decide : L_INDEX_Sub1 ≠ L_INDEX_B)] at hd
    · by_cases hA : s.currentChild_a OR_INDEX_root = L_INDEX_A
      · cases tag <;>
          simp (disch := decide) [dispatchEvent_submachineTest1, or_root, basic_A,
            eventClassOf, frame_t.record, setAt_same, setAt_other, hA,
        L_INDEX_A, L_INDEX_B, L_INDEX_Sub1, L_INDEX_U__Sub1, L_INDEX_V__Sub1] at hd <;>
          (subst hd; first | exact ⟨rfl, rfl⟩ | cases hh)
      · simp [dispatchEvent_submachineTest1, or_root, hB, hS, hA] at hd

end submachineTest1

/-- C14: for each of the three generated machines, every store on which the dispatch does not
reach `assertUnreachable`, every event and every `now`: if the dispatcher returns false (not
handled) then `currentChild_a`, `isIn_a` and `timeEntered_a` are all unchanged and no callable
(`ready_query`, `start`, `stop`, `act1`) has been invoked. -/
theorem unhandled_dispatch_changes_nothing :
    (∀ (cb : firstExample.callables_t) (event_p : firstExample.event_t) (now : TIME_T)
        (s : firstExample.Store) (o : firstExample.outcome_t),
      firstExample.dispatchEvent_firstExample cb event_p now s = some o →
      o.handled = false → o.store = s ∧ o.calls = []) ∧
    (∀ (event_p : submachineTest0.event_t) (now : TIME_T) (s : submachineTest0.Store)
        (o : submachineTest0.outcome_t),
      submachineTest0.dispatchEvent_submachineTest0 event_p now s = some o →
      o.handled = false → o.store = s) ∧
    (∀ (cb : submachineTest1.callables_t) (event_p : submachineTest1.event_t) (now : TIME_T)
        (s : submachineTest1.Store) (o : submachineTest1.outcome_t),
      submachineTest1.dispatchEvent_submachineTest1 cb event_p now s = some o →
      o.handled = false → o.store = s ∧ o.calls = []) :=
  ⟨firstExample.unhandled_firstExample, submachineTest0.unhandled_test0,
    submachineTest1.unhandled_test1⟩

theorem unhandled_dispatch_changes_nothing_witness :
    (firstExample.dispatchEvent_firstExample firstExample.readyCallables
        (firstExample.eventOf .TICK) 3 firstExample.idleStore
          = some ⟨false, firstExample.idleStore, []⟩ ∧
      (⟨false, firstExample.idleStore, []⟩ : firstExample.outcome_t).store
          = firstExample.idleStore ∧
      (⟨false, firstExample.idleStore, []⟩ : firstExample.outcome_t).calls = []) ∧
    (submachineTest0.dispatchEvent_submachineTest0 ⟨.R⟩ 3 submachineTest0.storeA
          = some ⟨false, submachineTest0.storeA⟩ ∧
      (⟨false, submachineTest0.storeA⟩ : submachineTest0.outcome_t).store
          = submachineTest0.storeA) ∧
    (submachineTest1.dispatchEvent_submachineTest1 submachineTest1.idCallables ⟨.x⟩ 3
        submachineTest1.storeA = some ⟨false, submachineTest1.storeA, []⟩ ∧
      (⟨false, submachineTest1.storeA, []⟩ : submachineTest1.outcome_t).store
          = submachineTest1.storeA ∧
      (⟨false, submachineTest1.storeA, []⟩ : submachineTest1.outcome_t).calls = []) :=
  ⟨⟨rfl, unhandled_dispatch_changes_nothing.1 firstExample.readyCallables
      (firstExample.eventOf .TICK) 3 firstExample.idleStore _ rfl rfl⟩,
    ⟨rfl, unhandled_dispatch_changes_nothing.2.1 ⟨.R⟩ 3 submachineTest0.storeA _ rfl rfl⟩,
    ⟨rfl, unhandled_dispatch_changes_nothing.2.2 submachineTest1.idCallables ⟨.x⟩ 3
      submachineTest1.storeA _ rfl rfl⟩⟩

/-! ## Exit routines of the composite states (C21) -/

namespace submachineTest0

theorem exit_Sub0_live_A (s : Store) (h : s.currentChild_a OR_INDEX_Sub0 = 0) :
    exit_Sub0 (-1) s
      = some ⟨s.currentChild_a, setAt (setAt s.isIn_a G_INDEX_A__Sub0 false) G_INDEX_Sub0 false,
          s.timeEntered_a⟩ := by
  simp [exit_Sub0, exit_A__Sub0, h, L_INDEX_A__Sub0]

theorem exit_Sub0_live_B (s : Store) (h : s.currentChild_a OR_INDEX_Sub0 = 1) :
    exit_Sub0 (-1) s
      = some ⟨s.currentChild_a, setAt (setAt s.isIn_a G_INDEX_B__Sub0 false) G_INDEX_Sub0 false,
          s.timeEntered_a⟩ := by
  simp [exit_Sub0, exit_B__Sub0, h, L_INDEX_A__Sub0, L_INDEX_B__Sub0]

theorem exit_Sub0_resume (s : Store) (k : LOCAL_INDEX_T) (hk : k ≠ -1) :
    exit_Sub0 k s
      = some ⟨s.currentChild_a, setAt s.isIn_a G_INDEX_Sub0 false, s.timeEntered_a⟩ := by
  simp [exit_Sub0, hk]

end submachineTest0

namespace submachineTest1

theorem exit_Sub1_live_U (s : Store) (h : s.currentChild_a OR_INDEX_Sub1 = 0) :
    exit_Sub1 (-1) s
      = some ⟨s.currentChild_a, setAt (setAt s.isIn_a G_INDEX_U__Sub1 false) G_INDEX_Sub1 false,
          s.timeEntered_a⟩ := by
  simp [exit_Sub1, exit_U__Sub1, h, L_INDEX_U__Sub1]

theorem exit_Sub1_live_V (s : Store) (h : s.currentChild_a OR_INDEX_Sub1 = 1) :
    exit_Sub1 (-1) s
      = some ⟨s.currentChild_a, setAt (setAt s.isIn_a G_INDEX_V__Sub1 false) G_INDEX_Sub1 false,
          s.timeEntered_a⟩ := by
  simp [exit_Sub1, exit_V__Sub1, h, L_INDEX_U__Sub1, L_INDEX_V__Sub1]

theorem exit_Sub1_resume (s : Store) (k : LOCAL_INDEX_T) (hk : k ≠ -1) :
    exit_Sub1 k s
      = some ⟨s.currentChild_a, setAt s.isIn_a G_INDEX_Sub1 false, s.timeEntered_a⟩ := by
  simp [exit_Sub1, hk]

end submachineTest1

/-- C21: exit is polymorphic over the live child and never touches timestamps.  In
submachineTest0 and submachineTest1, for every store with `currentChild_a[Sub]` in `{0, 1}`,
`exit_Sub(-1)` returns and sets to false exactly `isIn_a[Sub]` and `isIn_a` of the child
selected by `currentChild_a[Sub]` (every other flag, the other child's included, is left as it
was); `exit_Sub(k)` with `k` different from -1 sets only `isIn_a[Sub]` to false; in both cases
`timeEntered_a` and `currentChild_a` are unchanged (`Sub` is `Sub0`, respectively `Sub1`). -/
theorem exit_composite_clears_live_child_only :
    (∀ (s : submachineTest0.Store) (k : LOCAL_INDEX_T),
      (s.currentChild_a submachineTest0.OR_INDEX_Sub0 = 0 →
        ∃ s', submachineTest0.exit_Sub0 (-1) s = some s' ∧
          (∀ g, s'.isIn_a g = if g = submachineTest0.G_INDEX_Sub0 ∨
              g = submachineTest0.G_INDEX_A__Sub0 then false else s.isIn_a g) ∧
          s'.timeEntered_a = s.timeEntered_a ∧ s'.currentChild_a = s.currentChild_a) ∧
      (s.currentChild_a submachineTest0.OR_INDEX_Sub0 = 1 →
        ∃ s', submachineTest0.exit_Sub0 (-1) s = some s' ∧
          (∀ g, s'.isIn_a g = if g = submachineTest0.G_INDEX_Sub0 ∨
              g = submachineTest0.G_INDEX_B__Sub0 then false else s.isIn_a g) ∧
          s'.timeEntered_a = s.timeEntered_a ∧ s'.currentChild_a = s.currentChild_a) ∧
      (k ≠ -1 →
        ∃ s', submachineTest0.exit_Sub0 k s = some s' ∧
          (∀ g, s'.isIn_a g = if g = submachineTest0.G_INDEX_Sub0 then false
              else s.isIn_a g) ∧
          s'.timeEntered_a = s.timeEntered_a ∧ s'.currentChild_a = s.currentChild_a)) ∧
    (∀ (s : submachineTest1.Store) (k : LOCAL_INDEX_T),
      (s.currentChild_a submachineTest1.OR_INDEX_Sub1 = 0 →
        ∃ s', submachineTest1.exit_Sub1 (-1) s = some s' ∧
          (∀ g, s'.isIn_a g = if g = submachineTest1.G_INDEX_Sub1 ∨
              g = submachineTest1.G_INDEX_U__Sub1 then false else s.isIn_a g) ∧
          s'.timeEntered_a = s.timeEntered_a ∧ s'.currentChild_a = s.currentChild_a) ∧
      (s.currentChild_a submachineTest1.OR_INDEX_Sub1 = 1 →
        ∃ s', submachineTest1.exit_Sub1 (-1) s = some s' ∧
          (∀ g, s'.isIn_a g = if g = submachineTest1.G_INDEX_Sub1 ∨
              g = submachineTest1.G_INDEX_V__Sub1 then false else s.isIn_a g) ∧
          s'.timeEntered_a = s.timeEntered_a ∧ s'.currentChild_a = s.currentChild_a) ∧
      (k ≠ -1 →
        ∃ s', submachineTest1.exit_Sub1 k s = some s' ∧
          (∀ g, s'.isIn_a g = if g = submachineTest1.G_INDEX_Sub1 then false
              else s.isIn_a g) ∧
          s'.timeEntered_a = s.timeEntered_a ∧ s'.currentChild_a = s.currentChild_a)) := by
  refine ⟨fun s k => ⟨fun h0 => ?_, fun h1 => ?_, fun hk => ?_⟩,
    fun s k => ⟨fun h0 => ?_, fun h1 => ?_, fun hk => ?_⟩⟩
  · refine ⟨_, submachineTest0.exit_Sub0_live_A s h0, fun g => ?_, rfl, rfl⟩
    simp only [setAt]
    split_ifs <;> simp_all
  · refine ⟨_, submachineTest0.exit_Sub0_live_B s h1, fun g => ?_, rfl, rfl⟩
    simp only [setAt]
    split_ifs <;> simp_all
  · exact ⟨_, submachineTest0.exit_Sub0_resume s k hk, fun g => rfl, rfl, rfl⟩
  · refine ⟨_, submachineTest1.exit_Sub1_live_U s h0, fun g => ?_, rfl, rfl⟩
    simp only [setAt]
    split_ifs <;> simp_all
  · refine ⟨_, submachineTest1.exit_Sub1_live_V s h1, fun g => ?_, rfl, rfl⟩
    simp only [setAt]
    split_ifs <;> simp_all
  · exact ⟨_, submachineTest1.exit_Sub1_resume s k hk, fun g => rfl, rfl, rfl⟩

theorem exit_composite_clears_live_child_only_witness :
    (∃ s', submachineTest0.exit_Sub0 (-1) submachineTest0.storeSub0_B = some s' ∧
      (∀ g, s'.isIn_a g = if g = submachineTest0.G_INDEX_Sub0 ∨
          g = submachineTest0.G_INDEX_B__Sub0 then false
        else submachineTest0.storeSub0_B.isIn_a g) ∧
      s'.timeEntered_a = submachineTest0.storeSub0_B.timeEntered_a ∧
      s'.currentChild_a = submachineTest0.storeSub0_B.currentChild_a) ∧
    (∃ s', submachineTest1.exit_Sub1 submachineTest1.L_INDEX_Y__Sub1
        submachineTest1.storeSub1_V = some s' ∧
      (∀ g, s'.isIn_a g = if g = submachineTest1.G_INDEX_Sub1 then false
        else submachineTest1.storeSub1_V.isIn_a g) ∧
      s'.timeEntered_a = submachineTest1.storeSub1_V.timeEntered_a ∧
      s'.currentChild_a = submachineTest1.storeSub1_V.currentChild_a) :=
  ⟨(exit_composite_clears_live_child_only.1 submachineTest0.storeSub0_B 0).2.1 rfl,
    (exit_composite_clears_live_child_only.2 submachineTest1.storeSub1_V
      submachineTest1.L_INDEX_Y__Sub1).2.2 (by decide)⟩

/-! ## The fatal branch (C24), the choice point again (C25) -/

namespace firstExample

theorem countCalls_unready (s : Store) :
    countCalls .start [⟨.ready_query, OK_STATUS, s⟩] = 0 ∧
    countCalls .stop [⟨.ready_query, OK_STATUS, s⟩] = 0 := by
  constructor <;> simp [countCalls, List.filter]

theorem child_of_wellFormed (s : Store) (h : wellFormed s) :
    s.currentChild_a OR_INDEX_root = L_INDEX_IDLE ∨
      s.currentChild_a OR_INDEX_root = L_INDEX_RUNNING := by
  rcases h with h | h
  · exact Or.inl h.2.2.2
  · exact Or.inr h.2.2.2

end firstExample

namespace submachineTest0

theorem child_of_wellFormed_test0 (s : Store) (h : wellFormed s) :
    (s.currentChild_a OR_INDEX_root = L_INDEX_A ∨ s.currentChild_a OR_INDEX_root = L_INDEX_B ∨
      s.currentChild_a OR_INDEX_root = L_INDEX_Sub0) ∧
    (s.currentChild_a OR_INDEX_root = L_INDEX_Sub0 →
      s.currentChild_a OR_INDEX_Sub0 = 0 ∨ s.currentChild_a OR_INDEX_Sub0 = 1) := by
  rcases h with ⟨-, hr⟩ | ⟨-, hr⟩ | ⟨-, hr, hc⟩ | ⟨-, hr, hc⟩
  · exact ⟨Or.inl hr, fun h => by rw [hr] at h; cases h⟩
  · exact ⟨Or.inr (Or.inl hr), fun h => by rw [hr] at h; cases h⟩
  · exact ⟨Or.inr (Or.inr hr), fun _ => Or.inl hc⟩
  · exact ⟨Or.inr (Or.inr hr), fun _ => Or.inr hc⟩

end submachineTest0

namespace submachineTest1

theorem child_of_wellFormed_test1 (s : Store) (h : wellFormed s) :
    (s.currentChild_a OR_INDEX_root = L_INDEX_A ∨ s.currentChild_a OR_INDEX_root = L_INDEX_B ∨
      s.currentChild_a OR_INDEX_root = L_INDEX_Sub1) ∧
    (s.currentChild_a OR_INDEX_root = L_INDEX_Sub1 →
      s.currentChild_a OR_INDEX_Sub1 = 0 ∨ s.currentChild_a OR_INDEX_Sub1 = 1) := by
  rcases h with ⟨-, hr⟩ | ⟨-, hr⟩ | ⟨-, hr, hc⟩ | ⟨-, hr, hc⟩
  · exact ⟨Or.inl hr, fun h => by rw [hr] at h; cases h⟩
  · exact ⟨Or.inr (Or.inl hr), fun h => by rw [hr] at h; cases h⟩
  · exact ⟨Or.inr (Or.inr hr), fun _ => Or.inl hc⟩
  · exact ⟨Or.inr (Or.inr hr), fun _ => Or.inr hc⟩

end submachineTest1

/-- C24: the fatal branch is unreachable.  For each of the three machines, starting from the
all-zero store, after `initStateMachine` and any finite sequence of dispatches (any events, any
times, any behaviour of the callables), no dispatch, and so no call of `exit_Sub0` or
`exit_Sub1` made by one, reaches `assertUnreachable`; in the store after initialisation and
after every dispatch `currentChild_a[root]` is the local index of a real child of the root,
and whenever it designates `Sub0`/`Sub1` then `currentChild_a[Sub0]`/`currentChild_a[Sub1]` is
0 or 1. -/
theorem fatal_branch_unreachable (t0 : TIME_T) :
    (∀ steps : List firstExample.step_t,
      ∃ outs, firstExample.dispatchAll steps
          (firstExample.initStateMachine_firstExample t0 firstExample.zeroStore) = some outs ∧
        outs.length = steps.length ∧
        ∀ s ∈ firstExample.initStateMachine_firstExample t0 firstExample.zeroStore ::
            outs.map (fun o => o.store),
          s.currentChild_a firstExample.OR_INDEX_root = firstExample.L_INDEX_IDLE ∨
          s.currentChild_a firstExample.OR_INDEX_root = firstExample.L_INDEX_RUNNING) ∧
    (∀ steps : List submachineTest0.step_t,
      ∃ outs, submachineTest0.dispatchAll steps
          (submachineTest0.initStateMachine_submachineTest0 t0 submachineTest0.zeroStore)
            = some outs ∧
        outs.length = steps.length ∧
        ∀ s ∈ submachineTest0.initStateMachine_submachineTest0 t0 submachineTest0.zeroStore ::
            outs.map (fun o => o.store),
          (s.currentChild_a submachineTest0.OR_INDEX_root = submachineTest0.L_INDEX_A ∨
            s.currentChild_a submachineTest0.OR_INDEX_root = submachineTest0.L_INDEX_B ∨
            s.currentChild_a submachineTest0.OR_INDEX_root = submachineTest0.L_INDEX_Sub0) ∧
          (s.currentChild_a submachineTest0.OR_INDEX_root = submachineTest0.L_INDEX_Sub0 →
            s.currentChild_a submachineTest0.OR_INDEX_Sub0 = 0 ∨
            s.currentChild_a submachineTest0.OR_INDEX_Sub0 = 1)) ∧
    (∀ steps : List submachineTest1.step_t,
      ∃ outs, submachineTest1.dispatchAll steps
          (submachineTest1.initStateMachine_submachineTest1 t0 submachineTest1.zeroStore)
            = some outs ∧
        outs.length = steps.length ∧
        ∀ s ∈ submachineTest1.initStateMachine_submachineTest1 t0 submachineTest1.zeroStore ::
            outs.map (fun o => o.store),
          (s.currentChild_a submachineTest1.OR_INDEX_root = submachineTest1.L_INDEX_A ∨
            s.currentChild_a submachineTest1.OR_INDEX_root = submachineTest1.L_INDEX_B ∨
            s.currentChild_a submachineTest1.OR_INDEX_root = submachineTest1.L_INDEX_Sub1) ∧
          (s.currentChild_a submachineTest1.OR_INDEX_root = submachineTest1.L_INDEX_Sub1 →
            s.currentChild_a submachineTest1.OR_INDEX_Sub1 = 0 ∨
            s.currentChild_a submachineTest1.OR_INDEX_Sub1 = 1)) := by
  refine ⟨fun steps => ?_, fun steps => ?_, fun steps => ?_⟩
  · have hi := firstExample.init_leafIDLE t0
    obtain ⟨outs, hrun, hlen, hall⟩ := firstExample.dispatchAll_wellFormed steps _ (Or.inl hi)
    refine ⟨outs, hrun, hlen, fun s hs => firstExample.child_of_wellFormed s ?_⟩
    rcases List.mem_cons.mp hs with h | h
    · rw [h]; exact Or.inl hi
    · obtain ⟨o, ho, rfl⟩ := List.mem_map.mp h
      exact hall o ho
  · have hi := submachineTest0.init_pathA_test0 t0
    obtain ⟨outs, hrun, hlen, hall⟩ :=
      submachineTest0.dispatchAll_wellFormed_test0 steps _ (Or.inl hi)
    refine ⟨outs, hrun, hlen, fun s hs => submachineTest0.child_of_wellFormed_test0 s ?_⟩
    rcases List.mem_cons.mp hs with h | h
    · rw [h]; exact Or.inl hi
    · obtain ⟨o, ho, rfl⟩ := List.mem_map.mp h
      exact hall o ho
  · have hi := submachineTest1.init_pathA_test1 t0
    obtain ⟨outs, hrun, hlen, hall⟩ :=
      submachineTest1.dispatchAll_wellFormed_test1 steps _ (Or.inl hi)
    refine ⟨outs, hrun, hlen, fun s hs => submachineTest1.child_of_wellFormed_test1 s ?_⟩
    rcases List.mem_cons.mp hs with h | h
    · rw [h]; exact Or.inl hi
    · obtain ⟨o, ho, rfl⟩ := List.mem_map.mp h
      exact hall o ho

/-- C25: firstExample.  For every store whose active leaf is `IDLE` and every `now`,
dispatching a `GO` event for which `ready_query` returns false never invokes `start` or `stop`,
exits and re-enters `IDLE` (the final store is `enter_IDLE(now)` applied after `exit_IDLE`), so
that the active set is again exactly `{root, IDLE}` with
`currentChild_a[root] = L_INDEX_IDLE`, and resets `timeEntered_a[IDLE]` to `now`. -/
theorem firstExample_GO_unready_resets_IDLE_timer (cb : firstExample.callables_t)
    (event_p : firstExample.event_t) (now : TIME_T) (s : firstExample.Store)
    (hs : firstExample.leafIDLE s) (he : firstExample.eventClassOf event_p = .GO)
    (hq : cb.ready_query event_p OK_STATUS = false) :
    ∃ o, firstExample.dispatchEvent_firstExample cb event_p now s = some o ∧
      firstExample.countCalls .start o.calls = 0 ∧
      firstExample.countCalls .stop o.calls = 0 ∧
      o.store = firstExample.enter_IDLE (-1) now (firstExample.exit_IDLE (-1) s) ∧
      firstExample.leafIDLE o.store ∧
      o.store.timeEntered_a firstExample.G_INDEX_IDLE = now :=
  ⟨_, firstExample.dispatch_IDLE_GO_unready cb event_p now s hs.2.2.2 he hq,
    (firstExample.countCalls_unready _).1, (firstExample.countCalls_unready _).2, rfl,
    firstExample.leafIDLE_reenter now s hs, firstExample.timeEntered_enter_IDLE now _⟩

theorem firstExample_GO_unready_resets_IDLE_timer_witness :
    firstExample.leafIDLE firstExample.idleStore ∧
    ∃ o, firstExample.dispatchEvent_firstExample firstExample.unreadyCallables
        (firstExample.eventOf .GO) 7 firstExample.idleStore = some o ∧
      firstExample.countCalls .start o.calls = 0 ∧
      firstExample.countCalls .stop o.calls = 0 ∧
      o.store = firstExample.enter_IDLE (-1) 7
        (firstExample.exit_IDLE (-1) firstExample.idleStore) ∧
      firstExample.leafIDLE o.store ∧
      o.store.timeEntered_a firstExample.G_INDEX_IDLE = 7 :=
  ⟨firstExample.leafIDLE_idleStore,
    firstExample_GO_unready_resets_IDLE_timer firstExample.unreadyCallables
      (firstExample.eventOf .GO) 7 firstExample.idleStore firstExample.leafIDLE_idleStore
      rfl rfl⟩

/-! ## What a dispatch writes (C22, C23) -/

namespace submachineTest0

/-- The possible results of a dispatch that returns: nothing happened, or one of the five
transitions of the machine was taken from the state the `currentChild_a` chain designates. -/
theorem dispatch_shapes_test0 (event_p : event_t) (now : TIME_T) (s : Store) (o : outcome_t)
    (hd : dispatchEvent_submachineTest0 event_p now s = some o) :
    (o.handled = false ∧ o.store = s) ∨
    (o.handled = true ∧
      ((s.currentChild_a OR_INDEX_root = L_INDEX_B ∧
          o.store = enter_Sub0 (-1) now (exit_B (-1) s)) ∨
        (s.currentChild_a OR_INDEX_root = L_INDEX_Sub0 ∧
          o.store = enter_B__Sub0 (-1) now (exit_A__Sub0 (-1) s)) ∨
        (∃ s', exit_Sub0 (-1) s = some s' ∧ o.store = enter_A (-1) now s') ∨
        (s.currentChild_a OR_INDEX_root = L_INDEX_A ∧
          o.store = enter_B (-1) now (exit_A (-1) s)))) := by
  rcases event_p with ⟨tag⟩
  by_cases hB : s.currentChild_a OR_INDEX_root = L_INDEX_B
  · cases tag <;>
      simp (disch := decide) [dispatchEvent_submachineTest0, or_root, basic_B, eventClassOf,
        setAt_same, setAt_other, hB] at hd <;>
      subst hd <;> simp [hB]
  · by_cases hS : s.currentChild_a OR_INDEX_root = L_INDEX_Sub0
    · by_cases h0 : s.currentChild_a OR_INDEX_Sub0 = L_INDEX_A__Sub0
      · have hx := exit_Sub0_live_A s h0
        cases tag <;>
          simp (disch := decide) [dispatchEvent_submachineTest0, or_root, or_Sub0,
            or_Sub0_child, own_Sub0, basic_A__Sub0, eventClassOf, setAt_same,
            setAt_other, hS, h0, hx, (by decide : L_INDEX_Sub0 ≠ L_INDEX_B)] at hd <;>
          subst hd <;> simp [hS, hx]
      · by_cases h1 : s.currentChild_a OR_INDEX_Sub0 = L_INDEX_B__Sub0
        · have hx := exit_Sub0_live_B s h1
          cases tag <;>
            simp (disch := decide) [dispatchEvent_submachineTest0, or_root, or_Sub0,
              or_Sub0_child, own_Sub0, basic_B__Sub0, eventClassOf, setAt_same,
              setAt_other, hS, h1, hx, (by decide : L_INDEX_Sub0 ≠ L_INDEX_B),
              (by decide : L_INDEX_B__Sub0 ≠ L_INDEX_A__Sub0)] at hd <;>
            subst hd <;> simp [hS, hx]
        · simp [dispatchEvent_submachineTest0, or_root, or_Sub0, or_Sub0_child, hS, h0, h1,
            (by decide : L_INDEX_Sub0 ≠ L_INDEX_B)] at hd
    · by_cases hA : s.currentChild_a OR_INDEX_root = L_INDEX_A
      · cases tag <;>
          simp (disch := decide) [dispatchEvent_submachineTest0, or_root, basic_A,
            eventClassOf, setAt_same, setAt_other, hA, (by decide : L_INDEX_A ≠ L_INDEX_B),
            (by decide : L_INDEX_A ≠ L_INDEX_Sub0)] at hd <;>
          subst hd <;> simp [hA]
      · simp [dispatchEvent_submachineTest0, or_root, hB, hS, hA] at hd

end submachineTest0

namespace submachineTest1

/-- The possible results of a dispatch that returns: nothing happened, or one of the four
transitions of the machine was taken from the state the `currentChild_a` chain designates. -/
theorem dispatch_shapes_test1 (cb : callables_t) (event_p : event_t) (now : TIME_T)
    (s : Store) (o : outcome_t)
    (hd : dispatchEvent_submachineTest1 cb event_p now s = some o) :
    (o.handled = false ∧ o.store = s) ∨
    (o.handled = true ∧
      ((s.currentChild_a OR_INDEX_root = L_INDEX_B ∧
          o.store = enter_A (-1) now (exit_B (-1) s)) ∨
        (s.currentChild_a OR_INDEX_root = L_INDEX_Sub1 ∧
          o.store = enter_V__Sub1 (-1) now (exit_U__Sub1 (-1) s)) ∨
        (∃ s', exit_Sub1 L_INDEX_Y__Sub1 (exit_V__Sub1 (-1) s) = some s' ∧
          o.store = enter_B (-1) now s') ∨
        (s.currentChild_a OR_INDEX_root = L_INDEX_A ∧
          o.store = enter_U__Sub1 (-1) now
            (enter_Sub1 L_INDEX_X__Sub1 now (exit_A (-1) s))))) := by
  rcases event_p with ⟨tag⟩
  by_cases hB : s.currentChild_a OR_INDEX_root = L_INDEX_B
  · cases tag <;>
      simp (disch := decide) [dispatchEvent_submachineTest1, or_root, basic_B, eventClassOf,
        setAt_same, setAt_other, hB] at hd <;>
      subst hd <;> simp [hB]
  · by_cases hS : s.currentChild_a OR_INDEX_root = L_INDEX_Sub1
    · by_cases h0 : s.currentChild_a OR_INDEX_Sub1 = L_INDEX_U__Sub1
      · cases tag <;>
          simp (disch := decide) [dispatchEvent_submachineTest1, or_root, or_Sub1,
            basic_U__Sub1, eventClassOf, setAt_same, setAt_other, hS, h0,
            (by decide : L_INDEX_Sub1 ≠ L_INDEX_B)] at hd <;>
          subst hd <;> simp [hS]
      · by_cases h1 : s.currentChild_a OR_INDEX_Sub1 = L_INDEX_V__Sub1
        · have hx := exit_Sub1_resume (exit_V__Sub1 (-1) s) L_INDEX_Y__Sub1 (by decide)
          cases tag <;>
            simp (disch := decide) [dispatchEvent_submachineTest1, or_root, or_Sub1,
              basic_V__Sub1, eventClassOf, setAt_same, setAt_other, hS, h1, hx,
              (by decide : L_INDEX_Sub1 ≠ L_INDEX_B),
              (by decide : L_INDEX_V__Sub1 ≠ L_INDEX_U__Sub1)] at hd <;>
            subst hd <;> simp [hS, hx]
        · simp [dispatchEvent_submachineTest1, or_root, or_Sub1, hS, h0, h1,
            (by decide : L_INDEX_Sub1 ≠ L_INDEX_B)] at hd
    · by_cases hA : s.currentChild_a OR_INDEX_root = L_INDEX_A
      · cases tag <;>
          simp (disch := decide) [dispatchEvent_submachineTest1, or_root, basic_A,
            eventClassOf, frame_t.record, setAt_same, setAt_other, hA,
            (by decide : L_INDEX_A ≠ L_INDEX_B), (by decide : L_INDEX_A ≠ L_INDEX_Sub1)]
            at hd <;>
          subst hd <;> simp [hA]
      · simp [dispatchEvent_submachineTest1, or_root, hB, hS, hA] at hd

end submachineTest1

namespace firstExample

/-- The possible results of a dispatch that returns: nothing happened, or one of the
transitions of the machine was taken from the state `currentChild_a[root]` designates. -/
theorem dispatch_shapes_firstExample (cb : callables_t) (event_p : event_t) (now : TIME_T)
    (s : Store) (o : outcome_t) (hd : dispatchEvent_firstExample cb event_p now s = some o) :
    (o.handled = false ∧ o.store = s) ∨
    (o.handled = true ∧
      ((s.currentChild_a OR_INDEX_root = L_INDEX_IDLE ∧
          o.store = enter_RUNNING (-1) now (exit_IDLE (-1) s)) ∨
        (s.currentChild_a OR_INDEX_root = L_INDEX_IDLE ∧
          o.store = enter_IDLE (-1) now (exit_IDLE (-1) s)) ∨
        (s.currentChild_a OR_INDEX_root = L_INDEX_RUNNING ∧
          o.store = enter_IDLE (-1) now (exit_RUNNING (-1) s)))) := by
  by_cases hI : s.currentChild_a OR_INDEX_root = L_INDEX_IDLE
  · by_cases he : event_p.tag = .GO
    · cases hq : cb.ready_query event_p OK_STATUS
      · rw [dispatch_IDLE_GO_unready cb event_p now s hI he hq] at hd
        cases hd
        exact Or.inr ⟨rfl, Or.inr (Or.inl ⟨hI, rfl⟩)⟩
      · rw [dispatch_IDLE_GO_ready cb event_p now s hI he hq] at hd
        cases hd
        exact Or.inr ⟨rfl, Or.inl ⟨hI, rfl⟩⟩
    · rw [dispatch_IDLE_other cb event_p now s hI he] at hd
      cases hd
      exact Or.inl ⟨rfl, rfl⟩
  · by_cases hR : s.currentChild_a OR_INDEX_root = L_INDEX_RUNNING
    · rcases hE : event_p.tag with _ | _ | _
      · rw [dispatch_RUNNING_GO cb event_p now s hR hE] at hd
        cases hd
        exact Or.inl ⟨rfl, rfl⟩
      · rw [dispatch_RUNNING_KILL cb event_p now s hR hE] at hd
        cases hd
        exact Or.inr ⟨rfl, Or.inr (Or.inr ⟨hR, rfl⟩)⟩
      · cases ht : IS_AFTER (TO_DURATION 60000) (s.timeEntered_a G_INDEX_RUNNING) now
        · rw [dispatch_RUNNING_TICK_before cb event_p now s hR hE ht] at hd
          cases hd
          exact Or.inl ⟨rfl, rfl⟩
        · rw [dispatch_RUNNING_TICK_after cb event_p now s hR hE ht] at hd
          cases hd
          exact Or.inr ⟨rfl, Or.inr (Or.inr ⟨hR, rfl⟩)⟩
    · simp [dispatchEvent_firstExample, or_root, hI, hR] at hd

end firstExample

theorem setAt_apply {n : Nat} {α : Type} (a : Fin n → α) (i j : Fin n) (v : α) :
    setAt a i v j = if j = i then v else a j := rfl

namespace submachineTest0

theorem exit_Sub0_frame (k : LOCAL_INDEX_T) (s s' : Store) (h : exit_Sub0 k s = some s') :
    s'.timeEntered_a = s.timeEntered_a ∧ s'.currentChild_a = s.currentChild_a ∧
    s'.isIn_a G_INDEX_root = s.isIn_a G_INDEX_root ∧ s'.isIn_a G_INDEX_Sub0 = false := by
  unfold exit_Sub0 at h
  simp only [exit_A__Sub0, exit_B__Sub0] at h
  split_ifs at h <;> simp at h <;> subst h <;>
    simp (disch := decide) [setAt_same, setAt_other]

theorem timeEntered_written_on_entry_test0 (event_p : event_t) (now : TIME_T) (s : Store)
    (o : outcome_t) (hd : dispatchEvent_submachineTest0 event_p now s = some o) :
    (∀ g, o.store.timeEntered_a g ≠ s.timeEntered_a g →
      o.store.isIn_a g = true ∧ o.store.timeEntered_a g = now) ∧
    o.store.timeEntered_a G_INDEX_root = s.timeEntered_a G_INDEX_root ∧
    o.store.isIn_a G_INDEX_root = s.isIn_a G_INDEX_root := by
  rcases dispatch_shapes_test0 event_p now s o hd with
    ⟨-, h⟩ | ⟨-, ⟨-, h⟩ | ⟨-, h⟩ | ⟨s', hx, h⟩ | ⟨-, h⟩⟩
  · rw [h]
    exact ⟨fun g hg => absurd rfl hg, rfl, rfl⟩
  · rw [h]
    refine ⟨fun g hg => ?_, ?_, ?_⟩
    · simp only [enter_Sub0, enter_A__Sub0, exit_B, if_true, setAt_apply] at hg ⊢
      split_ifs at hg ⊢ <;> simp_all
    · simp (disch := decide) [enter_Sub0, enter_A__Sub0, exit_B, setAt_other]
    · simp (disch := decide) [enter_Sub0, enter_A__Sub0, exit_B, setAt_other]
  · rw [h]
    refine ⟨fun g hg => ?_, ?_, ?_⟩
    · simp only [enter_B__Sub0, exit_A__Sub0, setAt_apply] at hg ⊢
      split_ifs at hg ⊢ <;> simp_all
    · simp (disch := decide) [enter_B__Sub0, exit_A__Sub0, setAt_other]
    · simp (disch := decide) [enter_B__Sub0, exit_A__Sub0, setAt_other]
  · obtain ⟨ht, -, hr, -⟩ := exit_Sub0_frame (-1) s s' hx
    rw [h]
    refine ⟨fun g hg => ?_, ?_, ?_⟩
    · simp only [enter_A, setAt_apply, ht] at hg ⊢
      split_ifs at hg ⊢ <;> simp_all
    · simp (disch := decide) [enter_A, setAt_other, ht]
    · simp (disch := decide) [enter_A, setAt_other, hr]
  · rw [h]
    refine ⟨fun g hg => ?_, ?_, ?_⟩
    · simp only [enter_B, exit_A, setAt_apply] at hg ⊢
      split_ifs at hg ⊢ <;> simp_all
    · simp (disch := decide) [enter_B, exit_A, setAt_other]
    · simp (disch := decide) [enter_B, exit_A, setAt_other]

end submachineTest0

namespace submachineTest0

theorem entered_leaf_is_fresh_test0 (event_p : event_t) (now : TIME_T) (s : Store)
    (o : outcome_t) (hd : dispatchEvent_submachineTest0 event_p now s = some o)
    (hh : o.handled = true) :
    (∃ g, activeLeaf o.store = some g ∧ o.store.isIn_a g = true ∧
      o.store.timeEntered_a g = now) ∧
    (s.isIn_a G_INDEX_Sub0 = false → o.store.isIn_a G_INDEX_Sub0 = true →
      o.store.timeEntered_a G_INDEX_Sub0 = now) ∧
    (s.isIn_a G_INDEX_root = false → o.store.isIn_a G_INDEX_root = true →
      o.store.timeEntered_a G_INDEX_root = now) := by
  have hroot := (timeEntered_written_on_entry_test0 event_p now s o hd).2.2
  refine ⟨?_, ?_, fun h1 h2 => ?_⟩
  · rcases dispatch_shapes_test0 event_p now s o hd with
      ⟨hf, -⟩ | ⟨-, ⟨-, h⟩ | ⟨hS, h⟩ | ⟨s', hx, h⟩ | ⟨-, h⟩⟩
    · rw [hf] at hh
      cases hh
    · refine ⟨G_INDEX_A__Sub0, ?_, ?_, ?_⟩ <;> rw [h] <;>
        simp (disch := decide) [activeLeaf, enter_Sub0, enter_A__Sub0, exit_B, setAt_same,
          setAt_other, L_INDEX_Sub0, L_INDEX_B, L_INDEX_A__Sub0]
    · refine ⟨G_INDEX_B__Sub0, ?_, ?_, ?_⟩ <;> rw [h] <;>
        simp (disch := decide) [activeLeaf, enter_B__Sub0, exit_A__Sub0, setAt_same,
          setAt_other, hS, L_INDEX_Sub0, L_INDEX_B, L_INDEX_A__Sub0, L_INDEX_B__Sub0]
    · refine ⟨G_INDEX_A, ?_, ?_, ?_⟩ <;> rw [h] <;>
        simp (disch := decide) [activeLeaf, enter_A, setAt_same, setAt_other, L_INDEX_Sub0,
          L_INDEX_B, L_INDEX_A]
    · refine ⟨G_INDEX_B, ?_, ?_, ?_⟩ <;> rw [h] <;>
        simp (disch := decide) [activeLeaf, enter_B, exit_A, setAt_same, setAt_other,
          L_INDEX_B]
  · intro h1 h2
    rcases dispatch_shapes_test0 event_p now s o hd with
      ⟨hf, -⟩ | ⟨-, ⟨-, h⟩ | ⟨hS, h⟩ | ⟨s', hx, h⟩ | ⟨-, h⟩⟩
    · rw [hf] at hh
      cases hh
    · rw [h]
      simp (disch := decide) [enter_Sub0, enter_A__Sub0, exit_B, setAt_same, setAt_other]
    · rw [h] at h2
      simp (disch := decide) [enter_B__Sub0, exit_A__Sub0, setAt_same, setAt_other, h1] at h2
    · obtain ⟨-, -, -, hf0⟩ := exit_Sub0_frame (-1) s s' hx
      rw [h] at h2
      simp (disch := decide) [enter_A, setAt_same, setAt_other, hf0] at h2
    · rw [h] at h2
      simp (disch := decide) [enter_B, exit_A, setAt_same, setAt_other, h1] at h2
  · rw [hroot, h1] at h2
    cases h2

end submachineTest0

namespace submachineTest1

theorem exit_Sub1_frame (k : LOCAL_INDEX_T) (s s' : Store) (h : exit_Sub1 k s = some s') :
    s'.timeEntered_a = s.timeEntered_a ∧ s'.currentChild_a = s.currentChild_a ∧
    s'.isIn_a G_INDEX_root = s.isIn_a G_INDEX_root ∧ s'.isIn_a G_INDEX_Sub1 = false := by
  unfold exit_Sub1 at h
  simp only [exit_U__Sub1, exit_V__Sub1] at h
  split_ifs at h <;> simp at h <;> subst h <;>
    simp (disch := decide) [setAt_same, setAt_other]

theorem timeEntered_written_on_entry_test1 (cb : callables_t) (event_p : event_t)
    (now : TIME_T) (s : Store) (o : outcome_t)
    (hd : dispatchEvent_submachineTest1 cb event_p now s = some o) :
    (∀ g, o.store.timeEntered_a g ≠ s.timeEntered_a g →
      o.store.isIn_a g = true ∧ o.store.timeEntered_a g = now) ∧
    o.store.timeEntered_a G_INDEX_root = s.timeEntered_a G_INDEX_root ∧
    o.store.isIn_a G_INDEX_root = s.isIn_a G_INDEX_root := by
  rcases dispatch_shapes_test1 cb event_p now s o hd with
    ⟨-, h⟩ | ⟨-, ⟨-, h⟩ | ⟨-, h⟩ | ⟨s', hx, h⟩ | ⟨-, h⟩⟩
  · rw [h]
    exact ⟨fun g hg => absurd rfl hg, rfl, rfl⟩
  · rw [h]
    refine ⟨fun g hg => ?_, ?_, ?_⟩
    · simp only [enter_A, exit_B, setAt_apply] at hg ⊢
      split_ifs at hg ⊢ <;> simp_all
    · simp (disch := decide) [enter_A, exit_B, setAt_other]
    · simp (disch := decide) [enter_A, exit_B, setAt_other]
  · rw [h]
    refine ⟨fun g hg => ?_, ?_, ?_⟩
    · simp only [enter_V__Sub1, exit_U__Sub1, setAt_apply] at hg ⊢
      split_ifs at hg ⊢ <;> simp_all
    · simp (disch := decide) [enter_V__Sub1, exit_U__Sub1, setAt_other]
    · simp (disch := decide) [enter_V__Sub1, exit_U__Sub1, setAt_other]
  · obtain ⟨ht, -, hr, -⟩ := exit_Sub1_frame L_INDEX_Y__Sub1 _ s' hx
    rw [h]
    refine ⟨fun g hg => ?_, ?_, ?_⟩
    · simp only [enter_B, setAt_apply, ht, exit_V__Sub1] at hg ⊢
      split_ifs at hg ⊢ <;> simp_all
    · simp (disch := decide) [enter_B, setAt_other, ht, exit_V__Sub1]
    · simp (disch := decide) [enter_B, setAt_other, hr, exit_V__Sub1]
  · rw [h]
    refine ⟨fun g hg => ?_, ?_, ?_⟩
    · simp only [enter_U__Sub1, enter_Sub1, exit_A, L_INDEX_X__Sub1, setAt_apply,
        eq_false (by decide : ¬ ((2 : Int) = -1)), if_false] at hg ⊢
      split_ifs at hg ⊢ <;> simp_all
    · simp (disch := decide) [enter_U__Sub1, enter_Sub1, exit_A, L_INDEX_X__Sub1,
        setAt_other]
    · simp (disch := decide) [enter_U__Sub1, enter_Sub1, exit_A, L_INDEX_X__Sub1,
        setAt_other]

theorem entered_leaf_is_fresh_test1 (cb : callables_t) (event_p : event_t) (now : TIME_T)
    (s : Store) (o : outcome_t)
    (hd : dispatchEvent_submachineTest1 cb event_p now s = some o) (hh : o.handled = true) :
    (∃ g, activeLeaf o.store = some g ∧ o.store.isIn_a g = true ∧
      o.store.timeEntered_a g = now) ∧
    (s.isIn_a G_INDEX_Sub1 = false → o.store.isIn_a G_INDEX_Sub1 = true →
      o.store.timeEntered_a G_INDEX_Sub1 = now) ∧
    (s.isIn_a G_INDEX_root = false → o.store.isIn_a G_INDEX_root = true →
      o.store.timeEntered_a G_INDEX_root = now) := by
  have hroot := (timeEntered_written_on_entry_test1 cb event_p now s o hd).2.2
  refine ⟨?_, ?_, fun h1 h2 => ?_⟩
  · rcases dispatch_shapes_test1 cb event_p now s o hd with
      ⟨hf, -⟩ | ⟨-, ⟨-, h⟩ | ⟨hS, h⟩ | ⟨s', hx, h⟩ | ⟨-, h⟩⟩
    · rw [hf] at hh
      cases hh
    · refine ⟨G_INDEX_A, ?_, ?_, ?_⟩ <;> rw [h] <;>
        simp (disch := decide) [activeLeaf, enter_A, exit_B, setAt_same, setAt_other,
          L_INDEX_Sub1, L_INDEX_B, L_INDEX_A]
    · refine ⟨G_INDEX_V__Sub1, ?_, ?_, ?_⟩ <;> rw [h] <;>
        simp (disch := decide) [activeLeaf, enter_V__Sub1, exit_U__Sub1, setAt_same,
          setAt_other, hS, L_INDEX_Sub1, L_INDEX_B, L_INDEX_U__Sub1, L_INDEX_V__Sub1]
    · refine ⟨G_INDEX_B, ?_, ?_, ?_⟩ <;> rw [h] <;>
        simp (disch := decide) [activeLeaf, enter_B, setAt_same, setAt_other, L_INDEX_B]
    · refine ⟨G_INDEX_U__Sub1, ?_, ?_, ?_⟩ <;> rw [h] <;>
        simp (disch := decide) [activeLeaf, enter_U__Sub1, enter_Sub1, exit_A, setAt_same,
          setAt_other, L_INDEX_Sub1, L_INDEX_B, L_INDEX_U__Sub1, L_INDEX_X__Sub1]
  · intro h1 h2
    rcases dispatch_shapes_test1 cb event_p now s o hd with
      ⟨hf, -⟩ | ⟨-, ⟨-, h⟩ | ⟨hS, h⟩ | ⟨s', hx, h⟩ | ⟨-, h⟩⟩
    · rw [hf] at hh
      cases hh
    · rw [h] at h2
      simp (disch := decide) [enter_A, exit_B, setAt_same, setAt_other, h1] at h2
    · rw [h] at h2
      simp (disch := decide) [enter_V__Sub1, exit_U__Sub1, setAt_same, setAt_other, h1] at h2
    · obtain ⟨-, -, -, hf0⟩ := exit_Sub1_frame L_INDEX_Y__Sub1 _ s' hx
      rw [h] at h2
      simp (disch := decide) [enter_B, setAt_same, setAt_other, hf0] at h2
    · rw [h]
      simp (disch := decide) [enter_U__Sub1, enter_Sub1, exit_A, L_INDEX_X__Sub1, setAt_same,
        setAt_other]
  · rw [hroot, h1] at h2
    cases h2

end submachineTest1

namespace firstExample

theorem timeEntered_written_on_entry_firstExample (cb : callables_t) (event_p : event_t)
    (now : TIME_T) (s : Store) (o : outcome_t)
    (hd : dispatchEvent_firstExample cb event_p now s = some o) :
    (∀ g, o.store.timeEntered_a g ≠ s.timeEntered_a g →
      o.store.isIn_a g = true ∧ o.store.timeEntered_a g = now) ∧
    o.store.timeEntered_a G_INDEX_root = s.timeEntered_a G_INDEX_root ∧
    o.store.isIn_a G_INDEX_root = s.isIn_a G_INDEX_root := by
  rcases dispatch_shapes_firstExample cb event_p now s o hd with
    ⟨-, h⟩ | ⟨-, ⟨-, h⟩ | ⟨-, h⟩ | ⟨-, h⟩⟩
  · rw [h]
    exact ⟨fun g hg => absurd rfl hg, rfl, rfl⟩
  · rw [h]
    refine ⟨fun g hg => ?_, ?_, ?_⟩
    · simp only [enter_RUNNING, exit_IDLE, setAt_apply] at hg ⊢
      split_ifs at hg ⊢ <;> simp_all
    · simp (disch := decide) [enter_RUNNING, exit_IDLE, setAt_other]
    · simp (disch := decide) [enter_RUNNING, exit_IDLE, setAt_other]
  · rw [h]
    refine ⟨fun g hg => ?_, ?_, ?_⟩
    · simp only [enter_IDLE, exit_IDLE, setAt_apply] at hg ⊢
      split_ifs at hg ⊢ <;> simp_all
    · simp (disch := decide) [enter_IDLE, exit_IDLE, setAt_other]
    · simp (disch := decide) [enter_IDLE, exit_IDLE, setAt_other]
  · rw [h]
    refine ⟨fun g hg => ?_, ?_, ?_⟩
    · simp only [enter_IDLE, exit_RUNNING, setAt_apply] at hg ⊢
      split_ifs at hg ⊢ <;> simp_all
    · simp (disch := decide) [enter_IDLE, exit_RUNNING, setAt_other]
    · simp (disch := decide) [enter_IDLE, exit_RUNNING, setAt_other]

theorem entered_leaf_is_fresh_firstExample (cb : callables_t) (event_p : event_t)
    (now : TIME_T) (s : Store) (o : outcome_t)
    (hd : dispatchEvent_firstExample cb event_p now s = some o) (hh : o.handled = true) :
    (∃ g, activeLeaf o.store = some g ∧ o.store.isIn_a g = true ∧
      o.store.timeEntered_a g = now) ∧
    (s.isIn_a G_INDEX_root = false → o.store.isIn_a G_INDEX_root = true →
      o.store.timeEntered_a G_INDEX_root = now) := by
  have hroot := (timeEntered_written_on_entry_firstExample cb event_p now s o hd).2.2
  refine ⟨?_, fun h1 h2 => ?_⟩
  · rcases dispatch_shapes_firstExample cb event_p now s o hd with
      ⟨hf, -⟩ | ⟨-, ⟨-, h⟩ | ⟨-, h⟩ | ⟨-, h⟩⟩
    · rw [hf] at hh
      cases hh
    · refine ⟨G_INDEX_RUNNING, ?_, ?_, ?_⟩ <;> rw [h] <;>
        simp (disch := decide) [activeLeaf, enter_RUNNING, exit_IDLE, setAt_same,
          setAt_other, L_INDEX_IDLE, L_INDEX_RUNNING]
    · refine ⟨G_INDEX_IDLE, ?_, ?_, ?_⟩ <;> rw [h] <;>
        simp (disch := decide) [activeLeaf, enter_IDLE, exit_IDLE, setAt_same, setAt_other]
    · refine ⟨G_INDEX_IDLE, ?_, ?_, ?_⟩ <;> rw [h] <;>
        simp (disch := decide) [activeLeaf, enter_IDLE, exit_RUNNING, setAt_same,
          setAt_other]
  · rw [hroot, h1] at h2
    cases h2

end firstExample

namespace submachineTest0

theorem composite_time_kept_test0 (event_p : event_t) (now : TIME_T) (s : Store)
    (o : outcome_t) (hd : dispatchEvent_submachineTest0 event_p now s = some o)
    (hS : s.currentChild_a OR_INDEX_root = L_INDEX_Sub0)
    (h0 : s.currentChild_a OR_INDEX_Sub0 = L_INDEX_A__Sub0)
    (he : eventClassOf event_p = .TICK) :
    o.handled = true ∧ o.store.timeEntered_a G_INDEX_Sub0 = s.timeEntered_a G_INDEX_Sub0 := by
  rcases event_p with ⟨tag⟩
  simp only [eventClassOf] at he
  subst he
  simp (disch := decide) [dispatchEvent_submachineTest0, or_root, or_Sub0, or_Sub0_child,
    basic_A__Sub0, eventClassOf, setAt_same, setAt_other, hS, h0,
    (by decide : L_INDEX_Sub0 ≠ L_INDEX_B)] at hd
  subst hd
  simp (disch := decide) [enter_B__Sub0, exit_A__Sub0, setAt_other]

end submachineTest0

namespace submachineTest1

theorem composite_time_kept_test1 (cb : callables_t) (event_p : event_t) (now : TIME_T)
    (s : Store) (o : outcome_t)
    (hd : dispatchEvent_submachineTest1 cb event_p now s = some o)
    (hS : s.currentChild_a OR_INDEX_root = L_INDEX_Sub1)
    (h0 : s.currentChild_a OR_INDEX_Sub1 = L_INDEX_U__Sub1)
    (he : eventClassOf event_p = .x) :
    o.handled = true ∧ o.store.timeEntered_a G_INDEX_Sub1 = s.timeEntered_a G_INDEX_Sub1 := by
  rcases event_p with ⟨tag⟩
  simp only [eventClassOf] at he
  subst he
  simp (disch := decide) [dispatchEvent_submachineTest1, or_root, or_Sub1, basic_U__Sub1,
    eventClassOf, setAt_same, setAt_other, hS, h0,
    (by decide : L_INDEX_Sub1 ≠ L_INDEX_B)] at hd
  subst hd
  simp (disch := decide) [enter_V__Sub1, exit_U__Sub1, setAt_other]

end submachineTest1

/-- C22: `timeEntered_a` is written only on entry.  For each of the three machines, every
store, event and `now` for which the dispatch returns, and every state `g`: if
`timeEntered_a[g]` after the dispatch differs from its value before, then `g` is active after
the dispatch and `timeEntered_a[g] = now`.  In particular a dispatch never changes
`timeEntered_a[root]` or `isIn_a[root]`, and a transition between two children of `Sub0`
(`TICK` in `A__Sub0`) or of `Sub1` (`x` in `U__Sub1`) is handled and leaves `timeEntered_a` of
the composite unchanged. -/
theorem timeEntered_written_only_on_entry :
    (∀ (cb : firstExample.callables_t) (event_p : firstExample.event_t) (now : TIME_T)
        (s : firstExample.Store) (o : firstExample.outcome_t),
      firstExample.dispatchEvent_firstExample cb event_p now s = some o →
      (∀ g, o.store.timeEntered_a g ≠ s.timeEntered_a g →
        o.store.isIn_a g = true ∧ o.store.timeEntered_a g = now) ∧
      o.store.timeEntered_a firstExample.G_INDEX_root
        = s.timeEntered_a firstExample.G_INDEX_root ∧
      o.store.isIn_a firstExample.G_INDEX_root = s.isIn_a firstExample.G_INDEX_root) ∧
    (∀ (event_p : submachineTest0.event_t) (now : TIME_T) (s : submachineTest0.Store)
        (o : submachineTest0.outcome_t),
      submachineTest0.dispatchEvent_submachineTest0 event_p now s = some o →
      ((∀ g, o.store.timeEntered_a g ≠ s.timeEntered_a g →
          o.store.isIn_a g = true ∧ o.store.timeEntered_a g = now) ∧
        o.store.timeEntered_a submachineTest0.G_INDEX_root
          = s.timeEntered_a submachineTest0.G_INDEX_root ∧
        o.store.isIn_a submachineTest0.G_INDEX_root
          = s.isIn_a submachineTest0.G_INDEX_root) ∧
      (s.currentChild_a submachineTest0.OR_INDEX_root = submachineTest0.L_INDEX_Sub0 →
        s.currentChild_a submachineTest0.OR_INDEX_Sub0 = submachineTest0.L_INDEX_A__Sub0 →
        submachineTest0.eventClassOf event_p = .TICK →
        o.handled = true ∧
        o.store.timeEntered_a submachineTest0.G_INDEX_Sub0
          = s.timeEntered_a submachineTest0.G_INDEX_Sub0)) ∧
    (∀ (cb : submachineTest1.callables_t) (event_p : submachineTest1.event_t) (now : TIME_T)
        (s : submachineTest1.Store) (o : submachineTest1.outcome_t),
      submachineTest1.dispatchEvent_submachineTest1 cb event_p now s = some o →
      ((∀ g, o.store.timeEntered_a g ≠ s.timeEntered_a g →
          o.store.isIn_a g = true ∧ o.store.timeEntered_a g = now) ∧
        o.store.timeEntered_a submachineTest1.G_INDEX_root
          = s.timeEntered_a submachineTest1.G_INDEX_root ∧
        o.store.isIn_a submachineTest1.G_INDEX_root
          = s.isIn_a submachineTest1.G_INDEX_root) ∧
      (s.currentChild_a submachineTest1.OR_INDEX_root = submachineTest1.L_INDEX_Sub1 →
        s.currentChild_a submachineTest1.OR_INDEX_Sub1 = submachineTest1.L_INDEX_U__Sub1 →
        submachineTest1.eventClassOf event_p = .x →
        o.handled = true ∧
        o.store.timeEntered_a submachineTest1.G_INDEX_Sub1
          = s.timeEntered_a submachineTest1.G_INDEX_Sub1)) :=
  ⟨firstExample.timeEntered_written_on_entry_firstExample,
    fun event_p now s o hd =>
      ⟨submachineTest0.timeEntered_written_on_entry_test0 event_p now s o hd,
        submachineTest0.composite_time_kept_test0 event_p now s o hd⟩,
    fun cb event_p now s o hd =>
      ⟨submachineTest1.timeEntered_written_on_entry_test1 cb event_p now s o hd,
        submachineTest1.composite_time_kept_test1 cb event_p now s o hd⟩⟩

theorem timeEntered_written_only_on_entry_witness :
    ((∀ g, (firstExample.enter_IDLE (-1) 9 (firstExample.exit_RUNNING (-1)
          (firstExample.runningStore 5))).timeEntered_a g
            ≠ (firstExample.runningStore 5).timeEntered_a g →
        (firstExample.enter_IDLE (-1) 9 (firstExample.exit_RUNNING (-1)
          (firstExample.runningStore 5))).isIn_a g = true ∧
        (firstExample.enter_IDLE (-1) 9 (firstExample.exit_RUNNING (-1)
          (firstExample.runningStore 5))).timeEntered_a g = 9) ∧
      (firstExample.enter_IDLE (-1) 9 (firstExample.exit_RUNNING (-1)
          (firstExample.runningStore 5))).timeEntered_a firstExample.G_INDEX_root
        = (firstExample.runningStore 5).timeEntered_a firstExample.G_INDEX_root ∧
      (firstExample.enter_IDLE (-1) 9 (firstExample.exit_RUNNING (-1)
          (firstExample.runningStore 5))).isIn_a firstExample.G_INDEX_root
        = (firstExample.runningStore 5).isIn_a firstExample.G_INDEX_root) ∧
    (true = true ∧
      (submachineTest0.enter_B__Sub0 (-1) 9 (submachineTest0.exit_A__Sub0 (-1)
          submachineTest0.storeSub0_A)).timeEntered_a submachineTest0.G_INDEX_Sub0
        = submachineTest0.storeSub0_A.timeEntered_a submachineTest0.G_INDEX_Sub0) ∧
    (true = true ∧
      (submachineTest1.enter_V__Sub1 (-1) 9 (submachineTest1.exit_U__Sub1 (-1)
          submachineTest1.storeSub1_U)).timeEntered_a submachineTest1.G_INDEX_Sub1
        = submachineTest1.storeSub1_U.timeEntered_a submachineTest1.G_INDEX_Sub1) :=
  ⟨timeEntered_written_only_on_entry.1 firstExample.readyCallables
      (firstExample.eventOf .KILL) 9 (firstExample.runningStore 5)
      ⟨true, firstExample.enter_IDLE (-1) 9
          (firstExample.exit_RUNNING (-1) (firstExample.runningStore 5)),
        [⟨.stop, OK_STATUS, firstExample.exit_RUNNING (-1) (firstExample.runningStore 5)⟩]⟩
      rfl,
    (timeEntered_written_only_on_entry.2.1 ⟨.TICK⟩ 9 submachineTest0.storeSub0_A
      ⟨true, submachineTest0.enter_B__Sub0 (-1) 9
        (submachineTest0.exit_A__Sub0 (-1) submachineTest0.storeSub0_A)⟩ rfl).2 rfl rfl rfl,
    (timeEntered_written_only_on_entry.2.2 submachineTest1.idCallables ⟨.x⟩ 9
      submachineTest1.storeSub1_U
      ⟨true, submachineTest1.enter_V__Sub1 (-1) 9
        (submachineTest1.exit_U__Sub1 (-1) submachineTest1.storeSub1_U), []⟩ rfl).2
      rfl rfl rfl⟩

/-- C23: for each of the three machines, every store on which the dispatch does not reach
`assertUnreachable`, every event and every `now`: if the dispatcher returns true, then
afterwards the basic state designated by the `currentChild_a` chain from the root has `isIn_a`
true and `timeEntered_a` equal to `now`, and so has every composite state (`root`, `Sub0`,
`Sub1`) that was inactive before the dispatch and is active after it. -/
theorem handled_dispatch_enters_fresh_leaf :
    (∀ (cb : firstExample.callables_t) (event_p : firstExample.event_t) (now : TIME_T)
        (s : firstExample.Store) (o : firstExample.outcome_t),
      firstExample.dispatchEvent_firstExample cb event_p now s = some o →
      o.handled = true →
      (∃ g, firstExample.activeLeaf o.store = some g ∧ o.store.isIn_a g = true ∧
        o.store.timeEntered_a g = now) ∧
      (s.isIn_a firstExample.G_INDEX_root = false →
        o.store.isIn_a firstExample.G_INDEX_root = true →
        o.store.timeEntered_a firstExample.G_INDEX_root = now)) ∧
    (∀ (event_p : submachineTest0.event_t) (now : TIME_T) (s : submachineTest0.Store)
        (o : submachineTest0.outcome_t),
      submachineTest0.dispatchEvent_submachineTest0 event_p now s = some o →
      o.handled = true →
      (∃ g, submachineTest0.activeLeaf o.store = some g ∧ o.store.isIn_a g = true ∧
        o.store.timeEntered_a g = now) ∧
      (s.isIn_a submachineTest0.G_INDEX_Sub0 = false →
        o.store.isIn_a submachineTest0.G_INDEX_Sub0 = true →
        o.store.timeEntered_a submachineTest0.G_INDEX_Sub0 = now) ∧
      (s.isIn_a submachineTest0.G_INDEX_root = false →
        o.store.isIn_a submachineTest0.G_INDEX_root = true →
        o.store.timeEntered_a submachineTest0.G_INDEX_root = now)) ∧
    (∀ (cb : submachineTest1.callables_t) (event_p : submachineTest1.event_t) (now : TIME_T)
        (s : submachineTest1.Store) (o : submachineTest1.outcome_t),
      submachineTest1.dispatchEvent_submachineTest1 cb event_p now s = some o →
      o.handled = true →
      (∃ g, submachineTest1.activeLeaf o.store = some g ∧ o.store.isIn_a g = true ∧
        o.store.timeEntered_a g = now) ∧
      (s.isIn_a submachineTest1.G_INDEX_Sub1 = false →
        o.store.isIn_a submachineTest1.G_INDEX_Sub1 = true →
        o.store.timeEntered_a submachineTest1.G_INDEX_Sub1 = now) ∧
      (s.isIn_a submachineTest1.G_INDEX_root = false →
        o.store.isIn_a submachineTest1.G_INDEX_root = true →
        o.store.timeEntered_a submachineTest1.G_INDEX_root = now)) :=
  ⟨firstExample.entered_leaf_is_fresh_firstExample,
    submachineTest0.entered_leaf_is_fresh_test0,
    submachineTest1.entered_leaf_is_fresh_test1⟩

theorem handled_dispatch_enters_fresh_leaf_witness :
    (∃ g, firstExample.activeLeaf (firstExample.enter_IDLE (-1) 9
          (firstExample.exit_RUNNING (-1) (firstExample.runningStore 5))) = some g ∧
        (firstExample.enter_IDLE (-1) 9 (firstExample.exit_RUNNING (-1)
          (firstExample.runningStore 5))).isIn_a g = true ∧
        (firstExample.enter_IDLE (-1) 9 (firstExample.exit_RUNNING (-1)
          (firstExample.runningStore 5))).timeEntered_a g = 9) ∧
    (∃ g, submachineTest0.activeLeaf (submachineTest0.enter_Sub0 (-1) 9
          (submachineTest0.exit_B (-1) submachineTest0.storeB)) = some g ∧
        (submachineTest0.enter_Sub0 (-1) 9
          (submachineTest0.exit_B (-1) submachineTest0.storeB)).isIn_a g = true ∧
        (submachineTest0.enter_Sub0 (-1) 9
          (submachineTest0.exit_B (-1) submachineTest0.storeB)).timeEntered_a g = 9) ∧
    ((submachineTest0.enter_Sub0 (-1) 9
          (submachineTest0.exit_B (-1) submachineTest0.storeB)).timeEntered_a
        submachineTest0.G_INDEX_Sub0 = 9) ∧
    (∃ g, submachineTest1.activeLeaf (submachineTest1.enter_U__Sub1 (-1) 9
          (submachineTest1.enter_Sub1 submachineTest1.L_INDEX_X__Sub1 9
            (submachineTest1.exit_A (-1) submachineTest1.storeA))) = some g ∧
        (submachineTest1.enter_U__Sub1 (-1) 9
          (submachineTest1.enter_Sub1 submachineTest1.L_INDEX_X__Sub1 9
            (submachineTest1.exit_A (-1) submachineTest1.storeA))).isIn_a g = true ∧
        (submachineTest1.enter_U__Sub1 (-1) 9
          (submachineTest1.enter_Sub1 submachineTest1.L_INDEX_X__Sub1 9
            (submachineTest1.exit_A (-1) submachineTest1.storeA))).timeEntered_a g = 9) :=
  ⟨(handled_dispatch_enters_fresh_leaf.1 firstExample.readyCallables
      (firstExample.eventOf .KILL) 9 (firstExample.runningStore 5)
      ⟨true, firstExample.enter_IDLE (-1) 9
          (firstExample.exit_RUNNING (-1) (firstExample.runningStore 5)),
        [⟨.stop, OK_STATUS, firstExample.exit_RUNNING (-1) (firstExample.runningStore 5)⟩]⟩
      rfl rfl).1,
    (handled_dispatch_enters_fresh_leaf.2.1 ⟨.Q⟩ 9 submachineTest0.storeB
      ⟨true, submachineTest0.enter_Sub0 (-1) 9
        (submachineTest0.exit_B (-1) submachineTest0.storeB)⟩ rfl rfl).1,
    (handled_dispatch_enters_fresh_leaf.2.1 ⟨.Q⟩ 9 submachineTest0.storeB
      ⟨true, submachineTest0.enter_Sub0 (-1) 9
        (submachineTest0.exit_B (-1) submachineTest0.storeB)⟩ rfl rfl).2.1 rfl rfl,
    (handled_dispatch_enters_fresh_leaf.2.2 submachineTest1.idCallables ⟨.P⟩ 9
      submachineTest1.storeA
      ⟨true, submachineTest1.enter_U__Sub1 (-1) 9
        (submachineTest1.enter_Sub1 submachineTest1.L_INDEX_X__Sub1 9
          (submachineTest1.exit_A (-1) submachineTest1.storeA)),
        [⟨.act1, OK_STATUS, submachineTest1.enter_Sub1 submachineTest1.L_INDEX_X__Sub1 9
          (submachineTest1.exit_A (-1) submachineTest1.storeA)⟩]⟩ rfl rfl).1⟩

/-! ## The traffic-light tables (C27, C28) -/

/-- C27, evaluated on the code: the list of `eastWestAmber` in `noEventHandlers.c` holds
`eastWestGreen2AllRed` and `eastWestAmber2NorthSouthGreen`, and both name `eastWestGreen` as
their source; so not every listed transition has the listing state as `pSource`, although
this does hold for the five other basic states. -/
theorem noEventHandlers_eastWestAmber_lists_foreign_sources :
    noEventHandlers.eastWestAmber.ppTransitions
      = [.eastWestGreen2AllRed, .eastWestAmber2NorthSouthGreen] ∧
    noEventHandlers.eastWestAmber.ppTransitions.map
        (fun t => (noEventHandlers.TransitionRef.deref t).pSource)
      = [.eastWestGreen, .eastWestGreen] ∧
    ¬ (∀ s ∈ noEventHandlers.basicStates,
        ∀ t ∈ (noEventHandlers.StateRef.deref s).ppTransitions,
          (noEventHandlers.TransitionRef.deref t).pSource = s) ∧
    (∀ s ∈ noEventHandlers.basicStates, s ≠ .eastWestAmber →
        ∀ t ∈ (noEventHandlers.StateRef.deref s).ppTransitions,
          (noEventHandlers.TransitionRef.deref t).pSource = s) := by
  refine ⟨rfl, rfl, ?_, ?_⟩
  · intro h
    have := h .eastWestAmber (by decide) .eastWestAmber2NorthSouthGreen (by decide)
    cases this
  · decide

/-- C28: the two traffic-light styles agree on the states that have event handlers.  For
`startState` and `northSouthGreen` and every event class, the transition that the handler of
`test.c` (`startStateEH`, `northSouthGreenEH`) stores into `*ppTransition` has the same source,
action and target as the first transition of that state's list in `noEventHandlers.c` whose
`eventClass` is the class of the event, and the handler leaves `*ppTransition` as it was
exactly when no transition of that list matches. -/
theorem handlers_agree_with_transition_lists (pEvent : StateCharts.EventT)
    (slot : Option StateCharts.TransitionRef) :
    (test.startState.pEventHandler = some .startStateEH ∧
      test.EventHandlerRef.deref .startStateEH = test.startStateEH ∧
      match noEventHandlers.firstMatching noEventHandlers.startState.ppTransitions
          pEvent.tag with
      | some r =>
        ∃ r', test.startStateEH pEvent slot = some r' ∧
          (test.TransitionRef.deref r').pSource
            = (noEventHandlers.TransitionRef.deref r).pSource ∧
          (test.TransitionRef.deref r').pAction
            = (noEventHandlers.TransitionRef.deref r).pAction ∧
          (test.TransitionRef.deref r').pTarget
            = (noEventHandlers.TransitionRef.deref r).pTarget
      | none => test.startStateEH pEvent slot = slot) ∧
    (test.northSouthGreen.pEventHandler = some .northSouthGreenEH ∧
      test.EventHandlerRef.deref .northSouthGreenEH = test.northSouthGreenEH ∧
      match noEventHandlers.firstMatching noEventHandlers.northSouthGreen.ppTransitions
          pEvent.tag with
      | some r =>
        ∃ r', test.northSouthGreenEH pEvent slot = some r' ∧
          (test.TransitionRef.deref r').pSource
            = (noEventHandlers.TransitionRef.deref r).pSource ∧
          (test.TransitionRef.deref r').pAction
            = (noEventHandlers.TransitionRef.deref r).pAction ∧
          (test.TransitionRef.deref r').pTarget
            = (noEventHandlers.TransitionRef.deref r).pTarget
      | none => test.northSouthGreenEH pEvent slot = slot) := by
  rcases pEvent with ⟨tag, time⟩
  cases tag
  · exact ⟨⟨rfl, rfl, _, rfl, rfl, rfl, rfl⟩, ⟨rfl, rfl, rfl⟩⟩
  · exact ⟨⟨rfl, rfl, rfl⟩, ⟨rfl, rfl, _, rfl, rfl, rfl, rfl⟩⟩
  · exact ⟨⟨rfl, rfl, rfl⟩, ⟨rfl, rfl, _, rfl, rfl, rfl, rfl⟩⟩
  · exact ⟨⟨rfl, rfl, rfl⟩, ⟨rfl, rfl, rfl⟩⟩

/-! ## Every array access is inside its array (C26)

The invariant `Run.keeps` is shown for the primitives, where the subscript has to be below the
size of the array, carried through sequencing and branching, and then through every block and
routine of the three files in the order of their call graph. -/

namespace Checked

theorem keeps_pure {α : Type} (n k : Nat) (a : α) : Run.keeps n k (pure a : Run α) :=
  fun _ h => h

theorem keeps_bind {α β : Type} (n k : Nat) (x : Run α) (f : α → Run β)
    (hx : Run.keeps n k x) (hf : ∀ a, Run.keeps n k (f a)) : Run.keeps n k (x >>= f) := by
  intro m hm
  have h1 := hx m hm
  show (Run.bind x f m).2.safe n k
  unfold Run.bind
  rcases hxm : x m with ⟨_ | a, m'⟩
  · rw [hxm] at h1
    exact h1
  · rw [hxm] at h1
    exact hf a m' h1

theorem keeps_ite {α : Type} (n k : Nat) (c : Prop) [Decidable c] (x y : Run α)
    (hx : Run.keeps n k x) (hy : Run.keeps n k y) : Run.keeps n k (if c then x else y) := by
  split
  · exact hx
  · exact hy

theorem safe_log (n k : Nat) (m : Memory) (a : array_t) (i : Nat) (hm : m.safe n k)
    (hi : access_t.inBounds n k ⟨a, i⟩) : (m.log a i).safe n k := by
  obtain ⟨h1, h2, h3, h4, h5⟩ := hm
  refine ⟨h1, h2, h3, h4, ?_⟩
  intro b hb
  rcases List.mem_append.mp hb with hb | hb
  · exact h5 b hb
  · rw [List.mem_singleton.mp hb]
    exact hi

theorem keeps_assertUnreachable (n k : Nat) : Run.keeps n k assertUnreachable :=
  fun _ h => h

theorem keeps_getCurrentChild (n k i : Nat) (hi : i < k) :
    Run.keeps n k (getCurrentChild i) :=
  fun m hm => safe_log n k m .currentChild_a i hm hi

theorem keeps_setCurrentChild (n k i : Nat) (v : LOCAL_INDEX_T) (hi : i < k) :
    Run.keeps n k (setCurrentChild i v) := by
  intro m hm
  obtain ⟨h1, h2, h3, h4, h5⟩ := safe_log n k m .currentChild_a i hm hi
  exact ⟨by simp [setCurrentChild, Memory.log, hm.1], h2, h3, h4, h5⟩

theorem keeps_setIsIn (n k i : Nat) (v : Bool) (hi : i < n) :
    Run.keeps n k (setIsIn i v) := by
  intro m hm
  obtain ⟨h1, h2, h3, h4, h5⟩ := safe_log n k m .isIn_a i hm hi
  exact ⟨h1, by simp [setIsIn, Memory.log, hm.2.1], h3, h4, h5⟩

theorem keeps_getTimeEntered (n k i : Nat) (hi : i < n) :
    Run.keeps n k (getTimeEntered i) :=
  fun m hm => safe_log n k m .timeEntered_a i hm hi

theorem keeps_setTimeEntered (n k i : Nat) (v : TIME_T) (hi : i < n) :
    Run.keeps n k (setTimeEntered i v) := by
  intro m hm
  obtain ⟨h1, h2, h3, h4, h5⟩ := safe_log n k m .timeEntered_a i hm hi
  exact ⟨h1, h2, by simp [setTimeEntered, Memory.log, hm.2.2.1], h4, h5⟩

theorem keeps_getHandled (n k i : Nat) (hi : i < n) : Run.keeps n k (getHandled i) :=
  fun m hm => safe_log n k m .handled_a i hm hi

theorem keeps_setHandled (n k i : Nat) (v : Bool) (hi : i < n) :
    Run.keeps n k (setHandled i v) := by
  intro m hm
  obtain ⟨h1, h2, h3, h4, h5⟩ := safe_log n k m .handled_a i hm hi
  exact ⟨h1, h2, h3, by simp [setHandled, Memory.log, hm.2.2.2.1], h5⟩

theorem keeps_declareHandled (n k : Nat) : Run.keeps n k (declareHandled n) := by
  intro m hm
  obtain ⟨h1, h2, h3, -, h5⟩ := hm
  exact ⟨h1, h2, h3, by simp [declareHandled], h5⟩

end Checked

namespace firstExample.checked

open Checked

theorem keeps_enter_IDLE (childIndex : LOCAL_INDEX_T) (now : TIME_T) :
    Run.keeps STATE_COUNT OR_STATE_COUNT (enter_IDLE childIndex now) := by
  unfold enter_IDLE
  with_reducible repeat' first
    | exact keeps_setIsIn _ _ _ _ (by decide)
    | exact keeps_setTimeEntered _ _ _ _ (by decide)
    | exact keeps_setCurrentChild _ _ _ _ (by decide)
    | refine keeps_bind _ _ _ _ ?_ (fun _ => ?_)

theorem keeps_exit_IDLE (childIndex : LOCAL_INDEX_T) :
    Run.keeps STATE_COUNT OR_STATE_COUNT (exit_IDLE childIndex) := by
  unfold exit_IDLE
  exact keeps_setIsIn _ _ _ _ (by decide)

theorem keeps_enter_RUNNING (childIndex : LOCAL_INDEX_T) (now : TIME_T) :
    Run.keeps STATE_COUNT OR_STATE_COUNT (enter_RUNNING childIndex now) := by
  unfold enter_RUNNING
  with_reducible repeat' first
    | exact keeps_setIsIn _ _ _ _ (by decide)
    | exact keeps_setTimeEntered _ _ _ _ (by decide)
    | exact keeps_setCurrentChild _ _ _ _ (by decide)
    | refine keeps_bind _ _ _ _ ?_ (fun _ => ?_)

theorem keeps_exit_RUNNING (childIndex : LOCAL_INDEX_T) :
    Run.keeps STATE_COUNT OR_STATE_COUNT (exit_RUNNING childIndex) := by
  unfold exit_RUNNING
  exact keeps_setIsIn _ _ _ _ (by decide)

theorem keeps_enter_root (childIndex : LOCAL_INDEX_T) (now : TIME_T) :
    Run.keeps STATE_COUNT OR_STATE_COUNT (enter_root childIndex now) := by
  unfold enter_root
  with_reducible repeat' first
    | exact keeps_pure _ _ _
    | exact keeps_setIsIn _ _ _ _ (by decide)
    | exact keeps_setTimeEntered _ _ _ _ (by decide)
    | exact keeps_enter_IDLE _ _
    | refine keeps_bind _ _ _ _ ?_ (fun _ => ?_)
    | apply keeps_ite

theorem keeps_initStateMachine_firstExample (now : TIME_T) :
    Run.keeps STATE_COUNT OR_STATE_COUNT (initStateMachine_firstExample now) := by
  unfold initStateMachine_firstExample
  exact keeps_enter_root _ _

theorem keeps_basic_IDLE (cb : callables_t) (event_p : event_t) (now : TIME_T) :
    Run.keeps STATE_COUNT OR_STATE_COUNT (basic_IDLE cb event_p now) := by
  unfold basic_IDLE
  with_reducible repeat' first
    | exact keeps_pure _ _ _
    | exact keeps_setHandled _ _ _ _ (by decide)
    | exact keeps_enter_IDLE _ _
    | exact keeps_exit_IDLE _
    | exact keeps_enter_RUNNING _ _
    | refine keeps_bind _ _ _ _ ?_ (fun _ => ?_)
    | apply keeps_ite
    | split

theorem keeps_basic_RUNNING (cb : callables_t) (event_p : event_t) (now : TIME_T) :
    Run.keeps STATE_COUNT OR_STATE_COUNT (basic_RUNNING cb event_p now) := by
  unfold basic_RUNNING
  with_reducible repeat' first
    | exact keeps_pure _ _ _
    | exact keeps_getTimeEntered _ _ _ (by decide)
    | exact keeps_setHandled _ _ _ _ (by decide)
    | exact keeps_getHandled _ _ _ (by decide)
    | exact keeps_enter_IDLE _ _
    | exact keeps_exit_RUNNING _
    | refine keeps_bind _ _ _ _ ?_ (fun _ => ?_)
    | apply keeps_ite
    | split

theorem keeps_or_root (cb : callables_t) (event_p : event_t) (now : TIME_T) :
    Run.keeps STATE_COUNT OR_STATE_COUNT (or_root cb event_p now) := by
  unfold or_root
  with_reducible repeat' first
    | exact keeps_assertUnreachable _ _
    | exact keeps_getCurrentChild _ _ _ (by decide)
    | exact keeps_setHandled _ _ _ _ (by decide)
    | exact keeps_getHandled _ _ _ (by decide)
    | exact keeps_basic_IDLE _ _ _
    | exact keeps_basic_RUNNING _ _ _
    | refine keeps_bind _ _ _ _ ?_ (fun _ => ?_)
    | apply keeps_ite

theorem keeps_dispatchEvent_firstExample (cb : callables_t) (event_p : event_t) (now : TIME_T) :
    Run.keeps STATE_COUNT OR_STATE_COUNT (dispatchEvent_firstExample cb event_p now) := by
  unfold dispatchEvent_firstExample
  with_reducible repeat' first
    | exact keeps_declareHandled _ _
    | exact keeps_getHandled _ _ _ (by decide)
    | exact keeps_or_root _ _ _
    | refine keeps_bind _ _ _ _ ?_ (fun _ => ?_)

end firstExample.checked

namespace submachineTest0.checked

open Checked

theorem keeps_enter_A__Sub0_test0 (childIndex : LOCAL_INDEX_T) (now : TIME_T) :
    Run.keeps STATE_COUNT OR_STATE_COUNT (enter_A__Sub0 childIndex now) := by
  unfold enter_A__Sub0
  with_reducible repeat' first
    | exact keeps_setIsIn _ _ _ _ (by decide)
    | exact keeps_setTimeEntered _ _ _ _ (by decide)
    | exact keeps_setCurrentChild _ _ _ _ (by decide)
    | refine keeps_bind _ _ _ _ ?_ (fun _ => ?_)

theorem keeps_exit_A__Sub0_test0 (childIndex : LOCAL_INDEX_T) :
    Run.keeps STATE_COUNT OR_STATE_COUNT (exit_A__Sub0 childIndex) := by
  unfold exit_A__Sub0
  exact keeps_setIsIn _ _ _ _ (by decide)

theorem keeps_enter_B__Sub0_test0 (childIndex : LOCAL_INDEX_T) (now : TIME_T) :
    Run.keeps STATE_COUNT OR_STATE_COUNT (enter_B__Sub0 childIndex now) := by
  unfold enter_B__Sub0
  with_reducible repeat' first
    | exact keeps_setIsIn _ _ _ _ (by decide)
    | exact keeps_setTimeEntered _ _ _ _ (by decide)
    | exact keeps_setCurrentChild _ _ _ _ (by decide)
    | refine keeps_bind _ _ _ _ ?_ (fun _ => ?_)

theorem keeps_exit_B__Sub0_test0 (childIndex : LOCAL_INDEX_T) :
    Run.keeps STATE_COUNT OR_STATE_COUNT (exit_B__Sub0 childIndex) := by
  unfold exit_B__Sub0
  exact keeps_setIsIn _ _ _ _ (by decide)

theorem keeps_enter_A_test0 (childIndex : LOCAL_INDEX_T) (now : TIME_T) :
    Run.keeps STATE_COUNT OR_STATE_COUNT (enter_A childIndex now) := by
  unfold enter_A
  with_reducible repeat' first
    | exact keeps_setIsIn _ _ _ _ (by decide)
    | exact keeps_setTimeEntered _ _ _ _ (by decide)
    | exact keeps_setCurrentChild _ _ _ _ (by decide)
    | refine keeps_bind _ _ _ _ ?_ (fun _ => ?_)

theorem keeps_exit_A_test0 (childIndex : LOCAL_INDEX_T) :
    Run.keeps STATE_COUNT OR_STATE_COUNT (exit_A childIndex) := by
  unfold exit_A
  exact keeps_setIsIn _ _ _ _ (by decide)

theorem keeps_enter_B_test0 (childIndex : LOCAL_INDEX_T) (now : TIME_T) :
    Run.keeps STATE_COUNT OR_STATE_COUNT (enter_B childIndex now) := by
  unfold enter_B
  with_reducible repeat' first
    | exact keeps_setIsIn _ _ _ _ (by decide)
    | exact keeps_setTimeEntered _ _ _ _ (by decide)
    | exact keeps_setCurrentChild _ _ _ _ (by decide)
    | refine keeps_bind _ _ _ _ ?_ (fun _ => ?_)

theorem keeps_exit_B_test0 (childIndex : LOCAL_INDEX_T) :
    Run.keeps STATE_COUNT OR_STATE_COUNT (exit_B childIndex) := by
  unfold exit_B
  exact keeps_setIsIn _ _ _ _ (by decide)

theorem keeps_enter_Sub0_test0 (childIndex : LOCAL_INDEX_T) (now : TIME_T) :
    Run.keeps STATE_COUNT OR_STATE_COUNT (enter_Sub0 childIndex now) := by
  unfold enter_Sub0
  with_reducible repeat' first
    | exact keeps_pure _ _ _
    | exact keeps_setIsIn _ _ _ _ (by decide)
    | exact keeps_setTimeEntered _ _ _ _ (by decide)
    | exact keeps_setCurrentChild _ _ _ _ (by decide)
    | exact keeps_enter_A__Sub0_test0 _ _
    | refine keeps_bind _ _ _ _ ?_ (fun _ => ?_)
    | apply keeps_ite

theorem keeps_exit_Sub0_child_test0 :
    Run.keeps STATE_COUNT OR_STATE_COUNT (exit_Sub0_child) := by
  unfold exit_Sub0_child
  with_reducible repeat' first
    | exact keeps_assertUnreachable _ _
    | exact keeps_getCurrentChild _ _ _ (by decide)
    | exact keeps_exit_A__Sub0_test0 _
    | exact keeps_exit_B__Sub0_test0 _
    | refine keeps_bind _ _ _ _ ?_ (fun _ => ?_)
    | apply keeps_ite

theorem keeps_exit_Sub0_test0 (childIndex : LOCAL_INDEX_T) :
    Run.keeps STATE_COUNT OR_STATE_COUNT (exit_Sub0 childIndex) := by
  unfold exit_Sub0
  with_reducible repeat' first
    | exact keeps_pure _ _ _
    | exact keeps_setIsIn _ _ _ _ (by decide)
    | exact keeps_exit_Sub0_child_test0
    | refine keeps_bind _ _ _ _ ?_ (fun _ => ?_)
    | apply keeps_ite

theorem keeps_enter_root_test0 (childIndex : LOCAL_INDEX_T) (now : TIME_T) :
    Run.keeps STATE_COUNT OR_STATE_COUNT (enter_root childIndex now) := by
  unfold enter_root
  with_reducible repeat' first
    | exact keeps_pure _ _ _
    | exact keeps_setIsIn _ _ _ _ (by decide)
    | exact keeps_setTimeEntered _ _ _ _ (by decide)
    | exact keeps_enter_A_test0 _ _
    | refine keeps_bind _ _ _ _ ?_ (fun _ => ?_)
    | apply keeps_ite

theorem keeps_initStateMachine_submachineTest0 (now : TIME_T) :
    Run.keeps STATE_COUNT OR_STATE_COUNT (initStateMachine_submachineTest0 now) := by
  unfold initStateMachine_submachineTest0
  exact keeps_enter_root_test0 _ _

theorem keeps_basic_B_test0 (event_p : event_t) (now : TIME_T) :
    Run.keeps STATE_COUNT OR_STATE_COUNT (basic_B event_p now) := by
  unfold basic_B
  with_reducible repeat' first
    | exact keeps_pure _ _ _
    | exact keeps_setHandled _ _ _ _ (by decide)
    | exact keeps_exit_B_test0 _
    | exact keeps_enter_Sub0_test0 _ _
    | refine keeps_bind _ _ _ _ ?_ (fun _ => ?_)
    | split

theorem keeps_basic_A__Sub0_test0 (event_p : event_t) (now : TIME_T) :
    Run.keeps STATE_COUNT OR_STATE_COUNT (basic_A__Sub0 event_p now) := by
  unfold basic_A__Sub0
  with_reducible repeat' first
    | exact keeps_pure _ _ _
    | exact keeps_setHandled _ _ _ _ (by decide)
    | exact keeps_getHandled _ _ _ (by decide)
    | exact keeps_exit_A__Sub0_test0 _
    | exact keeps_enter_B__Sub0_test0 _ _
    | refine keeps_bind _ _ _ _ ?_ (fun _ => ?_)
    | apply keeps_ite
    | split

theorem keeps_basic_B__Sub0_test0 (event_p : event_t) (now : TIME_T) :
    Run.keeps STATE_COUNT OR_STATE_COUNT (basic_B__Sub0 event_p now) := by
  unfold basic_B__Sub0
  exact keeps_pure _ _ _

theorem keeps_basic_A_test0 (event_p : event_t) (now : TIME_T) :
    Run.keeps STATE_COUNT OR_STATE_COUNT (basic_A event_p now) := by
  unfold basic_A
  with_reducible repeat' first
    | exact keeps_pure _ _ _
    | exact keeps_setHandled _ _ _ _ (by decide)
    | exact keeps_exit_A_test0 _
    | exact keeps_enter_B_test0 _ _
    | refine keeps_bind _ _ _ _ ?_ (fun _ => ?_)
    | split

theorem keeps_or_Sub0_child_test0 (event_p : event_t) (now : TIME_T) :
    Run.keeps STATE_COUNT OR_STATE_COUNT (or_Sub0_child event_p now) := by
  unfold or_Sub0_child
  with_reducible repeat' first
    | exact keeps_assertUnreachable _ _
    | exact keeps_getCurrentChild _ _ _ (by decide)
    | exact keeps_setHandled _ _ _ _ (by decide)
    | exact keeps_getHandled _ _ _ (by decide)
    | exact keeps_basic_A__Sub0_test0 _ _
    | exact keeps_basic_B__Sub0_test0 _ _
    | refine keeps_bind _ _ _ _ ?_ (fun _ => ?_)
    | apply keeps_ite

theorem keeps_own_Sub0_test0 (event_p : event_t) (now : TIME_T) :
    Run.keeps STATE_COUNT OR_STATE_COUNT (own_Sub0 event_p now) := by
  unfold own_Sub0
  with_reducible repeat' first
    | exact keeps_pure _ _ _
    | exact keeps_setHandled _ _ _ _ (by decide)
    | exact keeps_enter_A_test0 _ _
    | exact keeps_exit_Sub0_test0 _
    | refine keeps_bind _ _ _ _ ?_ (fun _ => ?_)
    | split

theorem keeps_or_Sub0_test0 (event_p : event_t) (now : TIME_T) :
    Run.keeps STATE_COUNT OR_STATE_COUNT (or_Sub0 event_p now) := by
  unfold or_Sub0
  with_reducible repeat' first
    | exact keeps_pure _ _ _
    | exact keeps_getHandled _ _ _ (by decide)
    | exact keeps_or_Sub0_child_test0 _ _
    | exact keeps_own_Sub0_test0 _ _
    | refine keeps_bind _ _ _ _ ?_ (fun _ => ?_)
    | apply keeps_ite

theorem keeps_or_root_test0 (event_p : event_t) (now : TIME_T) :
    Run.keeps STATE_COUNT OR_STATE_COUNT (or_root event_p now) := by
  unfold or_root
  with_reducible repeat' first
    | exact keeps_assertUnreachable _ _
    | exact keeps_getCurrentChild _ _ _ (by decide)
    | exact keeps_setHandled _ _ _ _ (by decide)
    | exact keeps_getHandled _ _ _ (by decide)
    | exact keeps_basic_B_test0 _ _
    | exact keeps_basic_A_test0 _ _
    | exact keeps_or_Sub0_test0 _ _
    | refine keeps_bind _ _ _ _ ?_ (fun _ => ?_)
    | apply keeps_ite

theorem keeps_dispatchEvent_submachineTest0 (event_p : event_t) (now : TIME_T) :
    Run.keeps STATE_COUNT OR_STATE_COUNT (dispatchEvent_submachineTest0 event_p now) := by
  unfold dispatchEvent_submachineTest0
  with_reducible repeat' first
    | exact keeps_declareHandled _ _
    | exact keeps_getHandled _ _ _ (by decide)
    | exact keeps_or_root_test0 _ _
    | refine keeps_bind _ _ _ _ ?_ (fun _ => ?_)

end submachineTest0.checked

namespace submachineTest1.checked

open Checked

theorem keeps_enter_B_test1 (childIndex : LOCAL_INDEX_T) (now : TIME_T) :
    Run.keeps STATE_COUNT OR_STATE_COUNT (enter_B childIndex now) := by
  unfold enter_B
  with_reducible repeat' first
    | exact keeps_setIsIn _ _ _ _ (by decide)
    | exact keeps_setTimeEntered _ _ _ _ (by decide)
    | exact keeps_setCurrentChild _ _ _ _ (by decide)
    | refine keeps_bind _ _ _ _ ?_ (fun _ => ?_)

theorem keeps_exit_B_test1 (childIndex : LOCAL_INDEX_T) :
    Run.keeps STATE_COUNT OR_STATE_COUNT (exit_B childIndex) := by
  unfold exit_B
  exact keeps_setIsIn _ _ _ _ (by decide)

theorem keeps_enter_V__Sub1_test1 (childIndex : LOCAL_INDEX_T) (now : TIME_T) :
    Run.keeps STATE_COUNT OR_STATE_COUNT (enter_V__Sub1 childIndex now) := by
  unfold enter_V__Sub1
  with_reducible repeat' first
    | exact keeps_setIsIn _ _ _ _ (by decide)
    | exact keeps_setTimeEntered _ _ _ _ (by decide)
    | exact keeps_setCurrentChild _ _ _ _ (by decide)
    | refine keeps_bind _ _ _ _ ?_ (fun _ => ?_)

theorem keeps_exit_V__Sub1_test1 (childIndex : LOCAL_INDEX_T) :
    Run.keeps STATE_COUNT OR_STATE_COUNT (exit_V__Sub1 childIndex) := by
  unfold exit_V__Sub1
  exact keeps_setIsIn _ _ _ _ (by decide)

theorem keeps_enter_U__Sub1_test1 (childIndex : LOCAL_INDEX_T) (now : TIME_T) :
    Run.keeps STATE_COUNT OR_STATE_COUNT (enter_U__Sub1 childIndex now) := by
  unfold enter_U__Sub1
  with_reducible repeat' first
    | exact keeps_setIsIn _ _ _ _ (by decide)
    | exact keeps_setTimeEntered _ _ _ _ (by decide)
    | exact keeps_setCurrentChild _ _ _ _ (by decide)
    | refine keeps_bind _ _ _ _ ?_ (fun _ => ?_)

theorem keeps_exit_U__Sub1_test1 (childIndex : LOCAL_INDEX_T) :
    Run.keeps STATE_COUNT OR_STATE_COUNT (exit_U__Sub1 childIndex) := by
  unfold exit_U__Sub1
  exact keeps_setIsIn _ _ _ _ (by decide)

theorem keeps_enter_A_test1 (childIndex : LOCAL_INDEX_T) (now : TIME_T) :
    Run.keeps STATE_COUNT OR_STATE_COUNT (enter_A childIndex now) := by
  unfold enter_A
  with_reducible repeat' first
    | exact keeps_setIsIn _ _ _ _ (by decide)
    | exact keeps_setTimeEntered _ _ _ _ (by decide)
    | exact keeps_setCurrentChild _ _ _ _ (by decide)
    | refine keeps_bind _ _ _ _ ?_ (fun _ => ?_)

theorem keeps_exit_A_test1 (childIndex : LOCAL_INDEX_T) :
    Run.keeps STATE_COUNT OR_STATE_COUNT (exit_A childIndex) := by
  unfold exit_A
  exact keeps_setIsIn _ _ _ _ (by decide)

theorem keeps_enter_Sub1_test1 (childIndex : LOCAL_INDEX_T) (now : TIME_T) :
    Run.keeps STATE_COUNT OR_STATE_COUNT (enter_Sub1 childIndex now) := by
  unfold enter_Sub1
  with_reducible repeat' first
    | exact keeps_pure _ _ _
    | exact keeps_setIsIn _ _ _ _ (by decide)
    | exact keeps_setTimeEntered _ _ _ _ (by decide)
    | exact keeps_setCurrentChild _ _ _ _ (by decide)
    | exact keeps_enter_U__Sub1_test1 _ _
    | refine keeps_bind _ _ _ _ ?_ (fun _ => ?_)
    | apply keeps_ite

theorem keeps_exit_Sub1_child_test1 :
    Run.keeps STATE_COUNT OR_STATE_COUNT (exit_Sub1_child) := by
  unfold exit_Sub1_child
  with_reducible repeat' first
    | exact keeps_assertUnreachable _ _
    | exact keeps_getCurrentChild _ _ _ (by decide)
    | exact keeps_exit_V__Sub1_test1 _
    | exact keeps_exit_U__Sub1_test1 _
    | refine keeps_bind _ _ _ _ ?_ (fun _ => ?_)
    | apply keeps_ite

theorem keeps_exit_Sub1_test1 (childIndex : LOCAL_INDEX_T) :
    Run.keeps STATE_COUNT OR_STATE_COUNT (exit_Sub1 childIndex) := by
  unfold exit_Sub1
  with_reducible repeat' first
    | exact keeps_pure _ _ _
    | exact keeps_setIsIn _ _ _ _ (by decide)
    | exact keeps_exit_Sub1_child_test1
    | refine keeps_bind _ _ _ _ ?_ (fun _ => ?_)
    | apply keeps_ite

theorem keeps_enter_root_test1 (childIndex : LOCAL_INDEX_T) (now : TIME_T) :
    Run.keeps STATE_COUNT OR_STATE_COUNT (enter_root childIndex now) := by
  unfold enter_root
  with_reducible repeat' first
    | exact keeps_pure _ _ _
    | exact keeps_setIsIn _ _ _ _ (by decide)
    | exact keeps_setTimeEntered _ _ _ _ (by decide)
    | exact keeps_enter_A_test1 _ _
    | refine keeps_bind _ _ _ _ ?_ (fun _ => ?_)
    | apply keeps_ite

theorem keeps_initStateMachine_submachineTest1 (now : TIME_T) :
    Run.keeps STATE_COUNT OR_STATE_COUNT (initStateMachine_submachineTest1 now) := by
  unfold initStateMachine_submachineTest1
  exact keeps_enter_root_test1 _ _

theorem keeps_basic_B_test1 (event_p : event_t) (now : TIME_T) :
    Run.keeps STATE_COUNT OR_STATE_COUNT (basic_B event_p now) := by
  unfold basic_B
  with_reducible repeat' first
    | exact keeps_pure _ _ _
    | exact keeps_setHandled _ _ _ _ (by decide)
    | exact keeps_getHandled _ _ _ (by decide)
    | exact keeps_exit_B_test1 _
    | exact keeps_enter_A_test1 _ _
    | refine keeps_bind _ _ _ _ ?_ (fun _ => ?_)
    | apply keeps_ite
    | split

theorem keeps_basic_U__Sub1_test1 (event_p : event_t) (now : TIME_T) :
    Run.keeps STATE_COUNT OR_STATE_COUNT (basic_U__Sub1 event_p now) := by
  unfold basic_U__Sub1
  with_reducible repeat' first
    | exact keeps_pure _ _ _
    | exact keeps_setHandled _ _ _ _ (by decide)
    | exact keeps_enter_V__Sub1_test1 _ _
    | exact keeps_exit_U__Sub1_test1 _
    | refine keeps_bind _ _ _ _ ?_ (fun _ => ?_)
    | split

theorem keeps_basic_V__Sub1_test1 (event_p : event_t) (now : TIME_T) :
    Run.keeps STATE_COUNT OR_STATE_COUNT (basic_V__Sub1 event_p now) := by
  unfold basic_V__Sub1
  with_reducible repeat' first
    | exact keeps_pure _ _ _
    | exact keeps_setHandled _ _ _ _ (by decide)
    | exact keeps_enter_B_test1 _ _
    | exact keeps_exit_V__Sub1_test1 _
    | exact keeps_exit_Sub1_test1 _
    | refine keeps_bind _ _ _ _ ?_ (fun _ => ?_)
    | split

theorem keeps_basic_A_test1 (cb : callables_t) (event_p : event_t) (now : TIME_T) :
    Run.keeps STATE_COUNT OR_STATE_COUNT (basic_A cb event_p now) := by
  unfold basic_A
  with_reducible repeat' first
    | exact keeps_pure _ _ _
    | exact keeps_setHandled _ _ _ _ (by decide)
    | exact keeps_enter_U__Sub1_test1 _ _
    | exact keeps_exit_A_test1 _
    | exact keeps_enter_Sub1_test1 _ _
    | refine keeps_bind _ _ _ _ ?_ (fun _ => ?_)
    | split

theorem keeps_or_Sub1_test1 (event_p : event_t) (now : TIME_T) :
    Run.keeps STATE_COUNT OR_STATE_COUNT (or_Sub1 event_p now) := by
  unfold or_Sub1
  with_reducible repeat' first
    | exact keeps_assertUnreachable _ _
    | exact keeps_getCurrentChild _ _ _ (by decide)
    | exact keeps_setHandled _ _ _ _ (by decide)
    | exact keeps_getHandled _ _ _ (by decide)
    | exact keeps_basic_U__Sub1_test1 _ _
    | exact keeps_basic_V__Sub1_test1 _ _
    | refine keeps_bind _ _ _ _ ?_ (fun _ => ?_)
    | apply keeps_ite

theorem keeps_or_root_test1 (cb : callables_t) (event_p : event_t) (now : TIME_T) :
    Run.keeps STATE_COUNT OR_STATE_COUNT (or_root cb event_p now) := by
  unfold or_root
  with_reducible repeat' first
    | exact keeps_assertUnreachable _ _
    | exact keeps_getCurrentChild _ _ _ (by decide)
    | exact keeps_setHandled _ _ _ _ (by decide)
    | exact keeps_getHandled _ _ _ (by decide)
    | exact keeps_basic_B_test1 _ _
    | exact keeps_basic_A_test1 _ _ _
    | exact keeps_or_Sub1_test1 _ _
    | refine keeps_bind _ _ _ _ ?_ (fun _ => ?_)
    | apply keeps_ite

theorem keeps_dispatchEvent_submachineTest1 (cb : callables_t) (event_p : event_t) (now : TIME_T) :
    Run.keeps STATE_COUNT OR_STATE_COUNT (dispatchEvent_submachineTest1 cb event_p now) := by
  unfold dispatchEvent_submachineTest1
  with_reducible repeat' first
    | exact keeps_declareHandled _ _
    | exact keeps_getHandled _ _ _ (by decide)
    | exact keeps_or_root_test1 _ _ _
    | refine keeps_bind _ _ _ _ ?_ (fun _ => ?_)

end submachineTest1.checked

namespace Checked

theorem safe_zero (n k : Nat) : (Memory.zero n k).safe n k := by
  simp [Memory.zero, Memory.safe]

end Checked

/-- The invariant tells subscripts apart: `currentChild_a` has `OR_STATE_COUNT` = 1 element in
firstExample, so reading it at the global index of the basic state `IDLE` would be an access
outside the array. -/
theorem keeps_fails_outside_the_array :
    ¬ Checked.Run.keeps firstExample.STATE_COUNT firstExample.OR_STATE_COUNT
        (Checked.getCurrentChild firstExample.checked.G_INDEX_IDLE) := by
  intro h
  have h5 := (h (Checked.Memory.zero 3 1) (Checked.safe_zero 3 1)).2.2.2.2
    ⟨.currentChild_a, 1⟩ (by simp [Checked.getCurrentChild, Checked.Memory.log,
      Checked.Memory.zero, firstExample.checked.G_INDEX_IDLE])
  exact Nat.lt_irrefl 1 h5

/-- C26: every array access is in bounds.  In the reading with logged accesses, each of init,
dispatch, `enter_*` and `exit_*` of the three machines, run with any arguments from any memory
whose arrays have the declared sizes and whose log is in bounds, leaves such a memory, whether
it returns or stops at `assertUnreachable()`: every subscript it used into `isIn_a`,
`timeEntered_a` and `handled_a` is below `STATE_COUNT` and every subscript it used into
`currentChild_a` is below `OR_STATE_COUNT`.  The subscripts below `STATE_COUNT` are exactly the
global indices of the states, and those below `OR_STATE_COUNT` exactly the global indices of the
composite states: root = 0 with `OR_STATE_COUNT` 1 in firstExample; `Sub0`/`Sub1` = 0 and
root = 1 with `OR_STATE_COUNT` 2 in the submachine tests. -/
theorem every_array_access_in_bounds :
    ((∀ i : Nat, i < firstExample.STATE_COUNT ↔
        i ∈ [firstExample.checked.G_INDEX_root, firstExample.checked.G_INDEX_IDLE,
          firstExample.checked.G_INDEX_RUNNING]) ∧
      (∀ i : Nat, i < firstExample.OR_STATE_COUNT ↔ i ∈ [firstExample.checked.G_INDEX_root]) ∧
      firstExample.checked.G_INDEX_root = 0 ∧ firstExample.OR_STATE_COUNT = 1 ∧
      (∀ now, Checked.Run.keeps firstExample.STATE_COUNT firstExample.OR_STATE_COUNT
        (firstExample.checked.initStateMachine_firstExample now)) ∧
      (∀ cb event_p now, Checked.Run.keeps firstExample.STATE_COUNT firstExample.OR_STATE_COUNT
        (firstExample.checked.dispatchEvent_firstExample cb event_p now)) ∧
      (∀ c now, Checked.Run.keeps firstExample.STATE_COUNT firstExample.OR_STATE_COUNT
        (firstExample.checked.enter_root c now)) ∧
      (∀ c now, Checked.Run.keeps firstExample.STATE_COUNT firstExample.OR_STATE_COUNT
        (firstExample.checked.enter_IDLE c now)) ∧
      (∀ c, Checked.Run.keeps firstExample.STATE_COUNT firstExample.OR_STATE_COUNT
        (firstExample.checked.exit_IDLE c)) ∧
      (∀ c now, Checked.Run.keeps firstExample.STATE_COUNT firstExample.OR_STATE_COUNT
        (firstExample.checked.enter_RUNNING c now)) ∧
      (∀ c, Checked.Run.keeps firstExample.STATE_COUNT firstExample.OR_STATE_COUNT
        (firstExample.checked.exit_RUNNING c))) ∧
    ((∀ i : Nat, i < submachineTest0.STATE_COUNT ↔
        i ∈ [submachineTest0.checked.G_INDEX_Sub0, submachineTest0.checked.G_INDEX_root,
          submachineTest0.checked.G_INDEX_A__Sub0, submachineTest0.checked.G_INDEX_B__Sub0,
          submachineTest0.checked.G_INDEX_A, submachineTest0.checked.G_INDEX_B]) ∧
      (∀ i : Nat, i < submachineTest0.OR_STATE_COUNT ↔
        i ∈ [submachineTest0.checked.G_INDEX_Sub0, submachineTest0.checked.G_INDEX_root]) ∧
      submachineTest0.checked.G_INDEX_Sub0 = 0 ∧ submachineTest0.checked.G_INDEX_root = 1 ∧
      submachineTest0.OR_STATE_COUNT = 2 ∧
      (∀ now, Checked.Run.keeps submachineTest0.STATE_COUNT submachineTest0.OR_STATE_COUNT
        (submachineTest0.checked.initStateMachine_submachineTest0 now)) ∧
      (∀ event_p now,
        Checked.Run.keeps submachineTest0.STATE_COUNT submachineTest0.OR_STATE_COUNT
          (submachineTest0.checked.dispatchEvent_submachineTest0 event_p now)) ∧
      (∀ c now, Checked.Run.keeps submachineTest0.STATE_COUNT submachineTest0.OR_STATE_COUNT
        (submachineTest0.checked.enter_Sub0 c now)) ∧
      (∀ c, Checked.Run.keeps submachineTest0.STATE_COUNT submachineTest0.OR_STATE_COUNT
        (submachineTest0.checked.exit_Sub0 c)) ∧
      (∀ c now, Checked.Run.keeps submachineTest0.STATE_COUNT submachineTest0.OR_STATE_COUNT
        (submachineTest0.checked.enter_root c now)) ∧
      (∀ c now, Checked.Run.keeps submachineTest0.STATE_COUNT submachineTest0.OR_STATE_COUNT
        (submachineTest0.checked.enter_A__Sub0 c now)) ∧
      (∀ c, Checked.Run.keeps submachineTest0.STATE_COUNT submachineTest0.OR_STATE_COUNT
        (submachineTest0.checked.exit_A__Sub0 c)) ∧
      (∀ c now, Checked.Run.keeps submachineTest0.STATE_COUNT submachineTest0.OR_STATE_COUNT
        (submachineTest0.checked.enter_B__Sub0 c now)) ∧
      (∀ c, Checked.Run.keeps submachineTest0.STATE_COUNT submachineTest0.OR_STATE_COUNT
        (submachineTest0.checked.exit_B__Sub0 c)) ∧
      (∀ c now, Checked.Run.keeps submachineTest0.STATE_COUNT submachineTest0.OR_STATE_COUNT
        (submachineTest0.checked.enter_A c now)) ∧
      (∀ c, Checked.Run.keeps submachineTest0.STATE_COUNT submachineTest0.OR_STATE_COUNT
        (submachineTest0.checked.exit_A c)) ∧
      (∀ c now, Checked.Run.keeps submachineTest0.STATE_COUNT submachineTest0.OR_STATE_COUNT
        (submachineTest0.checked.enter_B c now)) ∧
      (∀ c, Checked.Run.keeps submachineTest0.STATE_COUNT submachineTest0.OR_STATE_COUNT
        (submachineTest0.checked.exit_B c))) ∧
    ((∀ i : Nat, i < submachineTest1.STATE_COUNT ↔
        i ∈ [submachineTest1.checked.G_INDEX_Sub1, submachineTest1.checked.G_INDEX_root,
          submachineTest1.checked.G_INDEX_B, submachineTest1.checked.G_INDEX_V__Sub1,
          submachineTest1.checked.G_INDEX_U__Sub1, submachineTest1.checked.G_INDEX_A]) ∧
      (∀ i : Nat, i < submachineTest1.OR_STATE_COUNT ↔
        i ∈ [submachineTest1.checked.G_INDEX_Sub1, submachineTest1.checked.G_INDEX_root]) ∧
      submachineTest1.checked.G_INDEX_Sub1 = 0 ∧ submachineTest1.checked.G_INDEX_root = 1 ∧
      submachineTest1.OR_STATE_COUNT = 2 ∧
      (∀ now, Checked.Run.keeps submachineTest1.STATE_COUNT submachineTest1.OR_STATE_COUNT
        (submachineTest1.checked.initStateMachine_submachineTest1 now)) ∧
      (∀ cb event_p now,
        Checked.Run.keeps submachineTest1.STATE_COUNT submachineTest1.OR_STATE_COUNT
          (submachineTest1.checked.dispatchEvent_submachineTest1 cb event_p now)) ∧
      (∀ c now, Checked.Run.keeps submachineTest1.STATE_COUNT submachineTest1.OR_STATE_COUNT
        (submachineTest1.checked.enter_Sub1 c now)) ∧
      (∀ c, Checked.Run.keeps submachineTest1.STATE_COUNT submachineTest1.OR_STATE_COUNT
        (submachineTest1.checked.exit_Sub1 c)) ∧
      (∀ c now, Checked.Run.keeps submachineTest1.STATE_COUNT submachineTest1.OR_STATE_COUNT
        (submachineTest1.checked.enter_root c now)) ∧
      (∀ c now, Checked.Run.keeps submachineTest1.STATE_COUNT submachineTest1.OR_STATE_COUNT
        (submachineTest1.checked.enter_B c now)) ∧
      (∀ c, Checked.Run.keeps submachineTest1.STATE_COUNT submachineTest1.OR_STATE_COUNT
        (submachineTest1.checked.exit_B c)) ∧
      (∀ c now, Checked.Run.keeps submachineTest1.STATE_COUNT submachineTest1.OR_STATE_COUNT
        (submachineTest1.checked.enter_V__Sub1 c now)) ∧
      (∀ c, Checked.Run.keeps submachineTest1.STATE_COUNT submachineTest1.OR_STATE_COUNT
        (submachineTest1.checked.exit_V__Sub1 c)) ∧
      (∀ c now, Checked.Run.keeps submachineTest1.STATE_COUNT submachineTest1.OR_STATE_COUNT
        (submachineTest1.checked.enter_U__Sub1 c now)) ∧
      (∀ c, Checked.Run.keeps submachineTest1.STATE_COUNT submachineTest1.OR_STATE_COUNT
        (submachineTest1.checked.exit_U__Sub1 c)) ∧
      (∀ c now, Checked.Run.keeps submachineTest1.STATE_COUNT submachineTest1.OR_STATE_COUNT
        (submachineTest1.checked.enter_A c now)) ∧
      (∀ c, Checked.Run.keeps submachineTest1.STATE_COUNT submachineTest1.OR_STATE_COUNT
        (submachineTest1.checked.exit_A c))) := by
  refine ⟨⟨?_, ?_, rfl, rfl, ?_⟩, ⟨?_, ?_, rfl, rfl, rfl, ?_⟩, ⟨?_, ?_, rfl, rfl, rfl, ?_⟩⟩
  · intro i
    simp only [firstExample.STATE_COUNT, firstExample.OR_STATE_COUNT,
      firstExample.checked.G_INDEX_root, firstExample.checked.G_INDEX_IDLE,
      firstExample.checked.G_INDEX_RUNNING, List.mem_cons, List.mem_singleton,
      List.mem_nil_iff, or_false]
    omega
  · intro i
    simp only [firstExample.OR_STATE_COUNT, firstExample.checked.G_INDEX_root,
      List.mem_singleton]
    omega
  · exact ⟨firstExample.checked.keeps_initStateMachine_firstExample,
      firstExample.checked.keeps_dispatchEvent_firstExample,
      firstExample.checked.keeps_enter_root, firstExample.checked.keeps_enter_IDLE,
      firstExample.checked.keeps_exit_IDLE, firstExample.checked.keeps_enter_RUNNING,
      firstExample.checked.keeps_exit_RUNNING⟩
  · intro i
    simp only [submachineTest0.STATE_COUNT, submachineTest0.OR_STATE_COUNT,
      submachineTest0.checked.G_INDEX_Sub0, submachineTest0.checked.G_INDEX_root,
      submachineTest0.checked.G_INDEX_A__Sub0, submachineTest0.checked.G_INDEX_B__Sub0,
      submachineTest0.checked.G_INDEX_A, submachineTest0.checked.G_INDEX_B, List.mem_cons,
      List.mem_singleton, List.mem_nil_iff, or_false]
    omega
  · intro i
    simp only [submachineTest0.STATE_COUNT, submachineTest0.OR_STATE_COUNT,
      submachineTest0.checked.G_INDEX_Sub0, submachineTest0.checked.G_INDEX_root,
      List.mem_cons, List.mem_singleton, List.mem_nil_iff, or_false]
    omega
  · exact ⟨submachineTest0.checked.keeps_initStateMachine_submachineTest0,
      submachineTest0.checked.keeps_dispatchEvent_submachineTest0,
      submachineTest0.checked.keeps_enter_Sub0_test0, submachineTest0.checked.keeps_exit_Sub0_test0,
      submachineTest0.checked.keeps_enter_root_test0,
      submachineTest0.checked.keeps_enter_A__Sub0_test0,
      submachineTest0.checked.keeps_exit_A__Sub0_test0,
      submachineTest0.checked.keeps_enter_B__Sub0_test0,
      submachineTest0.checked.keeps_exit_B__Sub0_test0, submachineTest0.checked.keeps_enter_A_test0,
      submachineTest0.checked.keeps_exit_A_test0, submachineTest0.checked.keeps_enter_B_test0,
      submachineTest0.checked.keeps_exit_B_test0⟩
  · intro i
    simp only [submachineTest1.STATE_COUNT, submachineTest1.OR_STATE_COUNT,
      submachineTest1.checked.G_INDEX_Sub1, submachineTest1.checked.G_INDEX_root,
      submachineTest1.checked.G_INDEX_B, submachineTest1.checked.G_INDEX_V__Sub1,
      submachineTest1.checked.G_INDEX_U__Sub1, submachineTest1.checked.G_INDEX_A, List.mem_cons,
      List.mem_singleton, List.mem_nil_iff, or_false]
    omega
  · intro i
    simp only [submachineTest1.STATE_COUNT, submachineTest1.OR_STATE_COUNT,
      submachineTest1.checked.G_INDEX_Sub1, submachineTest1.checked.G_INDEX_root,
      List.mem_cons, List.mem_singleton, List.mem_nil_iff, or_false]
    omega
  · exact ⟨submachineTest1.checked.keeps_initStateMachine_submachineTest1,
      submachineTest1.checked.keeps_dispatchEvent_submachineTest1,
      submachineTest1.checked.keeps_enter_Sub1_test1, submachineTest1.checked.keeps_exit_Sub1_test1,
      submachineTest1.checked.keeps_enter_root_test1, submachineTest1.checked.keeps_enter_B_test1,
      submachineTest1.checked.keeps_exit_B_test1, submachineTest1.checked.keeps_enter_V__Sub1_test1,
      submachineTest1.checked.keeps_exit_V__Sub1_test1,
      submachineTest1.checked.keeps_enter_U__Sub1_test1,
      submachineTest1.checked.keeps_exit_U__Sub1_test1, submachineTest1.checked.keeps_enter_A_test1,
      submachineTest1.checked.keeps_exit_A_test1⟩

/-- Witness for C26: in firstExample, initialisation of the zeroed memory followed by the
dispatch of `GO` with a ready guard makes the fourteen accesses listed, and every one is inside
its array; in submachineTest0 the run init, `P`, `Q`, `TICK` reaches the composite state
`Sub0`, subscripts `currentChild_a` with both composite indices, and stays in bounds. -/
theorem every_array_access_in_bounds_witness :
    (Checked.Memory.zero 3 1).safe firstExample.STATE_COUNT firstExample.OR_STATE_COUNT ∧
    (firstExample.checked.dispatchEvent_firstExample firstExample.readyCallables
        (firstExample.eventOf .GO) 5
        (firstExample.checked.initStateMachine_firstExample 0
          (Checked.Memory.zero 3 1)).2).2.accesses =
      [⟨.isIn_a, 0⟩, ⟨.timeEntered_a, 0⟩, ⟨.isIn_a, 1⟩, ⟨.timeEntered_a, 1⟩,
        ⟨.currentChild_a, 0⟩, ⟨.currentChild_a, 0⟩, ⟨.handled_a, 1⟩, ⟨.isIn_a, 1⟩,
        ⟨.isIn_a, 2⟩, ⟨.timeEntered_a, 2⟩, ⟨.currentChild_a, 0⟩, ⟨.handled_a, 1⟩,
        ⟨.handled_a, 0⟩, ⟨.handled_a, 0⟩] ∧
    (firstExample.checked.dispatchEvent_firstExample firstExample.readyCallables
        (firstExample.eventOf .GO) 5
        (firstExample.checked.initStateMachine_firstExample 0
          (Checked.Memory.zero 3 1)).2).2.safe
      firstExample.STATE_COUNT firstExample.OR_STATE_COUNT ∧
    (⟨.currentChild_a, 0⟩ : Checked.access_t) ∈
      (submachineTest0.checked.dispatchEvent_submachineTest0 ⟨.TICK⟩ 3
        (submachineTest0.checked.dispatchEvent_submachineTest0 ⟨.Q⟩ 2
          (submachineTest0.checked.dispatchEvent_submachineTest0 ⟨.P⟩ 1
            (submachineTest0.checked.initStateMachine_submachineTest0 0
              (Checked.Memory.zero 6 2)).2).2).2).2.accesses ∧
    (⟨.currentChild_a, 1⟩ : Checked.access_t) ∈
      (submachineTest0.checked.dispatchEvent_submachineTest0 ⟨.TICK⟩ 3
        (submachineTest0.checked.dispatchEvent_submachineTest0 ⟨.Q⟩ 2
          (submachineTest0.checked.dispatchEvent_submachineTest0 ⟨.P⟩ 1
            (submachineTest0.checked.initStateMachine_submachineTest0 0
              (Checked.Memory.zero 6 2)).2).2).2).2.accesses ∧
    (submachineTest0.checked.dispatchEvent_submachineTest0 ⟨.TICK⟩ 3
        (submachineTest0.checked.dispatchEvent_submachineTest0 ⟨.Q⟩ 2
          (submachineTest0.checked.dispatchEvent_submachineTest0 ⟨.P⟩ 1
            (submachineTest0.checked.initStateMachine_submachineTest0 0
              (Checked.Memory.zero 6 2)).2).2).2).2.safe
      submachineTest0.STATE_COUNT submachineTest0.OR_STATE_COUNT :=
  ⟨Checked.safe_zero 3 1, rfl,
    every_array_access_in_bounds.1.2.2.2.2.2.1 _ _ _ _
      (every_array_access_in_bounds.1.2.2.2.2.1 _ _ (Checked.safe_zero 3 1)),
    by decide, by decide,
    every_array_access_in_bounds.2.1.2.2.2.2.2.2.1 _ _ _
      (every_array_access_in_bounds.2.1.2.2.2.2.2.2.1 _ _ _
        (every_array_access_in_bounds.2.1.2.2.2.2.2.2.1 _ _ _
          (every_array_access_in_bounds.2.1.2.2.2.2.2.1 _ _ (Checked.safe_zero 6 2))))⟩
